import Mathlib

/-!
Core/HLE/sceUtility.cpp: the utility module loader and the dialog session.

A shallow embedding of the pseudo-firmware module loader of `sceUtility.cpp`
(the `moduleLoadInfo` catalogue, `__UtilityModuleInfo`, `LoadModuleInternal`,
`UnloadModuleInternal` and the four syscalls layered on top of them), of the
dialog session (`ActivateDialog`, `DeactivateDialog`, `CleanupDialogThreads`
and the dialog syscalls) and of `sceUtilitySetSystemParamInt`, followed by
theorems about them.

Conventions of the embedding.

* A `u32` argument is a `Nat`; the implicit `u32 -> int` conversion C++ performs
  at a call such as `__UtilityModuleInfo(module)` or
  `currentlyLoadedModules.find(module)` is `u32ToInt`; the `int -> u32`
  conversion on the return path of the `u32` syscalls is `intToU32`.
* `std::map<int, u32>` is an association list kept in ascending key order
  (`ModuleMap`).
* `userMemory` (a `BlockAllocator`, declared outside this file) is an abstract
  state `α` with the two operations the loader calls, passed as a parameter.
* The `SCE_...` error constants come from `Core/HLE/ErrorCodes.h`, which is not
  part of the embedded sources: they are a parameter (`ErrorCodes`).
* Calls that leave the file (allocator, notify callbacks and what those call)
  are appended to a chronological `trace`.  Logging is not modelled.
* The dialog objects, `HLEHelperThread` and the kernel are outside the
  embedded sources: their methods are a parameter (`Env`) acting on an abstract
  outside state, and a dialog method may change only what code outside the
  file can reach (`Outside`).  The dialog syscalls record what they do in a
  chronological `log`.
-/

namespace SceUtility

/-! ## Machine integers -/

/-- Conversion `u32 -> int` (two's complement reinterpretation). -/
def u32ToInt (x : Nat) : Int :=
  if x % 2 ^ 32 < 2 ^ 31 then ((x % 2 ^ 32 : Nat) : Int) else ((x % 2 ^ 32 : Nat) : Int) - 2 ^ 32

/-- Conversion `int -> u32` (reduction modulo `2^32`). -/
def intToU32 (x : Int) : Nat := (x % 2 ^ 32).toNat

/-! ## Error constants (from `Core/HLE/ErrorCodes.h`, taken as a parameter) -/

/-- The error constants `sceUtility.cpp` returns from the module loader, as the
`int` values the functions return. -/
structure ErrorCodes where
  SCE_ERROR_MODULE_BAD_ID : Int
  SCE_ERROR_MODULE_ALREADY_LOADED : Int
  SCE_ERROR_MODULE_NOT_LOADED : Int
  SCE_ERROR_AV_MODULE_BAD_ID : Int
  SCE_KERNEL_ERROR_LIBRARY_NOTFOUND : Int
  deriving DecidableEq, Repr

/-- The error constants are 32-bit `int` values with the sign bit set, as every
PSP error code is; in particular none of them is the success value `0`. -/
def ErrorCodes.Valid (E : ErrorCodes) : Prop :=
  (-(2 ^ 31) ≤ E.SCE_ERROR_MODULE_BAD_ID ∧ E.SCE_ERROR_MODULE_BAD_ID < 0) ∧
  (-(2 ^ 31) ≤ E.SCE_ERROR_MODULE_ALREADY_LOADED ∧ E.SCE_ERROR_MODULE_ALREADY_LOADED < 0) ∧
  (-(2 ^ 31) ≤ E.SCE_ERROR_MODULE_NOT_LOADED ∧ E.SCE_ERROR_MODULE_NOT_LOADED < 0) ∧
  (-(2 ^ 31) ≤ E.SCE_ERROR_AV_MODULE_BAD_ID ∧ E.SCE_ERROR_AV_MODULE_BAD_ID < 0) ∧
  (-(2 ^ 31) ≤ E.SCE_KERNEL_ERROR_LIBRARY_NOTFOUND ∧ E.SCE_KERNEL_ERROR_LIBRARY_NOTFOUND < 0)

instance (E : ErrorCodes) : Decidable E.Valid := by
  unfold ErrorCodes.Valid; infer_instance

/-- A sample assignment of the constants (the values 0x80111101, 0x80111102,
0x80111103, 0x80110F01 and 0x8002013C read as `int`), used to instantiate the
parameter at concrete inputs. -/
def sampleErrorCodes : ErrorCodes where
  SCE_ERROR_MODULE_BAD_ID := 0x80111101 - 2 ^ 32
  SCE_ERROR_MODULE_ALREADY_LOADED := 0x80111102 - 2 ^ 32
  SCE_ERROR_MODULE_NOT_LOADED := 0x80111103 - 2 ^ 32
  SCE_ERROR_AV_MODULE_BAD_ID := 0x80110F01 - 2 ^ 32
  SCE_KERNEL_ERROR_LIBRARY_NOTFOUND := 0x8002013C - 2 ^ 32

/-! ## The module catalogue -/

/-- The two notify callbacks of the file, `NotifyLoadStatusAvcodec` and
`NotifyLoadStatusAtrac`. -/
inductive ModuleLoadCallback where
  | NotifyLoadStatusAvcodec
  | NotifyLoadStatusAtrac
  deriving DecidableEq, Repr

/-- The record `struct ModuleLoadInfo`.  `dependencies` is the zero-terminated `int` array
the C++ field points to, terminator included; `notify` is `none` for a null
callback. -/
structure ModuleLoadInfo where
  mod : Int
  size : Nat
  name : String
  dependencies : List Int
  notify : Option ModuleLoadCallback
  deriving DecidableEq, Repr

def noDeps : List Int := [0]
def httpModuleDeps : List Int := [0x0102, 0x0103, 0x0104, 0]
def sslModuleDeps : List Int := [0x0102, 0]
def httpStorageModuleDeps : List Int := [0x00100, 0x0102, 0x0103, 0x0104, 0x0105, 0]
def atrac3PlusModuleDeps : List Int := [0x0300, 0]
def mpegBaseModuleDeps : List Int := [0x0300, 0]
def mp4ModuleDeps : List Int := [0x0300, 0]

/-- Constructor `ModuleLoadInfo(int m, u32 s, const char *_name, ModuleLoadCallback n)`:
the dependencies are `noDeps`. -/
def ModuleLoadInfo.ctor (m : Int) (s : Nat) (name : String)
    (n : Option ModuleLoadCallback) : ModuleLoadInfo :=
  { mod := m, size := s, name := name, dependencies := noDeps, notify := n }

/-- Constructor
`ModuleLoadInfo(int m, u32 s, const char *_name, const int *d, ModuleLoadCallback n)`. -/
def ModuleLoadInfo.ctorDeps (m : Int) (s : Nat) (name : String) (d : List Int)
    (n : Option ModuleLoadCallback) : ModuleLoadInfo :=
  { mod := m, size := s, name := name, dependencies := d, notify := n }

/-- The table `moduleLoadInfo[]`, in source order. -/
def moduleLoadInfo : List ModuleLoadInfo := [
  ModuleLoadInfo.ctor 0x100 0x00014000 "net_common" none,
  ModuleLoadInfo.ctor 0x101 0x00020000 "net_adhoc" none,
  ModuleLoadInfo.ctor 0x102 0x00058000 "net_inet" none,
  ModuleLoadInfo.ctor 0x103 0x00006000 "net_parse_uri" none,
  ModuleLoadInfo.ctor 0x104 0x00002000 "net_parse_http" none,
  ModuleLoadInfo.ctorDeps 0x105 0x00028000 "net_http" httpModuleDeps none,
  ModuleLoadInfo.ctorDeps 0x106 0x00044000 "net_ssl" sslModuleDeps none,
  ModuleLoadInfo.ctor 0x107 0x00010000 "unk_0x107" none,
  ModuleLoadInfo.ctorDeps 0x108 0x00008000 "usb_pspcm" httpStorageModuleDeps none,
  ModuleLoadInfo.ctor 0x200 0x00000000 "usb_mic" none,
  ModuleLoadInfo.ctor 0x201 0x00000000 "usb_cam" none,
  ModuleLoadInfo.ctor 0x202 0x00000000 "usb_gps" none,
  ModuleLoadInfo.ctor 0x203 0x00000000 "usb_unk_0x203" none,
  ModuleLoadInfo.ctor 0x2ff 0x00000000 "unk_0x2ff" none,
  ModuleLoadInfo.ctor 0x300 0x00000000 "av_avcodec" (some .NotifyLoadStatusAvcodec),
  ModuleLoadInfo.ctor 0x301 0x00000000 "av_sascore" none,
  ModuleLoadInfo.ctorDeps 0x302 0x00008000 "av_atrac3plus" atrac3PlusModuleDeps
    (some .NotifyLoadStatusAtrac),
  ModuleLoadInfo.ctorDeps 0x303 0x0000c000 "av_mpegbase" mpegBaseModuleDeps none,
  ModuleLoadInfo.ctor 0x304 0x00004000 "av_mp3" none,
  ModuleLoadInfo.ctor 0x305 0x0000a300 "av_vaudio" none,
  ModuleLoadInfo.ctor 0x306 0x00004000 "av_aac" none,
  ModuleLoadInfo.ctor 0x307 0x00000000 "av_g729" none,
  ModuleLoadInfo.ctorDeps 0x308 0x0003c000 "av_mp4" mp4ModuleDeps none,
  ModuleLoadInfo.ctor 0x3fe 0x00000000 "me_stuff" none,
  ModuleLoadInfo.ctor 0x3ff 0x00000000 "me_core" none,
  ModuleLoadInfo.ctor 0x400 0x0000c000 "np_common" none,
  ModuleLoadInfo.ctor 0x401 0x00018000 "np_service" none,
  ModuleLoadInfo.ctor 0x402 0x00048000 "np_matching2" none,
  ModuleLoadInfo.ctor 0x403 0x0000e000 "np_unk_0x403" none,
  ModuleLoadInfo.ctor 0x500 0x00000000 "np_drm" none,
  ModuleLoadInfo.ctor 0x600 0x00000000 "irda" none,
  ModuleLoadInfo.ctor 0x601 0x00000000 "unk_0x601" none
]

/-- The lookup `__UtilityModuleInfo(int module)`: the first entry of `moduleLoadInfo` whose
`mod` equals `module`, or null. -/
def __UtilityModuleInfo (module : Int) : Option ModuleLoadInfo :=
  moduleLoadInfo.find? (fun info => decide (info.mod = module))

/-! ## The loaded-module table, `std::map<int, u32>` -/

/-- The contents of a `std::map<int, u32>`: its (key, value) pairs in iteration
(ascending key) order. -/
abbrev ModuleMap := List (Int × Nat)

/-- The lookup `m.find(k)`: `none` stands for `end()`, `some v` for an iterator whose
`second` is `v`. -/
def ModuleMap.find (m : ModuleMap) (k : Int) : Option Nat :=
  match m with
  | [] => none
  | (k1, v1) :: rest => if k1 = k then some v1 else ModuleMap.find rest k

/-- The assignment `m[k] = v`: overwrite the value of an existing key, or insert the pair at
its place in key order. -/
def ModuleMap.assign (m : ModuleMap) (k : Int) (v : Nat) : ModuleMap :=
  match m with
  | [] => [(k, v)]
  | (k1, v1) :: rest =>
    if k < k1 then (k, v) :: (k1, v1) :: rest
    else if k = k1 then (k, v) :: rest
    else (k1, v1) :: ModuleMap.assign rest k v

/-- The call `m.erase(k)`: remove every element whose key is `k` (at most one in a
`std::map`). -/
def ModuleMap.erase (m : ModuleMap) (k : Int) : ModuleMap :=
  match m with
  | [] => []
  | (k1, v1) :: rest =>
    if k1 = k then ModuleMap.erase rest k else (k1, v1) :: ModuleMap.erase rest k

/-- The keys of the table, in order. -/
def ModuleMap.keys (m : ModuleMap) : List Int := m.map Prod.fst

/-- The representation invariant of `std::map`: keys strictly ascending. -/
def ModuleMap.WF (m : ModuleMap) : Prop := (ModuleMap.keys m).Chain' (fun a b => a < b)

instance (m : ModuleMap) : Decidable (ModuleMap.WF m) := by
  unfold ModuleMap.WF; infer_instance

/-! ## The world outside the file -/

/-- The two methods of `userMemory` (a `BlockAllocator`) the loader calls, over
an abstract allocator state `α`.  `Alloc size fromTop tag` yields the `u32` it
returns (the block address, or the allocator's failure value); `Free address`
yields its `bool`. -/
structure BlockAllocator (α : Type) where
  Alloc : α → Nat → Bool → String → Nat × α
  Free : α → Nat → Bool × α

/-- Calls that leave `sceUtility.cpp`, and invocations of a notify callback. -/
inductive Event where
  /-- The call `userMemory.Alloc(size, fromTop, tag)` and the value it returned. -/
  | Alloc (size : Nat) (fromTop : Bool) (tag : String) (result : Nat)
  /-- The call `userMemory.Free(address)`. -/
  | Free (address : Nat)
  /-- The call `info->notify(state, loadAddr, totalSize)`. -/
  | Notify (cb : ModuleLoadCallback) (state : Int) (loadAddr totalSize : Nat)
  /-- The call `JpegNotifyLoadStatus(state)`. -/
  | JpegNotifyLoadStatus (state : Int)
  /-- The call `__AtracNotifyLoadModule(version, crc, bssAddr, bssSize)`. -/
  | AtracNotifyLoadModule (version : Int) (crc : Nat) (bssAddr : Nat) (bssSize : Int)
  /-- The call `__AtracNotifyUnloadModule()`. -/
  | AtracNotifyUnloadModule
  deriving DecidableEq, Repr

/-- The globals the module loader reads and writes: `currentlyLoadedModules`,
`userMemory`, and the chronological record of the calls made so far. -/
structure LoaderState (α : Type) where
  currentlyLoadedModules : ModuleMap
  userMemory : α
  trace : List Event

/-- Body of `NotifyLoadStatusAvcodec(state, loadAddr, totalSize)`. -/
def NotifyLoadStatusAvcodec (state : Int) (_loadAddr _totalSize : Nat) : List Event :=
  [Event.JpegNotifyLoadStatus state]

/-- Body of `NotifyLoadStatusAtrac(state, loadAddr, totalSize)`.  The check of
`g_Config.iDisableHLE` only logs and debug-asserts, as does
`_dbg_assert_(bssSize <= totalSize)`; neither is modelled. -/
def NotifyLoadStatusAtrac (state : Int) (loadAddr _totalSize : Nat) : List Event :=
  if state = 1 then
    [Event.AtracNotifyLoadModule 0x105 0 loadAddr 0x67C]
  else if state = -1 then
    [Event.AtracNotifyUnloadModule]
  else
    []

/-- The call `info->notify(state, loadAddr, totalSize)` through the function
pointer `cb`: the invocation itself followed by what the callee does. -/
def callNotify (cb : ModuleLoadCallback) (state : Int) (loadAddr totalSize : Nat) :
    List Event :=
  Event.Notify cb state loadAddr totalSize ::
    (match cb with
     | .NotifyLoadStatusAvcodec => NotifyLoadStatusAvcodec state loadAddr totalSize
     | .NotifyLoadStatusAtrac => NotifyLoadStatusAtrac state loadAddr totalSize)

/-! ## `LoadModuleInternal` and `UnloadModuleInternal` -/

/-- Lower-case hexadecimal digits of `n`, as `%x` prints them. -/
def hexLower (n : Nat) : String := String.mk (Nat.toDigits 16 n)

/-- The conversion `%3x`: right-justified in a field of width 3. -/
def fmt3x (n : Nat) : String :=
  String.mk (List.replicate (3 - (hexLower n).length) ' ') ++ hexLower n

/-- The tag built by
`snprintf(name, sizeof(name), "UtilityModule/%3x_%s", module, info->name)` with
`char name[128]`: at most 127 characters are kept. -/
def allocTag (module : Nat) (name : String) : String :=
  String.mk ((("UtilityModule/" ++ fmt3x (module % 2 ^ 32) ++ "_" ++ name).toList).take 127)

/-- The dependency loop of `LoadModuleInternal`,
`for (dep = info->dependencies; *dep != 0; ++dep)`: `false` when it returns
early because a dependency is not in the table, `true` when it reaches the
terminator. -/
def depsLoaded (t : ModuleMap) : List Int → Bool
  | [] => true
  | dep :: rest =>
    if dep = 0 then true
    else if (ModuleMap.find t dep).isNone then false
    else depsLoaded t rest

/-- The function `static int LoadModuleInternal(u32 module)`. -/
def LoadModuleInternal {α : Type} (A : BlockAllocator α) (E : ErrorCodes) (module : Nat)
    (s : LoaderState α) : Int × LoaderState α :=
  match __UtilityModuleInfo (u32ToInt module) with
  | none => (E.SCE_ERROR_MODULE_BAD_ID, s)
  | some info =>
    if (ModuleMap.find s.currentlyLoadedModules (u32ToInt module)).isSome then
      (E.SCE_ERROR_MODULE_ALREADY_LOADED, s)
    else if !depsLoaded s.currentlyLoadedModules info.dependencies then
      (E.SCE_KERNEL_ERROR_LIBRARY_NOTFOUND, s)
    else
      let allocSize := info.size
      let name := allocTag module info.name
      let s1 : Nat × LoaderState α :=
        if allocSize ≠ 0 then
          let r := A.Alloc s.userMemory allocSize false name
          (r.1, { s with userMemory := r.2,
                         trace := s.trace ++ [Event.Alloc allocSize false name r.1] })
        else (0, s)
      let address := s1.1
      let s2 : LoaderState α :=
        { s1.2 with currentlyLoadedModules :=
            ModuleMap.assign s1.2.currentlyLoadedModules (u32ToInt module) address }
      let s3 : LoaderState α :=
        match info.notify with
        | some cb => { s2 with trace := s2.trace ++ callNotify cb 1 address allocSize }
        | none => s2
      (0, s3)

/-- The function `static int UnloadModuleInternal(u32 module)`. -/
def UnloadModuleInternal {α : Type} (A : BlockAllocator α) (E : ErrorCodes) (module : Nat)
    (s : LoaderState α) : Int × LoaderState α :=
  match __UtilityModuleInfo (u32ToInt module) with
  | none => (E.SCE_ERROR_MODULE_BAD_ID, s)
  | some info =>
    match ModuleMap.find s.currentlyLoadedModules (u32ToInt module) with
    | none => (E.SCE_ERROR_MODULE_NOT_LOADED, s)
    | some second =>
      let s1 : LoaderState α :=
        if second ≠ 0 then
          { s with userMemory := (A.Free s.userMemory second).2,
                   trace := s.trace ++ [Event.Free second] }
        else s
      let s2 : LoaderState α :=
        { s1 with currentlyLoadedModules :=
            ModuleMap.erase s1.currentlyLoadedModules (u32ToInt module) }
      let s3 : LoaderState α :=
        match info.notify with
        | some cb => { s2 with trace := s2.trace ++ callNotify cb (-1) 0 0 }
        | none => s2
      (0, s3)

/-! ## The syscalls -/

/-- What a `u32` syscall hands back: the value, and the delay in microseconds
when the value goes through `hleDelayResult` (`none` for a plain return). -/
structure HLEResult where
  value : Nat
  delayUs : Option Nat
  deriving DecidableEq, Repr

/-- The syscall `static u32 sceUtilityLoadAvModule(u32 module)`. -/
def sceUtilityLoadAvModule {α : Type} (A : BlockAllocator α) (E : ErrorCodes) (module : Nat)
    (s : LoaderState α) : HLEResult × LoaderState α :=
  if module > 7 then
    ({ value := intToU32 E.SCE_ERROR_AV_MODULE_BAD_ID, delayUs := none }, s)
  else
    let r := LoadModuleInternal A E (0x300 ||| module) s
    ({ value := intToU32 r.1, delayUs := some 25000 }, r.2)

/-- The syscall `static u32 sceUtilityUnloadAvModule(u32 module)`. -/
def sceUtilityUnloadAvModule {α : Type} (A : BlockAllocator α) (E : ErrorCodes) (module : Nat)
    (s : LoaderState α) : HLEResult × LoaderState α :=
  if module > 7 then
    ({ value := intToU32 E.SCE_ERROR_AV_MODULE_BAD_ID, delayUs := none }, s)
  else
    let r := UnloadModuleInternal A E (0x300 ||| module) s
    ({ value := intToU32 r.1, delayUs := some 800 }, r.2)

/-- The syscall `static u32 sceUtilityLoadModule(u32 module)`. -/
def sceUtilityLoadModule {α : Type} (A : BlockAllocator α) (E : ErrorCodes) (module : Nat)
    (s : LoaderState α) : HLEResult × LoaderState α :=
  let r := LoadModuleInternal A E module s
  if module = 0x3FF then
    ({ value := intToU32 r.1, delayUs := some 130 }, r.2)
  else
    ({ value := intToU32 r.1, delayUs := some 25000 }, r.2)

/-- The syscall `static u32 sceUtilityUnloadModule(u32 module)`. -/
def sceUtilityUnloadModule {α : Type} (A : BlockAllocator α) (E : ErrorCodes) (module : Nat)
    (s : LoaderState α) : HLEResult × LoaderState α :=
  let r := UnloadModuleInternal A E module s
  if module = 0x3FF then
    ({ value := intToU32 r.1, delayUs := some 110 }, r.2)
  else
    ({ value := intToU32 r.1, delayUs := some 400 }, r.2)

/-- A guest call to one of the four module syscalls, with its `u32` argument. -/
inductive ModuleCall where
  | LoadModule (module : Nat)
  | UnloadModule (module : Nat)
  | LoadAvModule (module : Nat)
  | UnloadAvModule (module : Nat)
  deriving DecidableEq, Repr

/-- Execute one guest call. -/
def ModuleCall.exec {α : Type} (A : BlockAllocator α) (E : ErrorCodes) (c : ModuleCall)
    (s : LoaderState α) : HLEResult × LoaderState α :=
  match c with
  | .LoadModule m => sceUtilityLoadModule A E m s
  | .UnloadModule m => sceUtilityUnloadModule A E m s
  | .LoadAvModule m => sceUtilityLoadAvModule A E m s
  | .UnloadAvModule m => sceUtilityUnloadAvModule A E m s

/-- Execute a sequence of guest calls in order; the state after the last. -/
def runCalls {α : Type} (A : BlockAllocator α) (E : ErrorCodes) :
    List ModuleCall → LoaderState α → LoaderState α
  | [], s => s
  | c :: cs, s => runCalls A E cs (ModuleCall.exec A E c s).2

/-- The loader part of `__UtilityInit`: `currentlyLoadedModules.clear()`, with
nothing recorded yet. -/
def LoaderState.init {α : Type} (mem : α) : LoaderState α :=
  { currentlyLoadedModules := [], userMemory := mem, trace := [] }

/-- The invocations of notify callbacks recorded in a trace, in order. -/
def notifyCalls : List Event → List (ModuleLoadCallback × Int × Nat × Nat)
  | [] => []
  | Event.Notify cb st a sz :: rest => (cb, st, a, sz) :: notifyCalls rest
  | _ :: rest => notifyCalls rest

/-- A sample allocator for concrete runs: a bump allocator whose state is the
next free address. -/
def bumpAllocator : BlockAllocator Nat where
  Alloc := fun next size _ _ => (next, next + size)
  Free := fun next _ => (true, next)

/-- The dependency list of a catalogue entry as the loop reads it: the ids
before the zero terminator. -/
def depList (info : ModuleLoadInfo) : List Int :=
  info.dependencies.takeWhile (fun d => decide (d ≠ 0))

/-- The id `module` is in the catalogue: some entry of `moduleLoadInfo` has it
as its `mod`. -/
def inCatalog (module : Int) : Prop := ∃ info ∈ moduleLoadInfo, info.mod = module

instance (module : Int) : Decidable (inCatalog module) := by
  unfold inCatalog; infer_instance

/-- The table key a guest call removes when it succeeds: `UnloadModule m` and
`UnloadAvModule i` (for `i <= 7`) reach `currentlyLoadedModules.erase`, the
loads never do. -/
def ModuleCall.unloadKey : ModuleCall → Option Int
  | .UnloadModule m => some (u32ToInt m)
  | .UnloadAvModule m => if m > 7 then none else some (u32ToInt (0x300 ||| m))
  | .LoadModule _ => none
  | .LoadAvModule _ => none

/-- The events `LoadModuleInternal` and `UnloadModuleInternal` append for the
notify step `if (info->notify) info->notify(state, address, size)`. -/
def notifyEvents (info : ModuleLoadInfo) (state : Int) (address size : Nat) : List Event :=
  match info.notify with
  | some cb => callNotify cb state address size
  | none => []

/-- A sample state for concrete runs: only module 0x300 loaded (at address 0),
nothing recorded. -/
def sampleState : LoaderState Nat :=
  { currentlyLoadedModules := [(0x300, 0)], userMemory := 0x08800000, trace := [] }

/-- The addresses passed to `userMemory.Free` in a trace, in order. -/
def freeCalls : List Event → List Nat
  | [] => []
  | Event.Free a :: rest => a :: freeCalls rest
  | _ :: rest => freeCalls rest

/-- A sample state for concrete runs: modules 0x300 (address 0) and 0x302
(address 0x08800000) loaded. -/
def sampleLoadedState : LoaderState Nat :=
  { currentlyLoadedModules := [(0x300, 0), (0x302, 0x08800000)],
    userMemory := 0x08808000, trace := [] }

/-- The state a guest reaches from a fresh subsystem by loading AV modules 0
and 2 and then unloading AV module 0: 0x302 is loaded, 0x300 is not. -/
def atracOnlyState : LoaderState Nat :=
  runCalls bumpAllocator sampleErrorCodes
    [ModuleCall.LoadAvModule 0, ModuleCall.LoadAvModule 2, ModuleCall.UnloadAvModule 0]
    (LoaderState.init 0x08800000)

/-- Every key of the table is a catalogue id. -/
def KeysInCatalog (t : ModuleMap) : Prop :=
  ∀ k, (ModuleMap.find t k).isSome = true → inCatalog k

/-! ## `__UtilityModuleGetMemoryRange` -/

/-- The function `bool __UtilityModuleGetMemoryRange(int moduleID, u32 *startPtr,
u32 *sizePtr)` over the table `t`.  `start0` and `size0` are the contents of
`*startPtr` and `*sizePtr` before the call; the result is the returned `bool`
with the contents of `*startPtr` and `*sizePtr` after it. -/
def __UtilityModuleGetMemoryRange (t : ModuleMap) (moduleID : Int) (start0 size0 : Nat) :
    Bool × Nat × Nat :=
  match __UtilityModuleInfo moduleID with
  | none => (false, start0, size0)
  | some info =>
    match ModuleMap.find t moduleID with
    | none => (false, start0, info.size)
    | some second => (true, second, info.size)

/-! ## The dialog session: types -/

/-- The enumeration `UtilityDialogType` (declared in `Core/HLE/sceUtility.h`),
with the enumerators this file uses, in the order of the `switch` of
`CurrentDialog`. -/
inductive UtilityDialogType where
  | NONE
  | SAVEDATA
  | MSG
  | OSK
  | NET
  | SCREENSHOT
  | GAMESHARING
  | GAMEDATAINSTALL
  | NPSIGNIN
  deriving DecidableEq, Repr

/-- Registers named by the helper programs (`MIPS_REG_...`). -/
inductive MipsReg where
  | ZERO
  | A0
  | A1
  | A2
  | S0
  deriving DecidableEq, Repr

/-- The instructions the helper programs are made of, as the `MIPS_MAKE_...`
macros are called: `MIPS_MAKE_ORI(dest, src, imm)`,
`MIPS_MAKE_SYSCALL(module, function)` and `MIPS_MAKE_JR_RA()`. -/
inductive Inst where
  | ORI (dest src : MipsReg) (imm : Int)
  | SYSCALL (module function : String)
  | JR_RA
  deriving DecidableEq, Repr

/-- An `HLEHelperThread` object as this file sees it: the arguments of its
constructor `HLEHelperThread(name, insts, count, prio, stacksize)` and, once
`Start(a0, a1)` has been called, the two arguments. -/
structure HLEHelperThread where
  name : String
  insts : List Inst
  prio : Int
  stacksize : Nat
  started : Option (Int × Int)
  deriving DecidableEq, Repr

/-- The methods of a dialog object (`PSPDialog` and its subclasses) that this
file calls, with their arguments. -/
inductive DialogMethod where
  | Init (paramAddr : Nat)
  | Shutdown (force : Bool)
  | Update (animSpeed : Int)
  | GetStatus
  | Abort
  | ContStart
  | FinishInit
  | FinishShutdown
  | FinishVolatile
  deriving DecidableEq, Repr

/-- What the dialog syscalls do outside the session variables, in order. -/
inductive SysEvent where
  /-- A method call on the dialog object of the given type (`saveDialog` for
  `SAVEDATA`, `msgDialog` for `MSG`, and so on). -/
  | DialogCall (dialog : UtilityDialogType) (method : DialogMethod)
  /-- The call `hleEatCycles(n)`. -/
  | hleEatCycles (n : Nat)
  /-- The call `hleEatCycles(msToCycles(0.7315 + 0.1))` of `sceUtilityOskUpdate`
  (a floating-point amount, not evaluated). -/
  | hleEatCyclesOskVblank
  /-- The call `accessThread->Terminate()`. -/
  | Terminate (thread : HLEHelperThread)
  /-- The statement `delete accessThread`. -/
  | Delete (thread : HLEHelperThread)
  /-- The call `KernelVolatileMemUnlock(type)`. -/
  | KernelVolatileMemUnlock (type : Int)
  /-- The expression `new HLEHelperThread(...)`, with the object created. -/
  | NewThread (thread : HLEHelperThread)
  /-- The call `accessThread->Start(a0, a1)`. -/
  | Start (thread : HLEHelperThread) (a0 a1 : Int)
  /-- The call `accessThread->Forget()`. -/
  | Forget (thread : HLEHelperThread)
  /-- The call `__DisableInterrupts()`. -/
  | DisableInterrupts
  /-- The call `__EnableInterrupts()`. -/
  | EnableInterrupts
  /-- The call `hleEatMicro(usec)`. -/
  | hleEatMicro (usec : Int)
  /-- The call `hleReSchedule(reason)`. -/
  | hleReSchedule (reason : String)
  /-- The call `CoreTiming::RestoreRegisterEvent(event, name, callback)`, with
  the value of `event` passed in. -/
  | RestoreRegisterEvent (event : Int) (name : String)
  deriving DecidableEq, Repr

/-- The error constants of `Core/HLE/ErrorCodes.h` that the dialog and
system-parameter syscalls return, as `int` values (a parameter, as
`ErrorCodes`). -/
structure UtilityErrorCodes where
  SCE_ERROR_UTILITY_WRONG_TYPE : Int
  SCE_ERROR_UTILITY_INVALID_ADHOC_CHANNEL : Int
  SCE_ERROR_UTILITY_INVALID_SYSTEM_PARAM_ID : Int
  deriving DecidableEq, Repr

/-- The constants are 32-bit `int` values with the sign bit set. -/
def UtilityErrorCodes.Valid (U : UtilityErrorCodes) : Prop :=
  (-(2 ^ 31) ≤ U.SCE_ERROR_UTILITY_WRONG_TYPE ∧ U.SCE_ERROR_UTILITY_WRONG_TYPE < 0) ∧
  (-(2 ^ 31) ≤ U.SCE_ERROR_UTILITY_INVALID_ADHOC_CHANNEL ∧
    U.SCE_ERROR_UTILITY_INVALID_ADHOC_CHANNEL < 0) ∧
  (-(2 ^ 31) ≤ U.SCE_ERROR_UTILITY_INVALID_SYSTEM_PARAM_ID ∧
    U.SCE_ERROR_UTILITY_INVALID_SYSTEM_PARAM_ID < 0)

instance (U : UtilityErrorCodes) : Decidable U.Valid := by
  unfold UtilityErrorCodes.Valid; infer_instance

/-- A sample assignment of the constants (0x80110005, 0x80110104 and
0x80110103 read as `int`), for concrete runs. -/
def sampleUtilityErrorCodes : UtilityErrorCodes where
  SCE_ERROR_UTILITY_WRONG_TYPE := 0x80110005 - 2 ^ 32
  SCE_ERROR_UTILITY_INVALID_ADHOC_CHANNEL := 0x80110104 - 2 ^ 32
  SCE_ERROR_UTILITY_INVALID_SYSTEM_PARAM_ID := 0x80110103 - 2 ^ 32

/-- What an `int` syscall hands back: the value, and the delay in microseconds
when the value goes through `hleDelayResult` (`none` for a plain return). -/
structure HLEIntResult where
  value : Int
  delayUs : Option Nat
  deriving DecidableEq, Repr

/-! ## The dialog session: state -/

/-- The file-scope variables of `sceUtility.cpp`, the loader state included,
with the state `world` of everything outside the file (the dialog objects, the
kernel, guest memory, configuration) and the record `log` of what the dialog
syscalls did. -/
structure UtilityState (α δ : Type) where
  currentDialogType : UtilityDialogType
  currentDialogActive : Bool
  oldStatus : Int
  volatileUnlockEvent : Int
  accessThread : Option HLEHelperThread
  accessThreadFinished : Bool
  accessThreadState : String
  lastSaveStateVersion : Int
  netParamLatestId : Int
  loader : LoaderState α
  world : δ
  log : List SysEvent

/-- The part of the state that code outside the file can change while one of
its methods runs: its own state `world`, the allocator `userMemory`, and —
through the exported `UtilityDialogInitialize` and `UtilityDialogShutdown` —
the three helper-task variables.  `currentDialogType`, `currentDialogActive`,
`oldStatus` and `currentlyLoadedModules` are written by this file only. -/
structure Outside (α δ : Type) where
  accessThread : Option HLEHelperThread
  accessThreadFinished : Bool
  accessThreadState : String
  userMemory : α
  world : δ

/-- The collaborators of the dialog syscalls, as a parameter: the
compatibility flag `PSP_CoreParameter().compat.flags().YugiohSaveFix`, the
methods of `HLEHelperThread`, the kernel and timing functions called, and the
methods of the dialog objects (`dialog t m` is method `m` of the dialog object
of type `t`, returning the method's `int` result). -/
structure Env (α δ : Type) where
  YugiohSaveFix : Bool
  Stopped : δ → HLEHelperThread → Bool
  Terminate : δ → HLEHelperThread → δ
  Delete : δ → HLEHelperThread → δ
  KernelVolatileMemUnlock : δ → Int → δ
  NewDialogs : δ → δ
  SavedataParamInit : δ → δ
  RegisterEvent : δ → String → Int × δ
  ResetSecondsSinceLastGameSave : δ → δ
  dialog : UtilityDialogType → DialogMethod → Outside α δ → Int × Outside α δ
  /-- The function `__InterruptsEnabled()`. -/
  InterruptsEnabled : δ → Bool
  /-- The function `__DisableInterrupts()`. -/
  DisableInterrupts : δ → δ
  /-- The function `__EnableInterrupts()`. -/
  EnableInterrupts : δ → δ
  /-- The effect of constructing an `HLEHelperThread`. -/
  NewThread : δ → HLEHelperThread → δ
  /-- The method `HLEHelperThread::Start(a0, a1)`. -/
  Start : δ → HLEHelperThread → Int → Int → δ
  /-- The method `HLEHelperThread::Forget()`. -/
  Forget : δ → HLEHelperThread → δ
  /-- The function `CoreTiming::RestoreRegisterEvent(event, name, callback)`:
  the value it leaves in `event`, which it takes by reference. -/
  RestoreRegisterEvent : δ → Int → String → Int × δ
  /-- The numeric value `(int)type` of an enumerator of `UtilityDialogType`. -/
  dialogCode : UtilityDialogType → Int
  /-- What `DoState` of a dialog object writes to a save state. -/
  dialogSave : UtilityDialogType → δ → List Nat
  /-- What `DoState` of a dialog object does when it reads its block back. -/
  dialogLoad : UtilityDialogType → List Nat → δ → δ
  /-- What `Do(p, accessThread)` writes for an existing helper thread. -/
  threadSave : HLEHelperThread → List Nat
  /-- The helper thread `Do(p, accessThread)` builds when it reads a block. -/
  threadLoad : List Nat → δ → HLEHelperThread × δ

/-- The view of the state that outside code gets. -/
def UtilityState.outside {α δ : Type} (s : UtilityState α δ) : Outside α δ :=
  { accessThread := s.accessThread, accessThreadFinished := s.accessThreadFinished,
    accessThreadState := s.accessThreadState, userMemory := s.loader.userMemory,
    world := s.world }

/-- Write back what outside code left. -/
def UtilityState.setOutside {α δ : Type} (s : UtilityState α δ) (o : Outside α δ) :
    UtilityState α δ :=
  { s with accessThread := o.accessThread, accessThreadFinished := o.accessThreadFinished,
           accessThreadState := o.accessThreadState,
           loader := { s.loader with userMemory := o.userMemory },
           world := o.world }

/-- A method call `dialogObject->m(...)` on the dialog object of type `t`. -/
def callDialog {α δ : Type} (V : Env α δ) (t : UtilityDialogType) (m : DialogMethod)
    (s : UtilityState α δ) : Int × UtilityState α δ :=
  let r := V.dialog t m s.outside
  (r.1, { s.setOutside r.2 with log := s.log ++ [SysEvent.DialogCall t m] })

/-- The function `static void CleanupDialogThreads(bool force = false)`. -/
def CleanupDialogThreads {α δ : Type} (V : Env α δ) (force : Bool) (s : UtilityState α δ) :
    UtilityState α δ :=
  match s.accessThread with
  | none => s
  | some thread =>
    if V.Stopped s.world thread || s.accessThreadFinished then
      { s with world := V.Delete s.world thread,
               accessThread := none,
               accessThreadState := "cleaned up",
               log := s.log ++ [SysEvent.Delete thread] }
    else if force then
      { s with world := V.KernelVolatileMemUnlock
                 (V.Delete (V.Terminate s.world thread) thread) 0,
               accessThread := none,
               accessThreadState := "force terminated",
               log := s.log ++ [SysEvent.Terminate thread, SysEvent.Delete thread,
                 SysEvent.KernelVolatileMemUnlock 0] }
    else s

/-- The function `static void ActivateDialog(UtilityDialogType type)`. -/
def ActivateDialog {α δ : Type} (V : Env α δ) (type : UtilityDialogType)
    (s : UtilityState α δ) : UtilityState α δ :=
  let s1 := CleanupDialogThreads V false s
  if !s1.currentDialogActive then
    { s1 with currentDialogType := type, currentDialogActive := true, oldStatus := -1 }
  else s1

/-- The function `static void DeactivateDialog()`. -/
def DeactivateDialog {α δ : Type} (V : Env α δ) (s : UtilityState α δ) : UtilityState α δ :=
  let s1 := CleanupDialogThreads V false s
  if s1.currentDialogActive then
    { s1 with currentDialogActive := false }
  else s1

/-- The function `void __UtilityInit()`, from any previous contents of the
variables. -/
def __UtilityInit {α δ : Type} (V : Env α δ) (s : UtilityState α δ) : UtilityState α δ :=
  let s1 := { s with world := V.NewDialogs s.world }
  let s2 := { s1 with currentDialogType := UtilityDialogType.NONE }
  let s3 := DeactivateDialog V s2
  let s4 := { s3 with world := V.SavedataParamInit s3.world }
  let s5 := { s4 with loader := { s4.loader with currentlyLoadedModules := [] } }
  let r := V.RegisterEvent s5.world "UtilityVolatileUnlock"
  let s6 := { s5 with volatileUnlockEvent := r.1, world := r.2 }
  { s6 with world := V.ResetSecondsSinceLastGameSave s6.world }

/-! ## The dialog session: syscalls -/

/-- The plain return of an `int` value (through `hleLogDebug`, `hleLogWarning`
and the like, which pass the value on). -/
def hleReturn (v : Int) : HLEIntResult := { value := v, delayUs := none }

/-- The tail shared by the `GetStatus` syscalls that keep `oldStatus`:
`if (oldStatus != status) { oldStatus = status; return status; } return status;`. -/
def noteStatus {α δ : Type} (status : Int) (s : UtilityState α δ) :
    HLEIntResult × UtilityState α δ :=
  if s.oldStatus ≠ status then
    (hleReturn status, { s with oldStatus := status })
  else
    (hleReturn status, s)

/-- The record of a call `hleEatCycles(n)`. -/
def hleEatCycles {α δ : Type} (n : Nat) (s : UtilityState α δ) : UtilityState α δ :=
  { s with log := s.log ++ [SysEvent.hleEatCycles n] }

/-- The syscall `static int sceUtilitySavedataInitStart(u32 paramAddr)`. -/
def sceUtilitySavedataInitStart {α δ : Type} (V : Env α δ) (U : UtilityErrorCodes)
    (paramAddr : Nat) (s : UtilityState α δ) : HLEIntResult × UtilityState α δ :=
  if s.currentDialogActive && s.currentDialogType != UtilityDialogType.SAVEDATA then
    if V.YugiohSaveFix then
      let s1 : UtilityState α δ :=
        match s.accessThread with
        | some thread =>
          { s with world := V.KernelVolatileMemUnlock
                     (V.Delete (V.Terminate s.world thread) thread) 0,
                   accessThread := none,
                   accessThreadFinished := true,
                   accessThreadState := "terminated",
                   log := s.log ++ [SysEvent.Terminate thread, SysEvent.Delete thread,
                     SysEvent.KernelVolatileMemUnlock 0] }
        | none => s
      let s2 := ActivateDialog V UtilityDialogType.SAVEDATA s1
      let r := callDialog V UtilityDialogType.SAVEDATA (DialogMethod.Init paramAddr) s2
      (hleReturn r.1, r.2)
    else
      (hleReturn U.SCE_ERROR_UTILITY_WRONG_TYPE, s)
  else
    let s2 := ActivateDialog V UtilityDialogType.SAVEDATA s
    let r := callDialog V UtilityDialogType.SAVEDATA (DialogMethod.Init paramAddr) s2
    (hleReturn r.1, r.2)

/-- The syscall `static int sceUtilitySavedataShutdownStart()`. -/
def sceUtilitySavedataShutdownStart {α δ : Type} (V : Env α δ) (U : UtilityErrorCodes)
    (s : UtilityState α δ) : HLEIntResult × UtilityState α δ :=
  if s.currentDialogType != UtilityDialogType.SAVEDATA then
    (hleReturn U.SCE_ERROR_UTILITY_WRONG_TYPE, s)
  else
    let s1 := DeactivateDialog V s
    let r := callDialog V UtilityDialogType.SAVEDATA (DialogMethod.Shutdown false) s1
    (hleReturn r.1, hleEatCycles 30000 r.2)

/-- The syscall `static int sceUtilitySavedataGetStatus()`. -/
def sceUtilitySavedataGetStatus {α δ : Type} (V : Env α δ) (U : UtilityErrorCodes)
    (s : UtilityState α δ) : HLEIntResult × UtilityState α δ :=
  if s.currentDialogType != UtilityDialogType.SAVEDATA then
    (hleReturn U.SCE_ERROR_UTILITY_WRONG_TYPE, hleEatCycles 200 s)
  else
    let r := callDialog V UtilityDialogType.SAVEDATA DialogMethod.GetStatus s
    let s1 := hleEatCycles 200 r.2
    let s2 := CleanupDialogThreads V false s1
    noteStatus r.1 s2

/-- The syscall `static int sceUtilitySavedataUpdate(int animSpeed)`.  The test
`!saveDialog` is false once `__UtilityInit` has run. -/
def sceUtilitySavedataUpdate {α δ : Type} (V : Env α δ) (U : UtilityErrorCodes)
    (animSpeed : Int) (s : UtilityState α δ) : HLEIntResult × UtilityState α δ :=
  if s.currentDialogType != UtilityDialogType.SAVEDATA then
    (hleReturn U.SCE_ERROR_UTILITY_WRONG_TYPE, s)
  else
    let r := callDialog V UtilityDialogType.SAVEDATA (DialogMethod.Update animSpeed) s
    if r.1 ≥ 0 then
      ({ value := r.1, delayUs := some 300 }, r.2)
    else
      (hleReturn r.1, r.2)

/-- The syscall `static int sceUtilityMsgDialogInitStart(u32 paramAddr)`. -/
def sceUtilityMsgDialogInitStart {α δ : Type} (V : Env α δ) (U : UtilityErrorCodes)
    (paramAddr : Nat) (s : UtilityState α δ) : HLEIntResult × UtilityState α δ :=
  if s.currentDialogActive && s.currentDialogType != UtilityDialogType.MSG then
    (hleReturn U.SCE_ERROR_UTILITY_WRONG_TYPE, s)
  else
    let s1 := ActivateDialog V UtilityDialogType.MSG s
    let r := callDialog V UtilityDialogType.MSG (DialogMethod.Init paramAddr) s1
    (hleReturn r.1, r.2)

/-- The syscall `static int sceUtilityMsgDialogShutdownStart()`. -/
def sceUtilityMsgDialogShutdownStart {α δ : Type} (V : Env α δ) (U : UtilityErrorCodes)
    (s : UtilityState α δ) : HLEIntResult × UtilityState α δ :=
  if s.currentDialogType != UtilityDialogType.MSG then
    (hleReturn U.SCE_ERROR_UTILITY_WRONG_TYPE, s)
  else
    let s1 := DeactivateDialog V s
    let r := callDialog V UtilityDialogType.MSG (DialogMethod.Shutdown false) s1
    (hleReturn r.1, r.2)

/-- The syscall `static int sceUtilityMsgDialogUpdate(int animSpeed)`. -/
def sceUtilityMsgDialogUpdate {α δ : Type} (V : Env α δ) (U : UtilityErrorCodes)
    (animSpeed : Int) (s : UtilityState α δ) : HLEIntResult × UtilityState α δ :=
  if s.currentDialogType != UtilityDialogType.MSG then
    (hleReturn U.SCE_ERROR_UTILITY_WRONG_TYPE, s)
  else
    let r := callDialog V UtilityDialogType.MSG (DialogMethod.Update animSpeed) s
    if r.1 ≥ 0 then
      ({ value := r.1, delayUs := some 800 }, r.2)
    else
      (hleReturn r.1, r.2)

/-- The syscall `static int sceUtilityMsgDialogGetStatus()`. -/
def sceUtilityMsgDialogGetStatus {α δ : Type} (V : Env α δ) (U : UtilityErrorCodes)
    (s : UtilityState α δ) : HLEIntResult × UtilityState α δ :=
  if s.currentDialogType != UtilityDialogType.MSG then
    (hleReturn U.SCE_ERROR_UTILITY_WRONG_TYPE, s)
  else
    let r := callDialog V UtilityDialogType.MSG DialogMethod.GetStatus s
    let s1 := CleanupDialogThreads V false r.2
    noteStatus r.1 s1

/-- The syscall `static int sceUtilityMsgDialogAbort()`. -/
def sceUtilityMsgDialogAbort {α δ : Type} (V : Env α δ) (U : UtilityErrorCodes)
    (s : UtilityState α δ) : HLEIntResult × UtilityState α δ :=
  if s.currentDialogType != UtilityDialogType.MSG then
    (hleReturn U.SCE_ERROR_UTILITY_WRONG_TYPE, s)
  else
    let r := callDialog V UtilityDialogType.MSG DialogMethod.Abort s
    (hleReturn r.1, r.2)

/-- The syscall `static int sceUtilityOskInitStart(u32 oskPtr)`. -/
def sceUtilityOskInitStart {α δ : Type} (V : Env α δ) (U : UtilityErrorCodes)
    (oskPtr : Nat) (s : UtilityState α δ) : HLEIntResult × UtilityState α δ :=
  if s.currentDialogActive && s.currentDialogType != UtilityDialogType.OSK then
    (hleReturn U.SCE_ERROR_UTILITY_WRONG_TYPE, s)
  else
    let s1 := ActivateDialog V UtilityDialogType.OSK s
    let r := callDialog V UtilityDialogType.OSK (DialogMethod.Init oskPtr) s1
    (hleReturn r.1, r.2)

/-- The syscall `static int sceUtilityOskShutdownStart()`. -/
def sceUtilityOskShutdownStart {α δ : Type} (V : Env α δ) (U : UtilityErrorCodes)
    (s : UtilityState α δ) : HLEIntResult × UtilityState α δ :=
  if s.currentDialogType != UtilityDialogType.OSK then
    (hleReturn U.SCE_ERROR_UTILITY_WRONG_TYPE, s)
  else
    let s1 := DeactivateDialog V s
    let r := callDialog V UtilityDialogType.OSK (DialogMethod.Shutdown false) s1
    (hleReturn r.1, r.2)

/-- The syscall `static int sceUtilityOskUpdate(int animSpeed)`. -/
def sceUtilityOskUpdate {α δ : Type} (V : Env α δ) (U : UtilityErrorCodes)
    (animSpeed : Int) (s : UtilityState α δ) : HLEIntResult × UtilityState α δ :=
  if s.currentDialogType != UtilityDialogType.OSK then
    (hleReturn U.SCE_ERROR_UTILITY_WRONG_TYPE, s)
  else
    let s1 : UtilityState α δ := { s with log := s.log ++ [SysEvent.hleEatCyclesOskVblank] }
    let r := callDialog V UtilityDialogType.OSK (DialogMethod.Update animSpeed) s1
    (hleReturn r.1, r.2)

/-- The syscall `static int sceUtilityOskGetStatus()`. -/
def sceUtilityOskGetStatus {α δ : Type} (V : Env α δ) (U : UtilityErrorCodes)
    (s : UtilityState α δ) : HLEIntResult × UtilityState α δ :=
  if s.currentDialogType != UtilityDialogType.OSK then
    (hleReturn U.SCE_ERROR_UTILITY_WRONG_TYPE, s)
  else
    let r := callDialog V UtilityDialogType.OSK DialogMethod.GetStatus s
    let s1 := CleanupDialogThreads V false r.2
    noteStatus r.1 s1

/-- The syscall `static int sceUtilityNetconfInitStart(u32 paramsAddr)`. -/
def sceUtilityNetconfInitStart {α δ : Type} (V : Env α δ) (U : UtilityErrorCodes)
    (paramsAddr : Nat) (s : UtilityState α δ) : HLEIntResult × UtilityState α δ :=
  if s.currentDialogActive && s.currentDialogType != UtilityDialogType.NET then
    (hleReturn U.SCE_ERROR_UTILITY_WRONG_TYPE, s)
  else
    let s1 := ActivateDialog V UtilityDialogType.NET s
    let r := callDialog V UtilityDialogType.NET (DialogMethod.Init paramsAddr) s1
    (hleReturn r.1, r.2)

/-- The syscall `static int sceUtilityNetconfShutdownStart()`. -/
def sceUtilityNetconfShutdownStart {α δ : Type} (V : Env α δ) (U : UtilityErrorCodes)
    (s : UtilityState α δ) : HLEIntResult × UtilityState α δ :=
  if s.currentDialogType != UtilityDialogType.NET then
    (hleReturn U.SCE_ERROR_UTILITY_WRONG_TYPE, s)
  else
    let s1 := DeactivateDialog V s
    let r := callDialog V UtilityDialogType.NET (DialogMethod.Shutdown false) s1
    (hleReturn r.1, r.2)

/-- The syscall `static int sceUtilityNetconfUpdate(int animSpeed)`. -/
def sceUtilityNetconfUpdate {α δ : Type} (V : Env α δ) (U : UtilityErrorCodes)
    (animSpeed : Int) (s : UtilityState α δ) : HLEIntResult × UtilityState α δ :=
  if s.currentDialogType != UtilityDialogType.NET then
    (hleReturn U.SCE_ERROR_UTILITY_WRONG_TYPE, s)
  else
    let r := callDialog V UtilityDialogType.NET (DialogMethod.Update animSpeed) s
    (hleReturn r.1, r.2)

/-- The syscall `static int sceUtilityNetconfGetStatus()`. -/
def sceUtilityNetconfGetStatus {α δ : Type} (V : Env α δ) (U : UtilityErrorCodes)
    (s : UtilityState α δ) : HLEIntResult × UtilityState α δ :=
  if s.currentDialogType != UtilityDialogType.NET then
    (hleReturn U.SCE_ERROR_UTILITY_WRONG_TYPE, s)
  else
    let r := callDialog V UtilityDialogType.NET DialogMethod.GetStatus s
    let s1 := CleanupDialogThreads V false r.2
    noteStatus r.1 s1

/-- The syscall `static int sceUtilityScreenshotInitStart(u32 paramAddr)`. -/
def sceUtilityScreenshotInitStart {α δ : Type} (V : Env α δ) (U : UtilityErrorCodes)
    (paramAddr : Nat) (s : UtilityState α δ) : HLEIntResult × UtilityState α δ :=
  if s.currentDialogActive && s.currentDialogType != UtilityDialogType.SCREENSHOT then
    (hleReturn U.SCE_ERROR_UTILITY_WRONG_TYPE, s)
  else
    let s1 := ActivateDialog V UtilityDialogType.SCREENSHOT s
    let r := callDialog V UtilityDialogType.SCREENSHOT (DialogMethod.Init paramAddr) s1
    (hleReturn r.1, r.2)

/-- The syscall `static int sceUtilityScreenshotShutdownStart()`. -/
def sceUtilityScreenshotShutdownStart {α δ : Type} (V : Env α δ) (U : UtilityErrorCodes)
    (s : UtilityState α δ) : HLEIntResult × UtilityState α δ :=
  if s.currentDialogType != UtilityDialogType.SCREENSHOT then
    (hleReturn U.SCE_ERROR_UTILITY_WRONG_TYPE, s)
  else
    let s1 := DeactivateDialog V s
    let r := callDialog V UtilityDialogType.SCREENSHOT (DialogMethod.Shutdown false) s1
    (hleReturn r.1, r.2)

/-- The syscall `static int sceUtilityScreenshotUpdate(u32 animSpeed)`; the
`u32` argument is converted to the `int` parameter of `Update`. -/
def sceUtilityScreenshotUpdate {α δ : Type} (V : Env α δ) (U : UtilityErrorCodes)
    (animSpeed : Nat) (s : UtilityState α δ) : HLEIntResult × UtilityState α δ :=
  if s.currentDialogType != UtilityDialogType.SCREENSHOT then
    (hleReturn U.SCE_ERROR_UTILITY_WRONG_TYPE, s)
  else
    let r := callDialog V UtilityDialogType.SCREENSHOT
      (DialogMethod.Update (u32ToInt animSpeed)) s
    (hleReturn r.1, r.2)

/-- The syscall `static int sceUtilityScreenshotGetStatus()`. -/
def sceUtilityScreenshotGetStatus {α δ : Type} (V : Env α δ) (U : UtilityErrorCodes)
    (s : UtilityState α δ) : HLEIntResult × UtilityState α δ :=
  if s.currentDialogType != UtilityDialogType.SCREENSHOT then
    (hleReturn U.SCE_ERROR_UTILITY_WRONG_TYPE, s)
  else
    let r := callDialog V UtilityDialogType.SCREENSHOT DialogMethod.GetStatus s
    let s1 := CleanupDialogThreads V false r.2
    noteStatus r.1 s1

/-- The syscall `static int sceUtilityScreenshotContStart(u32 paramAddr)`. -/
def sceUtilityScreenshotContStart {α δ : Type} (V : Env α δ) (U : UtilityErrorCodes)
    (_paramAddr : Nat) (s : UtilityState α δ) : HLEIntResult × UtilityState α δ :=
  if s.currentDialogType != UtilityDialogType.SCREENSHOT then
    (hleReturn U.SCE_ERROR_UTILITY_WRONG_TYPE, s)
  else
    let r := callDialog V UtilityDialogType.SCREENSHOT DialogMethod.ContStart s
    (hleReturn r.1, r.2)

/-- The syscall `static int sceUtilityGamedataInstallInitStart(u32 paramsAddr)`. -/
def sceUtilityGamedataInstallInitStart {α δ : Type} (V : Env α δ) (U : UtilityErrorCodes)
    (paramsAddr : Nat) (s : UtilityState α δ) : HLEIntResult × UtilityState α δ :=
  if s.currentDialogActive && s.currentDialogType != UtilityDialogType.GAMEDATAINSTALL then
    (hleReturn U.SCE_ERROR_UTILITY_WRONG_TYPE, s)
  else
    let s1 := ActivateDialog V UtilityDialogType.GAMEDATAINSTALL s
    let r := callDialog V UtilityDialogType.GAMEDATAINSTALL (DialogMethod.Init paramsAddr) s1
    let s2 := if r.1 < 0 then DeactivateDialog V r.2 else r.2
    (hleReturn r.1, s2)

/-- The syscall `static int sceUtilityGamedataInstallShutdownStart()`. -/
def sceUtilityGamedataInstallShutdownStart {α δ : Type} (V : Env α δ)
    (U : UtilityErrorCodes) (s : UtilityState α δ) : HLEIntResult × UtilityState α δ :=
  if !s.currentDialogActive || s.currentDialogType != UtilityDialogType.GAMEDATAINSTALL then
    (hleReturn U.SCE_ERROR_UTILITY_WRONG_TYPE, s)
  else
    let s1 := DeactivateDialog V s
    let r := callDialog V UtilityDialogType.GAMEDATAINSTALL (DialogMethod.Shutdown false) s1
    (hleReturn r.1, r.2)

/-- The syscall `static int sceUtilityGamedataInstallUpdate(int animSpeed)`. -/
def sceUtilityGamedataInstallUpdate {α δ : Type} (V : Env α δ) (U : UtilityErrorCodes)
    (animSpeed : Int) (s : UtilityState α δ) : HLEIntResult × UtilityState α δ :=
  if !s.currentDialogActive || s.currentDialogType != UtilityDialogType.GAMEDATAINSTALL then
    (hleReturn U.SCE_ERROR_UTILITY_WRONG_TYPE, s)
  else
    let r := callDialog V UtilityDialogType.GAMEDATAINSTALL (DialogMethod.Update animSpeed) s
    (hleReturn r.1, r.2)

/-- The syscall `static int sceUtilityGamedataInstallGetStatus()`. -/
def sceUtilityGamedataInstallGetStatus {α δ : Type} (V : Env α δ) (U : UtilityErrorCodes)
    (s : UtilityState α δ) : HLEIntResult × UtilityState α δ :=
  if s.currentDialogType != UtilityDialogType.GAMEDATAINSTALL then
    (hleReturn U.SCE_ERROR_UTILITY_WRONG_TYPE, hleEatCycles 200 s)
  else
    let r := callDialog V UtilityDialogType.GAMEDATAINSTALL DialogMethod.GetStatus s
    let s1 := CleanupDialogThreads V false r.2
    (hleReturn r.1, s1)

/-- The syscall `static int sceUtilityGamedataInstallAbort()`. -/
def sceUtilityGamedataInstallAbort {α δ : Type} (V : Env α δ) (U : UtilityErrorCodes)
    (s : UtilityState α δ) : HLEIntResult × UtilityState α δ :=
  if !s.currentDialogActive || s.currentDialogType != UtilityDialogType.GAMEDATAINSTALL then
    (hleReturn U.SCE_ERROR_UTILITY_WRONG_TYPE, s)
  else
    let s1 := DeactivateDialog V s
    let r := callDialog V UtilityDialogType.GAMEDATAINSTALL DialogMethod.Abort s1
    (hleReturn r.1, r.2)

/-- The syscall `static int sceUtilityNpSigninInitStart(u32 paramsPtr)`. -/
def sceUtilityNpSigninInitStart {α δ : Type} (V : Env α δ) (U : UtilityErrorCodes)
    (paramsPtr : Nat) (s : UtilityState α δ) : HLEIntResult × UtilityState α δ :=
  if s.currentDialogActive && s.currentDialogType != UtilityDialogType.NPSIGNIN then
    (hleReturn U.SCE_ERROR_UTILITY_WRONG_TYPE, s)
  else
    let s1 := ActivateDialog V UtilityDialogType.NPSIGNIN s
    let r := callDialog V UtilityDialogType.NPSIGNIN (DialogMethod.Init paramsPtr) s1
    (hleReturn r.1, r.2)

/-- The syscall `static int sceUtilityNpSigninShutdownStart()`. -/
def sceUtilityNpSigninShutdownStart {α δ : Type} (V : Env α δ) (U : UtilityErrorCodes)
    (s : UtilityState α δ) : HLEIntResult × UtilityState α δ :=
  if s.currentDialogType != UtilityDialogType.NPSIGNIN then
    (hleReturn U.SCE_ERROR_UTILITY_WRONG_TYPE, s)
  else
    let s1 := DeactivateDialog V s
    let r := callDialog V UtilityDialogType.NPSIGNIN (DialogMethod.Shutdown false) s1
    (hleReturn r.1, r.2)

/-- The syscall `static int sceUtilityNpSigninUpdate(int animSpeed)`. -/
def sceUtilityNpSigninUpdate {α δ : Type} (V : Env α δ) (U : UtilityErrorCodes)
    (animSpeed : Int) (s : UtilityState α δ) : HLEIntResult × UtilityState α δ :=
  if s.currentDialogType != UtilityDialogType.NPSIGNIN then
    (hleReturn U.SCE_ERROR_UTILITY_WRONG_TYPE, s)
  else
    let r := callDialog V UtilityDialogType.NPSIGNIN (DialogMethod.Update animSpeed) s
    (hleReturn r.1, r.2)

/-- The syscall `static int sceUtilityNpSigninGetStatus()`. -/
def sceUtilityNpSigninGetStatus {α δ : Type} (V : Env α δ) (U : UtilityErrorCodes)
    (s : UtilityState α δ) : HLEIntResult × UtilityState α δ :=
  if s.currentDialogType != UtilityDialogType.NPSIGNIN then
    (hleReturn U.SCE_ERROR_UTILITY_WRONG_TYPE, s)
  else
    let r := callDialog V UtilityDialogType.NPSIGNIN DialogMethod.GetStatus s
    let s1 := CleanupDialogThreads V false r.2
    noteStatus r.1 s1

/-- The syscall `static int sceUtilityGameSharingShutdownStart()`. -/
def sceUtilityGameSharingShutdownStart {α δ : Type} (V : Env α δ) (U : UtilityErrorCodes)
    (s : UtilityState α δ) : HLEIntResult × UtilityState α δ :=
  if s.currentDialogType != UtilityDialogType.GAMESHARING then
    (hleReturn U.SCE_ERROR_UTILITY_WRONG_TYPE, s)
  else
    (hleReturn 0, DeactivateDialog V s)

/-- The syscall `static int sceUtilityGameSharingInitStart(u32 paramsPtr)`. -/
def sceUtilityGameSharingInitStart {α δ : Type} (V : Env α δ) (U : UtilityErrorCodes)
    (_paramsPtr : Nat) (s : UtilityState α δ) : HLEIntResult × UtilityState α δ :=
  if s.currentDialogActive && s.currentDialogType != UtilityDialogType.GAMESHARING then
    (hleReturn U.SCE_ERROR_UTILITY_WRONG_TYPE, s)
  else
    (hleReturn 0, ActivateDialog V UtilityDialogType.GAMESHARING s)

/-- The syscall `static int sceUtilityGameSharingUpdate(int animSpeed)`. -/
def sceUtilityGameSharingUpdate {α δ : Type} (_V : Env α δ) (U : UtilityErrorCodes)
    (_animSpeed : Int) (s : UtilityState α δ) : HLEIntResult × UtilityState α δ :=
  if s.currentDialogType != UtilityDialogType.GAMESHARING then
    (hleReturn U.SCE_ERROR_UTILITY_WRONG_TYPE, s)
  else
    (hleReturn 0, s)

/-- The syscall `static int sceUtilityGameSharingGetStatus()`. -/
def sceUtilityGameSharingGetStatus {α δ : Type} (V : Env α δ) (U : UtilityErrorCodes)
    (s : UtilityState α δ) : HLEIntResult × UtilityState α δ :=
  if s.currentDialogType != UtilityDialogType.GAMESHARING then
    (hleReturn U.SCE_ERROR_UTILITY_WRONG_TYPE, s)
  else
    (hleReturn 0, CleanupDialogThreads V false s)

/-- The dialog syscalls of the file, with their arguments. -/
inductive DialogSyscall where
  | SavedataInitStart (paramAddr : Nat)
  | SavedataShutdownStart
  | SavedataGetStatus
  | SavedataUpdate (animSpeed : Int)
  | MsgDialogInitStart (paramAddr : Nat)
  | MsgDialogShutdownStart
  | MsgDialogUpdate (animSpeed : Int)
  | MsgDialogGetStatus
  | MsgDialogAbort
  | OskInitStart (oskPtr : Nat)
  | OskShutdownStart
  | OskUpdate (animSpeed : Int)
  | OskGetStatus
  | NetconfInitStart (paramsAddr : Nat)
  | NetconfShutdownStart
  | NetconfUpdate (animSpeed : Int)
  | NetconfGetStatus
  | ScreenshotInitStart (paramAddr : Nat)
  | ScreenshotShutdownStart
  | ScreenshotUpdate (animSpeed : Nat)
  | ScreenshotGetStatus
  | ScreenshotContStart (paramAddr : Nat)
  | GamedataInstallInitStart (paramsAddr : Nat)
  | GamedataInstallShutdownStart
  | GamedataInstallUpdate (animSpeed : Int)
  | GamedataInstallGetStatus
  | GamedataInstallAbort
  | NpSigninInitStart (paramsPtr : Nat)
  | NpSigninShutdownStart
  | NpSigninUpdate (animSpeed : Int)
  | NpSigninGetStatus
  | GameSharingShutdownStart
  | GameSharingInitStart (paramsPtr : Nat)
  | GameSharingUpdate (animSpeed : Int)
  | GameSharingGetStatus
  deriving DecidableEq, Repr

/-- The six kinds of dialog syscall. -/
inductive SyscallKind where
  | InitStart
  | ShutdownStart
  | Update
  | GetStatus
  | Abort
  | ContStart
  deriving DecidableEq, Repr

/-- The kind of a dialog syscall. -/
def DialogSyscall.kind : DialogSyscall → SyscallKind
  | .SavedataInitStart _ => .InitStart
  | .SavedataShutdownStart => .ShutdownStart
  | .SavedataGetStatus => .GetStatus
  | .SavedataUpdate _ => .Update
  | .MsgDialogInitStart _ => .InitStart
  | .MsgDialogShutdownStart => .ShutdownStart
  | .MsgDialogUpdate _ => .Update
  | .MsgDialogGetStatus => .GetStatus
  | .MsgDialogAbort => .Abort
  | .OskInitStart _ => .InitStart
  | .OskShutdownStart => .ShutdownStart
  | .OskUpdate _ => .Update
  | .OskGetStatus => .GetStatus
  | .NetconfInitStart _ => .InitStart
  | .NetconfShutdownStart => .ShutdownStart
  | .NetconfUpdate _ => .Update
  | .NetconfGetStatus => .GetStatus
  | .ScreenshotInitStart _ => .InitStart
  | .ScreenshotShutdownStart => .ShutdownStart
  | .ScreenshotUpdate _ => .Update
  | .ScreenshotGetStatus => .GetStatus
  | .ScreenshotContStart _ => .ContStart
  | .GamedataInstallInitStart _ => .InitStart
  | .GamedataInstallShutdownStart => .ShutdownStart
  | .GamedataInstallUpdate _ => .Update
  | .GamedataInstallGetStatus => .GetStatus
  | .GamedataInstallAbort => .Abort
  | .NpSigninInitStart _ => .InitStart
  | .NpSigninShutdownStart => .ShutdownStart
  | .NpSigninUpdate _ => .Update
  | .NpSigninGetStatus => .GetStatus
  | .GameSharingShutdownStart => .ShutdownStart
  | .GameSharingInitStart _ => .InitStart
  | .GameSharingUpdate _ => .Update
  | .GameSharingGetStatus => .GetStatus

/-- The dialog type a syscall belongs to: the `UtilityDialogType` its guard
compares `currentDialogType` with. -/
def DialogSyscall.dialogType : DialogSyscall → UtilityDialogType
  | .SavedataInitStart _ => .SAVEDATA
  | .SavedataShutdownStart => .SAVEDATA
  | .SavedataGetStatus => .SAVEDATA
  | .SavedataUpdate _ => .SAVEDATA
  | .MsgDialogInitStart _ => .MSG
  | .MsgDialogShutdownStart => .MSG
  | .MsgDialogUpdate _ => .MSG
  | .MsgDialogGetStatus => .MSG
  | .MsgDialogAbort => .MSG
  | .OskInitStart _ => .OSK
  | .OskShutdownStart => .OSK
  | .OskUpdate _ => .OSK
  | .OskGetStatus => .OSK
  | .NetconfInitStart _ => .NET
  | .NetconfShutdownStart => .NET
  | .NetconfUpdate _ => .NET
  | .NetconfGetStatus => .NET
  | .ScreenshotInitStart _ => .SCREENSHOT
  | .ScreenshotShutdownStart => .SCREENSHOT
  | .ScreenshotUpdate _ => .SCREENSHOT
  | .ScreenshotGetStatus => .SCREENSHOT
  | .ScreenshotContStart _ => .SCREENSHOT
  | .GamedataInstallInitStart _ => .GAMEDATAINSTALL
  | .GamedataInstallShutdownStart => .GAMEDATAINSTALL
  | .GamedataInstallUpdate _ => .GAMEDATAINSTALL
  | .GamedataInstallGetStatus => .GAMEDATAINSTALL
  | .GamedataInstallAbort => .GAMEDATAINSTALL
  | .NpSigninInitStart _ => .NPSIGNIN
  | .NpSigninShutdownStart => .NPSIGNIN
  | .NpSigninUpdate _ => .NPSIGNIN
  | .NpSigninGetStatus => .NPSIGNIN
  | .GameSharingShutdownStart => .GAMESHARING
  | .GameSharingInitStart _ => .GAMESHARING
  | .GameSharingUpdate _ => .GAMESHARING
  | .GameSharingGetStatus => .GAMESHARING

/-- Execute one dialog syscall. -/
def DialogSyscall.exec {α δ : Type} (V : Env α δ) (U : UtilityErrorCodes) (c : DialogSyscall)
    (s : UtilityState α δ) : HLEIntResult × UtilityState α δ :=
  match c with
  | .SavedataInitStart p => sceUtilitySavedataInitStart V U p s
  | .SavedataShutdownStart => sceUtilitySavedataShutdownStart V U s
  | .SavedataGetStatus => sceUtilitySavedataGetStatus V U s
  | .SavedataUpdate a => sceUtilitySavedataUpdate V U a s
  | .MsgDialogInitStart p => sceUtilityMsgDialogInitStart V U p s
  | .MsgDialogShutdownStart => sceUtilityMsgDialogShutdownStart V U s
  | .MsgDialogUpdate a => sceUtilityMsgDialogUpdate V U a s
  | .MsgDialogGetStatus => sceUtilityMsgDialogGetStatus V U s
  | .MsgDialogAbort => sceUtilityMsgDialogAbort V U s
  | .OskInitStart p => sceUtilityOskInitStart V U p s
  | .OskShutdownStart => sceUtilityOskShutdownStart V U s
  | .OskUpdate a => sceUtilityOskUpdate V U a s
  | .OskGetStatus => sceUtilityOskGetStatus V U s
  | .NetconfInitStart p => sceUtilityNetconfInitStart V U p s
  | .NetconfShutdownStart => sceUtilityNetconfShutdownStart V U s
  | .NetconfUpdate a => sceUtilityNetconfUpdate V U a s
  | .NetconfGetStatus => sceUtilityNetconfGetStatus V U s
  | .ScreenshotInitStart p => sceUtilityScreenshotInitStart V U p s
  | .ScreenshotShutdownStart => sceUtilityScreenshotShutdownStart V U s
  | .ScreenshotUpdate a => sceUtilityScreenshotUpdate V U a s
  | .ScreenshotGetStatus => sceUtilityScreenshotGetStatus V U s
  | .ScreenshotContStart p => sceUtilityScreenshotContStart V U p s
  | .GamedataInstallInitStart p => sceUtilityGamedataInstallInitStart V U p s
  | .GamedataInstallShutdownStart => sceUtilityGamedataInstallShutdownStart V U s
  | .GamedataInstallUpdate a => sceUtilityGamedataInstallUpdate V U a s
  | .GamedataInstallGetStatus => sceUtilityGamedataInstallGetStatus V U s
  | .GamedataInstallAbort => sceUtilityGamedataInstallAbort V U s
  | .NpSigninInitStart p => sceUtilityNpSigninInitStart V U p s
  | .NpSigninShutdownStart => sceUtilityNpSigninShutdownStart V U s
  | .NpSigninUpdate a => sceUtilityNpSigninUpdate V U a s
  | .NpSigninGetStatus => sceUtilityNpSigninGetStatus V U s
  | .GameSharingShutdownStart => sceUtilityGameSharingShutdownStart V U s
  | .GameSharingInitStart p => sceUtilityGameSharingInitStart V U p s
  | .GameSharingUpdate a => sceUtilityGameSharingUpdate V U a s
  | .GameSharingGetStatus => sceUtilityGameSharingGetStatus V U s

/-- The dialog method calls recorded in a log, in order. -/
def dialogCalls : List SysEvent → List (UtilityDialogType × DialogMethod)
  | [] => []
  | SysEvent.DialogCall t m :: rest => (t, m) :: dialogCalls rest
  | _ :: rest => dialogCalls rest

/-- A run of `sceUtilitySavedataUpdate` calls, one per listed `animSpeed`; the
state after the last. -/
def runSavedataUpdates {α δ : Type} (V : Env α δ) (U : UtilityErrorCodes) :
    List Int → UtilityState α δ → UtilityState α δ
  | [], s => s
  | a :: rest, s => runSavedataUpdates V U rest (sceUtilitySavedataUpdate V U a s).2

/-- The state after the run of C16: `__UtilityInit`, then
`sceUtilitySavedataInitStart(paramAddr)`, then one `sceUtilitySavedataUpdate`
per listed speed, then `sceUtilitySavedataShutdownStart`. -/
def savedataRun {α δ : Type} (V : Env α δ) (U : UtilityErrorCodes) (paramAddr : Nat)
    (speeds : List Int) (s0 : UtilityState α δ) : UtilityState α δ :=
  (sceUtilitySavedataShutdownStart V U
    (runSavedataUpdates V U speeds
      (sceUtilitySavedataInitStart V U paramAddr (__UtilityInit V s0)).2)).2

/-! ## The helper task -/

/-- The instruction array `insts` of `UtilityDialogInitialize`; `typeCode` is
`(int)type`. -/
def initializeInsts (typeCode : Int) : List Inst :=
  [ Inst.ORI MipsReg.S0 MipsReg.A0 0,
    Inst.ORI MipsReg.A0 MipsReg.ZERO 0,
    Inst.ORI MipsReg.A1 MipsReg.ZERO 0,
    Inst.ORI MipsReg.A2 MipsReg.ZERO 0,
    Inst.SYSCALL "sceSuspendForUser" "sceKernelVolatileMemLock",
    Inst.ORI MipsReg.A0 MipsReg.S0 0,
    Inst.SYSCALL "sceUtility" "__UtilityWorkUs",
    Inst.ORI MipsReg.A0 MipsReg.S0 0,
    Inst.SYSCALL "sceUtility" "__UtilityWorkUs",
    Inst.ORI MipsReg.A0 MipsReg.S0 0,
    Inst.SYSCALL "sceUtility" "__UtilityWorkUs",
    Inst.ORI MipsReg.A0 MipsReg.S0 0,
    Inst.SYSCALL "sceUtility" "__UtilityWorkUs",
    Inst.ORI MipsReg.A0 MipsReg.ZERO typeCode,
    Inst.JR_RA,
    Inst.SYSCALL "sceUtility" "__UtilityInitDialog" ]

/-- The instruction array `insts` of `UtilityDialogShutdown`; `typeCode` is
`(int)type`. -/
def shutdownInsts (typeCode : Int) : List Inst :=
  [ Inst.ORI MipsReg.S0 MipsReg.A0 0,
    Inst.SYSCALL "sceUtility" "__UtilityWorkUs",
    Inst.ORI MipsReg.A0 MipsReg.S0 0,
    Inst.SYSCALL "sceUtility" "__UtilityWorkUs",
    Inst.ORI MipsReg.A0 MipsReg.S0 0,
    Inst.SYSCALL "sceUtility" "__UtilityWorkUs",
    Inst.ORI MipsReg.A0 MipsReg.S0 0,
    Inst.SYSCALL "sceUtility" "__UtilityWorkUs",
    Inst.ORI MipsReg.A0 MipsReg.ZERO typeCode,
    Inst.JR_RA,
    Inst.SYSCALL "sceUtility" "__UtilityFinishDialog" ]

/-- The two statements
`accessThread = new HLEHelperThread("ScePafJob", insts, ARRAY_SIZE(insts), priority, 0x200);`
and `accessThread->Start(partDelay, 0);`. -/
def spawnAccessThread {α δ : Type} (V : Env α δ) (insts : List Inst) (priority partDelay : Int)
    (s : UtilityState α δ) : UtilityState α δ :=
  let thread : HLEHelperThread :=
    { name := "ScePafJob", insts := insts, prio := priority, stacksize := 0x200,
      started := none }
  let s1 : UtilityState α δ :=
    { s with world := V.NewThread s.world thread,
             accessThread := some thread,
             log := s.log ++ [SysEvent.NewThread thread] }
  { s1 with world := V.Start s1.world thread partDelay 0,
            accessThread := some { thread with started := some (partDelay, 0) },
            log := s1.log ++ [SysEvent.Start thread partDelay 0] }

/-- The function
`void UtilityDialogInitialize(UtilityDialogType type, int delayUs, int priority)`;
`delayUs / 4` is the truncating division of `int`. -/
def UtilityDialogInitialize {α δ : Type} (V : Env α δ) (type : UtilityDialogType)
    (delayUs priority : Int) (s : UtilityState α δ) : UtilityState α δ :=
  let partDelay := Int.tdiv delayUs 4
  let insts := initializeInsts (V.dialogCode type)
  let s1 := CleanupDialogThreads V true s
  let s2 := spawnAccessThread V insts priority partDelay s1
  { s2 with accessThreadFinished := false, accessThreadState := "initializing" }

/-- The function
`void UtilityDialogShutdown(UtilityDialogType type, int delayUs, int priority)`. -/
def UtilityDialogShutdown {α δ : Type} (V : Env α δ) (type : UtilityDialogType)
    (delayUs priority : Int) (s : UtilityState α δ) : UtilityState α δ :=
  let partDelay := Int.tdiv delayUs 4
  let insts := shutdownInsts (V.dialogCode type)
  let s1 := CleanupDialogThreads V true s
  let prevInterrupts := V.InterruptsEnabled s1.world
  let s2 : UtilityState α δ :=
    { s1 with world := V.DisableInterrupts s1.world,
              log := s1.log ++ [SysEvent.DisableInterrupts] }
  let s3 := spawnAccessThread V insts priority partDelay s2
  let s4 : UtilityState α δ :=
    { s3 with accessThreadFinished := false, accessThreadState := "shutting down" }
  if prevInterrupts then
    { s4 with world := V.EnableInterrupts s4.world,
              log := s4.log ++ [SysEvent.EnableInterrupts] }
  else s4

/-- The function `static int UtilityWorkUs(int us)`. -/
def UtilityWorkUs {α δ : Type} (us : Int) (s : UtilityState α δ) :
    HLEIntResult × UtilityState α δ :=
  if us > 1000 then
    ({ value := 0, delayUs := some (us - 1000).toNat },
     { s with log := s.log ++ [SysEvent.hleEatMicro 1000] })
  else
    (hleReturn 0,
     { s with log := s.log ++ [SysEvent.hleEatMicro us, SysEvent.hleReSchedule "utility work"] })

/-- The enumerators of `UtilityDialogType`. -/
def allDialogTypes : List UtilityDialogType :=
  [ UtilityDialogType.NONE, UtilityDialogType.SAVEDATA, UtilityDialogType.MSG,
    UtilityDialogType.OSK, UtilityDialogType.NET, UtilityDialogType.SCREENSHOT,
    UtilityDialogType.GAMESHARING, UtilityDialogType.GAMEDATAINSTALL,
    UtilityDialogType.NPSIGNIN ]

/-- The cast `(UtilityDialogType)type` of an `int`: the enumerator with that
value, or `none` for a value outside the enumeration. -/
def castDialogType {α δ : Type} (V : Env α δ) (type : Int) : Option UtilityDialogType :=
  allDialogTypes.find? (fun t => decide (V.dialogCode t = type))

/-- The function `static PSPDialog *CurrentDialog(UtilityDialogType type)`: the
dialog object (named by its type) or null; `type` is `none` for a value outside
the enumeration, which leaves the `switch` without a match. -/
def CurrentDialog (type : Option UtilityDialogType) : Option UtilityDialogType :=
  match type with
  | some UtilityDialogType.NONE => none
  | some UtilityDialogType.SAVEDATA => some UtilityDialogType.SAVEDATA
  | some UtilityDialogType.MSG => some UtilityDialogType.MSG
  | some UtilityDialogType.OSK => some UtilityDialogType.OSK
  | some UtilityDialogType.NET => some UtilityDialogType.NET
  | some UtilityDialogType.SCREENSHOT => some UtilityDialogType.SCREENSHOT
  | some UtilityDialogType.GAMESHARING => none
  | some UtilityDialogType.GAMEDATAINSTALL => some UtilityDialogType.GAMEDATAINSTALL
  | some UtilityDialogType.NPSIGNIN => some UtilityDialogType.NPSIGNIN
  | none => none

/-- The function `static int UtilityInitDialog(int type)`. -/
def UtilityInitDialog {α δ : Type} (V : Env α δ) (type : Int) (s : UtilityState α δ) :
    HLEIntResult × UtilityState α δ :=
  let dialog := CurrentDialog (castDialogType V type)
  let s1 : UtilityState α δ :=
    { s with accessThreadFinished := true, accessThreadState := "init finished" }
  match dialog with
  | some d =>
    let r := callDialog V d DialogMethod.FinishInit s1
    (hleReturn r.1, r.2)
  | none => (hleReturn 0, s1)

/-- The function `static int UtilityFinishDialog(int type)`. -/
def UtilityFinishDialog {α δ : Type} (V : Env α δ) (type : Int) (s : UtilityState α δ) :
    HLEIntResult × UtilityState α δ :=
  let dialog := CurrentDialog (castDialogType V type)
  let s1 : UtilityState α δ :=
    { s with accessThreadFinished := true, accessThreadState := "shutdown finished" }
  match dialog with
  | some d =>
    let r := callDialog V d DialogMethod.FinishShutdown s1
    (hleReturn r.1, r.2)
  | none => (hleReturn 0, s1)

/-- The arguments of the `KernelVolatileMemUnlock` calls recorded in a log. -/
def unlockCalls : List SysEvent → List Int
  | [] => []
  | SysEvent.KernelVolatileMemUnlock t :: rest => t :: unlockCalls rest
  | _ :: rest => unlockCalls rest

/-- The microseconds passed to `hleEatMicro` in a log, summed. -/
def eatenMicros : List SysEvent → Int
  | [] => 0
  | SysEvent.hleEatMicro us :: rest => us + eatenMicros rest
  | _ :: rest => eatenMicros rest

/-- The number of `hleReSchedule` calls in a log. -/
def rescheduleCount : List SysEvent → Nat
  | [] => 0
  | SysEvent.hleReSchedule _ :: rest => 1 + rescheduleCount rest
  | _ :: rest => rescheduleCount rest

/-! ## System parameters -/

/-- The constants `PSP_SYSTEMPARAM_ID_INT_...` that `sceUtilitySetSystemParamInt`
switches on (declared outside the embedded sources; a parameter). -/
structure SystemParamIds where
  PSP_SYSTEMPARAM_ID_INT_ADHOC_CHANNEL : Nat
  PSP_SYSTEMPARAM_ID_INT_WLAN_POWERSAVE : Nat
  deriving DecidableEq, Repr

/-- A sample assignment of the ids (2 and 3), for concrete runs. -/
def sampleSystemParamIds : SystemParamIds where
  PSP_SYSTEMPARAM_ID_INT_ADHOC_CHANNEL := 2
  PSP_SYSTEMPARAM_ID_INT_WLAN_POWERSAVE := 3

/-- The syscall `static u32 sceUtilitySetSystemParamInt(u32 id, u32 value)`; the
`switch` is read in the order of its `case` labels. -/
def sceUtilitySetSystemParamInt {α δ : Type} (P : SystemParamIds) (U : UtilityErrorCodes)
    (id value : Nat) (s : UtilityState α δ) : HLEResult × UtilityState α δ :=
  if id = P.PSP_SYSTEMPARAM_ID_INT_ADHOC_CHANNEL then
    if value ≠ 0 ∧ value ≠ 1 ∧ value ≠ 6 ∧ value ≠ 11 then
      ({ value := intToU32 U.SCE_ERROR_UTILITY_INVALID_ADHOC_CHANNEL, delayUs := none }, s)
    else
      ({ value := 0, delayUs := none }, s)
  else if id = P.PSP_SYSTEMPARAM_ID_INT_WLAN_POWERSAVE then
    ({ value := 0, delayUs := none }, s)
  else
    ({ value := intToU32 U.SCE_ERROR_UTILITY_INVALID_SYSTEM_PARAM_ID, delayUs := none }, s)

/-! ## Guest memory -/

/-- The contents of guest memory: the byte at each guest address. -/
abbrev GuestMemory := Nat → Nat

/-- The part of `Memory::` (`Core/MemMap.h`, outside the embedded sources) that
is taken as a parameter: the memory map behind `Memory::IsValidRange(address,
size)`, and the checked write `Memory::Write_U32(value, address)`, whose
handling of an invalid address is not this file's. -/
structure MemoryMap where
  IsValidRange : Nat → Nat → Bool
  Write_U32 : GuestMemory → Nat → Nat → GuestMemory

/-- Modelled from the spec: a write of the bytes `data` to guest memory at
`addr` (the effect of the unchecked `Memory::` writes, which are not among the
sources): the bytes land at `addr`, `addr + 1`, ... and no other byte
changes. -/
def writeBytes (mem : GuestMemory) (addr : Nat) (data : List Nat) : GuestMemory :=
  fun a => if addr ≤ a ∧ a < addr + data.length then data.getD (a - addr) 0 else mem a

/-- The first `len` bytes of the host array `src`; a byte the model of the
array does not hold is read as 0. -/
def readArray (src : List Nat) (len : Nat) : List Nat :=
  (List.range len).map (fun i => src.getD i 0)

/-- Modelled from the spec: `Memory::MemcpyUnchecked(to, src, len)`, not among
the sources: `len` bytes of the host array `src` are written at guest address
`toAddr`. -/
def MemcpyUnchecked (mem : GuestMemory) (toAddr : Nat) (src : List Nat) (len : Nat) :
    GuestMemory :=
  writeBytes mem toAddr (readArray src len)

/-- The `n` low bytes of `value`, least significant first. -/
def littleEndian : Nat → Nat → List Nat
  | 0, _ => []
  | n + 1, value => value % 256 :: littleEndian n (value / 256)

/-- Modelled from the spec: `Memory::WriteUnchecked_U32(value, address)`, not
among the sources: four bytes, little-endian. -/
def WriteUnchecked_U32 (mem : GuestMemory) (value address : Nat) : GuestMemory :=
  writeBytes mem address (littleEndian 4 value)

/-- Modelled from the spec: `Memory::WriteUnchecked_U16(value, address)`, not
among the sources: two bytes, little-endian. -/
def WriteUnchecked_U16 (mem : GuestMemory) (value address : Nat) : GuestMemory :=
  writeBytes mem address (littleEndian 2 value)

/-- The bytes of the C string held in `src`: those before the first zero
byte. -/
def cString (src : List Nat) : List Nat := src.takeWhile (fun b => decide (b ≠ 0))

/-- The `n` bytes `strncpy(dest, src, n)` writes to `dest` (C library): the
bytes of the C string `src`, cut at `n`, then zero bytes up to `n`. -/
def strncpyBytes (src : List Nat) (n : Nat) : List Nat :=
  (cString src ++ List.replicate n 0).take n

/-! ## System parameters: reading -/

/-- The fields of `g_Config` and the compatibility flags the system-parameter
syscalls read.  `sNickName` is the byte content of the `std::string`;
`language` is the value of `g_Config.GetPSPLanguage()`. -/
structure Config where
  sNickName : List Nat
  iWlanAdhocChannel : Int
  bWlanPowerSave : Bool
  iDateFormat : Int
  iTimeFormat : Int
  iTimeZone : Int
  bDayLightSavings : Bool
  language : Int
  iButtonPreference : Int
  iLockParentalLevel : Int
  EnglishOrJapaneseOnly : Bool
  ForceCircleButtonConfirm : Bool

/-- The `case` labels of the `switch` of `sceUtilityGetSystemParamInt`. -/
inductive SystemParamIntId where
  | PSP_SYSTEMPARAM_ID_INT_ADHOC_CHANNEL
  | PSP_SYSTEMPARAM_ID_INT_WLAN_POWERSAVE
  | PSP_SYSTEMPARAM_ID_INT_DATE_FORMAT
  | PSP_SYSTEMPARAM_ID_INT_TIME_FORMAT
  | PSP_SYSTEMPARAM_ID_INT_TIMEZONE
  | PSP_SYSTEMPARAM_ID_INT_DAYLIGHTSAVINGS
  | PSP_SYSTEMPARAM_ID_INT_LANGUAGE
  | PSP_SYSTEMPARAM_ID_INT_BUTTON_PREFERENCE
  | PSP_SYSTEMPARAM_ID_INT_LOCK_PARENTAL_LEVEL
  deriving DecidableEq, Repr

/-- The `PSP_SYSTEMPARAM_...` constants (declared outside the embedded
sources; a parameter).  `intId id` is the `case` label of
`sceUtilityGetSystemParamInt` whose value is `id`, if any. -/
structure SystemParamConsts where
  PSP_SYSTEMPARAM_ID_STRING_NICKNAME : Nat
  intId : Nat → Option SystemParamIntId
  PSP_SYSTEMPARAM_ADHOC_CHANNEL_AUTOMATIC : Nat
  PSP_SYSTEMPARAM_WLAN_POWERSAVE_ON : Nat
  PSP_SYSTEMPARAM_WLAN_POWERSAVE_OFF : Nat
  PSP_SYSTEMPARAM_TIME_FORMAT_12HR : Int
  PSP_SYSTEMPARAM_TIME_FORMAT_24HR : Int
  PSP_SYSTEMPARAM_DAYLIGHTSAVINGS_SAVING : Nat
  PSP_SYSTEMPARAM_DAYLIGHTSAVINGS_STD : Nat
  PSP_SYSTEMPARAM_LANGUAGE_ENGLISH : Nat
  PSP_SYSTEMPARAM_LANGUAGE_JAPANESE : Nat
  PSP_SYSTEMPARAM_BUTTON_CIRCLE : Int

/-- The error constants of `Core/HLE/ErrorCodes.h` that the string and network
parameter syscalls return, as `int` values (a parameter). -/
structure ParamErrorCodes where
  SCE_ERROR_UTILITY_STRING_TOO_LONG : Int
  SCE_ERROR_NETPARAM_BAD_NETCONF : Int
  SCE_ERROR_NETPARAM_BAD_PARAM : Int
  deriving DecidableEq, Repr

/-- The constants are 32-bit `int` values with the sign bit set. -/
def ParamErrorCodes.Valid (E : ParamErrorCodes) : Prop :=
  (-(2 ^ 31) ≤ E.SCE_ERROR_UTILITY_STRING_TOO_LONG ∧ E.SCE_ERROR_UTILITY_STRING_TOO_LONG < 0) ∧
  (-(2 ^ 31) ≤ E.SCE_ERROR_NETPARAM_BAD_NETCONF ∧ E.SCE_ERROR_NETPARAM_BAD_NETCONF < 0) ∧
  (-(2 ^ 31) ≤ E.SCE_ERROR_NETPARAM_BAD_PARAM ∧ E.SCE_ERROR_NETPARAM_BAD_PARAM < 0)

instance (E : ParamErrorCodes) : Decidable E.Valid := by
  unfold ParamErrorCodes.Valid; infer_instance

/-- The conversion `(int)g_Config.sNickName.length()` of a `size_t`. -/
def lengthAsInt (bytes : List Nat) : Int := u32ToInt bytes.length

/-- The syscall
`static u32 sceUtilityGetSystemParamString(u32 id, u32 destAddr, int destSize)`,
on guest memory `mem`. -/
def sceUtilityGetSystemParamString (M : MemoryMap) (K : SystemParamConsts)
    (U : UtilityErrorCodes) (E : ParamErrorCodes) (cfg : Config)
    (id destAddr : Nat) (destSize : Int) (mem : GuestMemory) : HLEResult × GuestMemory :=
  if !M.IsValidRange destAddr (intToU32 destSize) then
    ({ value := intToU32 (-1), delayUs := none }, mem)
  else if id = K.PSP_SYSTEMPARAM_ID_STRING_NICKNAME then
    if destSize ≤ lengthAsInt cfg.sNickName then
      ({ value := intToU32 E.SCE_ERROR_UTILITY_STRING_TOO_LONG, delayUs := none }, mem)
    else
      ({ value := 0, delayUs := none },
       writeBytes mem destAddr (strncpyBytes cfg.sNickName destSize.toNat))
  else
    ({ value := intToU32 U.SCE_ERROR_UTILITY_INVALID_SYSTEM_PARAM_ID, delayUs := none }, mem)

/-- The syscall `static u32 sceUtilityGetSystemParamInt(u32 id, u32 destaddr)`,
on guest memory `mem`. -/
def sceUtilityGetSystemParamInt (M : MemoryMap) (K : SystemParamConsts)
    (U : UtilityErrorCodes) (cfg : Config) (id destaddr : Nat) (mem : GuestMemory) :
    HLEResult × GuestMemory :=
  let finish (param : Nat) : HLEResult × GuestMemory :=
    ({ value := 0, delayUs := none }, M.Write_U32 mem param destaddr)
  match K.intId id with
  | some .PSP_SYSTEMPARAM_ID_INT_ADHOC_CHANNEL =>
    let param := intToU32 cfg.iWlanAdhocChannel
    if param = K.PSP_SYSTEMPARAM_ADHOC_CHANNEL_AUTOMATIC then
      ({ value := 0x800ADF4, delayUs := none }, M.Write_U32 mem param destaddr)
    else finish param
  | some .PSP_SYSTEMPARAM_ID_INT_WLAN_POWERSAVE =>
    finish (if cfg.bWlanPowerSave then K.PSP_SYSTEMPARAM_WLAN_POWERSAVE_ON
      else K.PSP_SYSTEMPARAM_WLAN_POWERSAVE_OFF)
  | some .PSP_SYSTEMPARAM_ID_INT_DATE_FORMAT =>
    finish (intToU32 cfg.iDateFormat)
  | some .PSP_SYSTEMPARAM_ID_INT_TIME_FORMAT =>
    finish (if cfg.iTimeFormat = K.PSP_SYSTEMPARAM_TIME_FORMAT_12HR
      then intToU32 K.PSP_SYSTEMPARAM_TIME_FORMAT_12HR
      else intToU32 K.PSP_SYSTEMPARAM_TIME_FORMAT_24HR)
  | some .PSP_SYSTEMPARAM_ID_INT_TIMEZONE =>
    finish (intToU32 cfg.iTimeZone)
  | some .PSP_SYSTEMPARAM_ID_INT_DAYLIGHTSAVINGS =>
    finish (if cfg.bDayLightSavings then K.PSP_SYSTEMPARAM_DAYLIGHTSAVINGS_SAVING
      else K.PSP_SYSTEMPARAM_DAYLIGHTSAVINGS_STD)
  | some .PSP_SYSTEMPARAM_ID_INT_LANGUAGE =>
    let param := intToU32 cfg.language
    finish (if cfg.EnglishOrJapaneseOnly then
        (if param ≠ K.PSP_SYSTEMPARAM_LANGUAGE_ENGLISH ∧
            param ≠ K.PSP_SYSTEMPARAM_LANGUAGE_JAPANESE
         then K.PSP_SYSTEMPARAM_LANGUAGE_ENGLISH else param)
      else param)
  | some .PSP_SYSTEMPARAM_ID_INT_BUTTON_PREFERENCE =>
    finish (intToU32 (if cfg.ForceCircleButtonConfirm then K.PSP_SYSTEMPARAM_BUTTON_CIRCLE
      else cfg.iButtonPreference))
  | some .PSP_SYSTEMPARAM_ID_INT_LOCK_PARENTAL_LEVEL =>
    finish (intToU32 cfg.iLockParentalLevel)
  | none =>
    ({ value := intToU32 U.SCE_ERROR_UTILITY_INVALID_SYSTEM_PARAM_ID, delayUs := none }, mem)

/-- The syscall `static int sceUtilityGetNetParamLatestID(u32 idAddr)`, on guest
memory `mem`; `netParamLatestId` is the file's variable. -/
def sceUtilityGetNetParamLatestID (M : MemoryMap) (netParamLatestId : Int) (idAddr : Nat)
    (mem : GuestMemory) : Int × GuestMemory :=
  (0, M.Write_U32 mem (intToU32 netParamLatestId) idAddr)

/-! ## Network parameters -/

/-- The `case` labels of the `switch (param)` of `sceUtilityGetNetParam`. -/
inductive NetParamKind where
  | PSP_NETPARAM_NAME
  | PSP_NETPARAM_SSID
  | PSP_NETPARAM_SECURE
  | PSP_NETPARAM_WEPKEY
  | PSP_NETPARAM_IS_STATIC_IP
  | PSP_NETPARAM_IP
  | PSP_NETPARAM_NETMASK
  | PSP_NETPARAM_ROUTE
  | PSP_NETPARAM_MANUAL_DNS
  | PSP_NETPARAM_PRIMARYDNS
  | PSP_NETPARAM_SECONDARYDNS
  | PSP_NETPARAM_PROXY_USER
  | PSP_NETPARAM_PROXY_PASS
  | PSP_NETPARAM_USE_PROXY
  | PSP_NETPARAM_PROXY_SERVER
  | PSP_NETPARAM_PROXY_PORT
  | PSP_NETPARAM_VERSION
  | PSP_NETPARAM_UNKNOWN
  | PSP_NETPARAM_8021X_AUTH_TYPE
  | PSP_NETPARAM_8021X_USER
  | PSP_NETPARAM_8021X_PASS
  | PSP_NETPARAM_WPA_TYPE
  | PSP_NETPARAM_WPA_KEY
  | PSP_NETPARAM_BROWSER
  | PSP_NETPARAM_WIFI_CONFIG
  deriving DecidableEq, Repr

/-- The constants of the network-parameter syscalls (declared outside the
embedded sources; a parameter).  `kindOf param` is the `case` label whose value
is `param`, if any; `profileName n` is the content of the local array `name`
after `truncate_cpy(name, sizeof(name), defaultNetConfigName +
std::to_string(n))`. -/
structure NetParamConsts where
  PSP_NETPARAM_MAX_NUMBER_DUMMY_ENTRIES : Int
  kindOf : Int → Option NetParamKind
  APCTL_PROFILENAME_MAXLEN : Nat
  APCTL_SSID_MAXLEN : Nat
  APCTL_IPADDR_MAXLEN : Nat
  APCTL_URL_MAXLEN : Nat
  profileName : Int → List Nat

/-- The fields of `netApctlInfo` that `sceUtilityGetNetParam` reads: the byte
arrays, and the integer fields as the `u32` / `u16` values written. -/
structure NetApctlInfo where
  ssid : List Nat
  ip : List Nat
  subNetMask : List Nat
  gateway : List Nat
  primaryDns : List Nat
  secondaryDns : List Nat
  proxyUrl : List Nat
  useProxy : Nat
  proxyPort : Nat
  eapType : Nat
  startBrowser : Nat

/-- The syscall `static int sceUtilityCheckNetParam(int id)`. -/
def sceUtilityCheckNetParam (N : NetParamConsts) (E : ParamErrorCodes) (id : Int) : Int :=
  let available : Bool := decide (id ≥ 0 ∧ id ≤ 24)
  let available : Bool := if id > N.PSP_NETPARAM_MAX_NUMBER_DUMMY_ENTRIES then false else available
  if available then 0 else E.SCE_ERROR_NETPARAM_BAD_NETCONF

/-- The local array `char dummyWEPKey[6] = "XXXXX"`. -/
def dummyWEPKey : List Nat := [88, 88, 88, 88, 88, 0]

/-- The local array `char dummyUserPass[256] = "PPSSPP"`. -/
def dummyUserPass : List Nat := [80, 80, 83, 83, 80, 80] ++ List.replicate 250 0

/-- The local array `char dummyWPAKey[64] = "XXXXXXXX"`. -/
def dummyWPAKey : List Nat := [88, 88, 88, 88, 88, 88, 88, 88] ++ List.replicate 56 0

/-- The pattern of an array `case` of `sceUtilityGetNetParam` followed by the
final `return 0`:
`if (!Memory::IsValidRange(dataAddr, len)) return -1;
Memory::MemcpyUnchecked(dataAddr, src, len); break;`. -/
def netParamCopy (M : MemoryMap) (mem : GuestMemory) (dataAddr : Nat) (src : List Nat)
    (len : Nat) : Int × GuestMemory :=
  if !M.IsValidRange dataAddr len then (-1, mem)
  else (0, MemcpyUnchecked mem dataAddr src len)

/-- The pattern of a 32-bit `case` of `sceUtilityGetNetParam` followed by the
final `return 0`:
`if (!Memory::IsValidRange(dataAddr, 4)) return -1;
Memory::WriteUnchecked_U32(value, dataAddr); break;`. -/
def netParamU32 (M : MemoryMap) (mem : GuestMemory) (dataAddr : Nat) (value : Nat) :
    Int × GuestMemory :=
  if !M.IsValidRange dataAddr 4 then (-1, mem)
  else (0, WriteUnchecked_U32 mem value dataAddr)

/-- The `case PSP_NETPARAM_PROXY_PORT` of `sceUtilityGetNetParam` followed by
the final `return 0`:
`if (!Memory::IsValidRange(dataAddr, 2)) return -1;
Memory::WriteUnchecked_U16(value, dataAddr); break;`. -/
def netParamU16 (M : MemoryMap) (mem : GuestMemory) (dataAddr : Nat) (value : Nat) :
    Int × GuestMemory :=
  if !M.IsValidRange dataAddr 2 then (-1, mem)
  else (0, WriteUnchecked_U16 mem value dataAddr)

/-- The syscall `static int sceUtilityGetNetParam(int id, int param, u32 dataAddr)`,
on guest memory `mem`; `netParamLatestId` is the file's variable and `info` the
global `netApctlInfo`.  The test of `g_netApctlInited` only logs. -/
def sceUtilityGetNetParam (M : MemoryMap) (N : NetParamConsts) (E : ParamErrorCodes)
    (info : NetApctlInfo) (netParamLatestId : Int) (id param : Int) (dataAddr : Nat)
    (mem : GuestMemory) : Int × GuestMemory :=
  if id < 0 ∨ id > 24 then
    (E.SCE_ERROR_NETPARAM_BAD_NETCONF, mem)
  else
    let name := N.profileName (if id = 0 then netParamLatestId else id)
    match N.kindOf param with
    | some .PSP_NETPARAM_NAME => netParamCopy M mem dataAddr name N.APCTL_PROFILENAME_MAXLEN
    | some .PSP_NETPARAM_SSID => netParamCopy M mem dataAddr info.ssid N.APCTL_SSID_MAXLEN
    | some .PSP_NETPARAM_SECURE => netParamU32 M mem dataAddr 1
    | some .PSP_NETPARAM_WEPKEY => netParamCopy M mem dataAddr dummyWEPKey 5
    | some .PSP_NETPARAM_IS_STATIC_IP => netParamU32 M mem dataAddr 1
    | some .PSP_NETPARAM_IP => netParamCopy M mem dataAddr info.ip N.APCTL_IPADDR_MAXLEN
    | some .PSP_NETPARAM_NETMASK =>
      netParamCopy M mem dataAddr info.subNetMask N.APCTL_IPADDR_MAXLEN
    | some .PSP_NETPARAM_ROUTE => netParamCopy M mem dataAddr info.gateway N.APCTL_IPADDR_MAXLEN
    | some .PSP_NETPARAM_MANUAL_DNS => netParamU32 M mem dataAddr 1
    | some .PSP_NETPARAM_PRIMARYDNS =>
      netParamCopy M mem dataAddr info.primaryDns N.APCTL_IPADDR_MAXLEN
    | some .PSP_NETPARAM_SECONDARYDNS =>
      netParamCopy M mem dataAddr info.secondaryDns N.APCTL_IPADDR_MAXLEN
    | some .PSP_NETPARAM_PROXY_USER => netParamCopy M mem dataAddr dummyUserPass 255
    | some .PSP_NETPARAM_PROXY_PASS => netParamCopy M mem dataAddr dummyUserPass 255
    | some .PSP_NETPARAM_USE_PROXY => netParamU32 M mem dataAddr info.useProxy
    | some .PSP_NETPARAM_PROXY_SERVER =>
      netParamCopy M mem dataAddr info.proxyUrl N.APCTL_URL_MAXLEN
    | some .PSP_NETPARAM_PROXY_PORT => netParamU16 M mem dataAddr info.proxyPort
    | some .PSP_NETPARAM_VERSION => netParamU32 M mem dataAddr 2
    | some .PSP_NETPARAM_UNKNOWN => netParamU32 M mem dataAddr 0
    | some .PSP_NETPARAM_8021X_AUTH_TYPE => netParamU32 M mem dataAddr info.eapType
    | some .PSP_NETPARAM_8021X_USER => netParamCopy M mem dataAddr dummyUserPass 255
    | some .PSP_NETPARAM_8021X_PASS => netParamCopy M mem dataAddr dummyUserPass 255
    | some .PSP_NETPARAM_WPA_TYPE => netParamU32 M mem dataAddr 1
    | some .PSP_NETPARAM_WPA_KEY => netParamCopy M mem dataAddr dummyWPAKey 63
    | some .PSP_NETPARAM_BROWSER => netParamU32 M mem dataAddr info.startBrowser
    | some .PSP_NETPARAM_WIFI_CONFIG => netParamU32 M mem dataAddr 0
    | none => (E.SCE_ERROR_NETPARAM_BAD_PARAM, mem)

/-- The field length the specification gives for each supported kind: 4 for
the integer kinds, 2 for the proxy port, 5 for the WEP key, 63 for the WPA key,
255 for the user and password kinds, and the fixed maximum length for the
name, SSID, address and URL kinds. -/
def specFieldLength (N : NetParamConsts) : NetParamKind → Nat
  | .PSP_NETPARAM_NAME => N.APCTL_PROFILENAME_MAXLEN
  | .PSP_NETPARAM_SSID => N.APCTL_SSID_MAXLEN
  | .PSP_NETPARAM_IP => N.APCTL_IPADDR_MAXLEN
  | .PSP_NETPARAM_NETMASK => N.APCTL_IPADDR_MAXLEN
  | .PSP_NETPARAM_ROUTE => N.APCTL_IPADDR_MAXLEN
  | .PSP_NETPARAM_PRIMARYDNS => N.APCTL_IPADDR_MAXLEN
  | .PSP_NETPARAM_SECONDARYDNS => N.APCTL_IPADDR_MAXLEN
  | .PSP_NETPARAM_PROXY_SERVER => N.APCTL_URL_MAXLEN
  | .PSP_NETPARAM_PROXY_PORT => 2
  | .PSP_NETPARAM_WEPKEY => 5
  | .PSP_NETPARAM_WPA_KEY => 63
  | .PSP_NETPARAM_PROXY_USER => 255
  | .PSP_NETPARAM_PROXY_PASS => 255
  | .PSP_NETPARAM_8021X_USER => 255
  | .PSP_NETPARAM_8021X_PASS => 255
  | .PSP_NETPARAM_SECURE => 4
  | .PSP_NETPARAM_IS_STATIC_IP => 4
  | .PSP_NETPARAM_MANUAL_DNS => 4
  | .PSP_NETPARAM_USE_PROXY => 4
  | .PSP_NETPARAM_VERSION => 4
  | .PSP_NETPARAM_UNKNOWN => 4
  | .PSP_NETPARAM_8021X_AUTH_TYPE => 4
  | .PSP_NETPARAM_WPA_TYPE => 4
  | .PSP_NETPARAM_BROWSER => 4
  | .PSP_NETPARAM_WIFI_CONFIG => 4

/-! ## Save states -/

/-- Modelled from the spec: the values a save-state block of this file is made
of (the serializer, `Common/Serialize`, is not among the sources).  Each `Do`
call writes or reads one item; an object's own `DoState` writes or reads one
`Block`. -/
inductive SaveItem where
  | DialogType (t : UtilityDialogType)
  | Flag (b : Bool)
  | Word (i : Int)
  | Map (m : List (Int × Nat))
  | Set (s : List Int)
  | Block (bytes : List Nat)
  deriving DecidableEq, Repr

/-- The two modes of `PointerWrap` modelled (`MODE_MEASURE`, `MODE_VERIFY` and
`MODE_NOOP` are not). -/
inductive PointerWrapMode where
  | MODE_READ
  | MODE_WRITE
  deriving DecidableEq, Repr

/-- Modelled from the spec: a `PointerWrap` positioned at the section
"sceUtility": its mode, the version stored for the section (when reading), and
the items — those still to be read, or those written so far. -/
structure PointerWrap where
  mode : PointerWrapMode
  version : Nat
  items : List SaveItem
  deriving DecidableEq, Repr

/-- Modelled from the spec: `p.Section("sceUtility", 1, 6)`: when writing, the
current version 6 is stored and returned; when reading, the stored version is
returned if it lies in 1..6, and 0 (false) otherwise. -/
def PointerWrap.Section (p : PointerWrap) : Nat × PointerWrap :=
  match p.mode with
  | .MODE_WRITE => (6, { p with version := 6 })
  | .MODE_READ => if 1 ≤ p.version ∧ p.version ≤ 6 then (p.version, p) else (0, p)

/-- Modelled from the spec: `Do(p, x)` for a `UtilityDialogType`.  When reading,
an item of another kind (a block that does not have the layout of its version)
leaves `x` and the items as they are; likewise for the other `Do` functions. -/
def DoDialogType (p : PointerWrap) (x : UtilityDialogType) : UtilityDialogType × PointerWrap :=
  match p.mode with
  | .MODE_WRITE => (x, { p with items := p.items ++ [SaveItem.DialogType x] })
  | .MODE_READ =>
    match p.items with
    | SaveItem.DialogType t :: rest => (t, { p with items := rest })
    | _ => (x, p)

/-- Modelled from the spec: `Do(p, x)` for a `bool`. -/
def DoFlag (p : PointerWrap) (x : Bool) : Bool × PointerWrap :=
  match p.mode with
  | .MODE_WRITE => (x, { p with items := p.items ++ [SaveItem.Flag x] })
  | .MODE_READ =>
    match p.items with
    | SaveItem.Flag b :: rest => (b, { p with items := rest })
    | _ => (x, p)

/-- Modelled from the spec: `Do(p, x)` for an `int`. -/
def DoWord (p : PointerWrap) (x : Int) : Int × PointerWrap :=
  match p.mode with
  | .MODE_WRITE => (x, { p with items := p.items ++ [SaveItem.Word x] })
  | .MODE_READ =>
    match p.items with
    | SaveItem.Word i :: rest => (i, { p with items := rest })
    | _ => (x, p)

/-- Modelled from the spec: `Do(p, x)` for a `std::map<int, u32>`: written
entry by entry in key order; when reading, the map is cleared and each entry
read is assigned with `x[first] = second`. -/
def DoMap (p : PointerWrap) (x : ModuleMap) : ModuleMap × PointerWrap :=
  match p.mode with
  | .MODE_WRITE => (x, { p with items := p.items ++ [SaveItem.Map x] })
  | .MODE_READ =>
    match p.items with
    | SaveItem.Map m :: rest =>
      (m.foldl (fun t kv => ModuleMap.assign t kv.1 kv.2) [], { p with items := rest })
    | _ => (x, p)

/-- Modelled from the spec: `Do(p, x)` for a `std::set<int>`, held as the list
of its elements in iteration order. -/
def DoSet (p : PointerWrap) (x : List Int) : List Int × PointerWrap :=
  match p.mode with
  | .MODE_WRITE => (x, { p with items := p.items ++ [SaveItem.Set x] })
  | .MODE_READ =>
    match p.items with
    | SaveItem.Set s :: rest => (s, { p with items := rest })
    | _ => (x, p)

/-- The call `dialogObject->DoState(p)` on the dialog object of type `t`: it
writes the dialog's block, or reads it back into the dialog. -/
def dialogDoState {α δ : Type} (V : Env α δ) (t : UtilityDialogType) (p : PointerWrap)
    (s : UtilityState α δ) : PointerWrap × UtilityState α δ :=
  match p.mode with
  | .MODE_WRITE => ({ p with items := p.items ++ [SaveItem.Block (V.dialogSave t s.world)] }, s)
  | .MODE_READ =>
    match p.items with
    | SaveItem.Block bytes :: rest =>
      ({ p with items := rest }, { s with world := V.dialogLoad t bytes s.world })
    | _ => (p, s)

/-- Modelled from the spec: `Do(p, accessThread)` for the `HLEHelperThread *`:
an existing thread writes its block; when reading, the variable is made to
point to a thread object built from the block. -/
def DoAccessThread {α δ : Type} (V : Env α δ) (p : PointerWrap) (s : UtilityState α δ) :
    PointerWrap × UtilityState α δ :=
  match p.mode with
  | .MODE_WRITE =>
    match s.accessThread with
    | some thread => ({ p with items := p.items ++ [SaveItem.Block (V.threadSave thread)] }, s)
    | none => (p, s)
  | .MODE_READ =>
    match p.items with
    | SaveItem.Block bytes :: rest =>
      let r := V.threadLoad bytes s.world
      ({ p with items := rest }, { s with accessThread := some r.1, world := r.2 })
    | _ => (p, s)

/-- The loop of the version-1 branch of `__UtilityDoState`:
`for (it = oldModules.begin(); it != end; ++it) currentlyLoadedModules[*it] = 0;`. -/
def assignOldModules (t : ModuleMap) : List Int → ModuleMap
  | [] => t
  | it :: rest => assignOldModules (ModuleMap.assign t it 0) rest

/-- The function `void __UtilityDoState(PointerWrap &p)`. -/
def __UtilityDoState {α δ : Type} (V : Env α δ) (p : PointerWrap) (s : UtilityState α δ) :
    PointerWrap × UtilityState α δ :=
  let sec := p.Section
  let ver := sec.1
  let p := sec.2
  if ver = 0 then (p, s)
  else
    let r1 := DoDialogType p s.currentDialogType
    let s : UtilityState α δ := { s with currentDialogType := r1.1 }
    let r2 := DoFlag r1.2 s.currentDialogActive
    let s : UtilityState α δ := { s with currentDialogActive := r2.1 }
    let d1 := dialogDoState V UtilityDialogType.SAVEDATA r2.2 s
    let d2 := dialogDoState V UtilityDialogType.MSG d1.1 d1.2
    let d3 := dialogDoState V UtilityDialogType.OSK d2.1 d2.2
    let d4 := dialogDoState V UtilityDialogType.NET d3.1 d3.2
    let d5 := dialogDoState V UtilityDialogType.SCREENSHOT d4.1 d4.2
    let d6 := dialogDoState V UtilityDialogType.GAMEDATAINSTALL d5.1 d5.2
    let p := d6.1
    let s := d6.2
    -- the loaded modules
    let m : PointerWrap × UtilityState α δ :=
      if ver ≥ 2 then
        let r := DoMap p s.loader.currentlyLoadedModules
        (r.2, { s with loader := { s.loader with currentlyLoadedModules := r.1 } })
      else
        let r := DoSet p []
        let t := assignOldModules s.loader.currentlyLoadedModules r.1
        (r.2, { s with loader := { s.loader with currentlyLoadedModules := t } })
    let p := m.1
    let s := m.2
    -- the timer event
    let e : PointerWrap × UtilityState α δ :=
      if ver ≥ 3 then
        let r := DoWord p s.volatileUnlockEvent
        (r.2, { s with volatileUnlockEvent := r.1 })
      else (p, { s with volatileUnlockEvent := -1 })
    let p := e.1
    let s := e.2
    let rr := V.RestoreRegisterEvent s.world s.volatileUnlockEvent "UtilityVolatileUnlock"
    let s : UtilityState α δ :=
      { s with volatileUnlockEvent := rr.1, world := rr.2,
               log := s.log ++
                 [SysEvent.RestoreRegisterEvent s.volatileUnlockEvent "UtilityVolatileUnlock"] }
    -- the helper thread
    let hasAccessThread0 : Bool := s.accessThread.isSome
    let h : Bool × PointerWrap × UtilityState α δ :=
      if ver ≥ 4 then
        let r := DoFlag p hasAccessThread0
        if r.1 then
          let t := DoAccessThread V r.2 s
          let s2 : UtilityState α δ :=
            if p.mode = PointerWrapMode.MODE_READ then
              { t.2 with accessThreadState := "from save state" }
            else t.2
          (r.1, t.1, s2)
        else (r.1, r.2, s)
      else (false, p, s)
    let hasAccessThread := h.1
    let p := h.2.1
    let s := h.2.2
    let f : PointerWrap × UtilityState α δ :=
      if ver ≥ 5 then
        let r := DoFlag p s.accessThreadFinished
        (r.2, { s with accessThreadFinished := r.1 })
      else (p, s)
    let p := f.1
    let s := f.2
    let n : PointerWrap × UtilityState α δ :=
      if ver ≥ 6 then
        let d := dialogDoState V UtilityDialogType.NPSIGNIN p s
        (d.1, { d.2 with lastSaveStateVersion := -1 })
      else (p, { s with lastSaveStateVersion := (ver : Int) })
    let p := n.1
    let s := n.2
    match s.accessThread with
    | some thread =>
      if !hasAccessThread then
        (p, { s with world := V.Delete (V.Forget s.world thread) thread,
                     accessThread := none,
                     accessThreadState := "cleared from save state",
                     log := s.log ++ [SysEvent.Forget thread, SysEvent.Delete thread] })
      else (p, s)
    | none => (p, s)

/-- A `PointerWrap` in write mode with nothing written yet. -/
def PointerWrap.writer : PointerWrap :=
  { mode := PointerWrapMode.MODE_WRITE, version := 0, items := [] }

/-- A `PointerWrap` in read mode over what `p` holds. -/
def PointerWrap.reader (p : PointerWrap) : PointerWrap :=
  { mode := PointerWrapMode.MODE_READ, version := p.version, items := p.items }

/-- A format-version-1 block in read mode: the dialog type, the active flag,
the blocks of the six dialogs of that version, and the bare set `S` of module
ids. -/
def snapshotV1 (t : UtilityDialogType) (active : Bool) (b1 b2 b3 b4 b5 b6 : List Nat)
    (S : List Int) : PointerWrap :=
  { mode := PointerWrapMode.MODE_READ, version := 1,
    items := [SaveItem.DialogType t, SaveItem.Flag active, SaveItem.Block b1,
      SaveItem.Block b2, SaveItem.Block b3, SaveItem.Block b4, SaveItem.Block b5,
      SaveItem.Block b6, SaveItem.Set S] }

/-! ## Running a helper program -/

/-- Modelled from the spec: the registers a helper program uses, as `u32`
values (the MIPS interpreter is not among the sources). -/
structure HelperRegs where
  a0 : Nat
  a1 : Nat
  a2 : Nat
  s0 : Nat
  deriving DecidableEq, Repr

/-- Read a register; `MIPS_REG_ZERO` reads as 0. -/
def HelperRegs.get (r : HelperRegs) : MipsReg → Nat
  | .ZERO => 0
  | .A0 => r.a0
  | .A1 => r.a1
  | .A2 => r.a2
  | .S0 => r.s0

/-- Write a register; a write to `MIPS_REG_ZERO` is dropped. -/
def HelperRegs.set (r : HelperRegs) (reg : MipsReg) (v : Nat) : HelperRegs :=
  match reg with
  | .ZERO => r
  | .A0 => { r with a0 := v }
  | .A1 => { r with a1 := v }
  | .A2 => { r with a2 := v }
  | .S0 => { r with s0 := v }

/-- A syscall made by a helper program: the module and function named by
`MIPS_MAKE_SYSCALL`, and the value of `a0` at the call read as `int` (the
argument of a `WrapI_I` function). -/
structure HelperCall where
  module : String
  function : String
  a0 : Int
  deriving DecidableEq, Repr

/-- Modelled from the spec: the effect of one instruction of a helper program.
`ORI rt, rs, imm` sets `rt` to `rs | imm` (the immediate is a 16-bit field of
the instruction word); a `SYSCALL` calls the named function with the current
`a0` and comes back with the argument registers `a0`..`a2` holding `clobber`,
an arbitrary value (they are not preserved across a syscall), `s0` being
preserved; `JR RA` alone changes no register. -/
def stepInst (clobber : Nat) (i : Inst) (r : HelperRegs) : Option HelperCall × HelperRegs :=
  match i with
  | Inst.ORI dest src imm => (none, r.set dest (r.get src ||| (imm % 65536).toNat))
  | Inst.SYSCALL module function =>
    (some { module := module, function := function, a0 := u32ToInt r.a0 },
     { r with a0 := clobber, a1 := clobber, a2 := clobber })
  | Inst.JR_RA => (none, r)

/-- Modelled from the spec: the syscalls a helper program makes, in order.  The
instructions run in sequence; `JR RA` runs the instruction in its delay slot
and ends the program. -/
def runInsts (clobber : Nat) : List Inst → HelperRegs → List HelperCall
  | [], _ => []
  | Inst.JR_RA :: rest, r =>
    (match rest with
     | [] => []
     | slot :: _ => (stepInst clobber slot r).1.toList)
  | Inst.ORI dest src imm :: rest, r =>
    runInsts clobber rest (stepInst clobber (Inst.ORI dest src imm) r).2
  | Inst.SYSCALL module function :: rest, r =>
    (stepInst clobber (Inst.SYSCALL module function) r).1.toList ++
      runInsts clobber rest (stepInst clobber (Inst.SYSCALL module function) r).2

/-- Modelled from the spec: the syscalls a helper thread makes once started:
`Start(a0, a1)` enters the program with the two arguments in `a0` and `a1`.  A
thread not started makes none. -/
def runHelperThread (clobber : Nat) (thread : HLEHelperThread) : List HelperCall :=
  match thread.started with
  | some (a0, a1) =>
    runInsts clobber thread.insts
      { a0 := intToU32 a0, a1 := intToU32 a1, a2 := clobber, s0 := clobber }
  | none => []

/-- The simulated work of one `__UtilityWorkUs(us)` call made in state `s`:
the microseconds it eats plus the delay of its result. -/
def workOf {α δ : Type} (us : Int) (s : UtilityState α δ) : Int :=
  (eatenMicros (UtilityWorkUs us s).2.log - eatenMicros s.log)
    + (((UtilityWorkUs us s).1.delayUs.getD 0 : Nat) : Int)

/-- What `UtilityDialogShutdown` relies on in the interrupt functions of the
kernel: `__DisableInterrupts` clears the flag `__InterruptsEnabled` reads,
`__EnableInterrupts` sets it, and creating, starting, terminating or deleting
a helper thread and `KernelVolatileMemUnlock` leave it as it is. -/
def InterruptLaws {α δ : Type} (V : Env α δ) : Prop :=
  (∀ w, V.InterruptsEnabled (V.DisableInterrupts w) = false) ∧
  (∀ w, V.InterruptsEnabled (V.EnableInterrupts w) = true) ∧
  (∀ w t, V.InterruptsEnabled (V.NewThread w t) = V.InterruptsEnabled w) ∧
  (∀ w t a b, V.InterruptsEnabled (V.Start w t a b) = V.InterruptsEnabled w) ∧
  (∀ w t, V.InterruptsEnabled (V.Terminate w t) = V.InterruptsEnabled w) ∧
  (∀ w t, V.InterruptsEnabled (V.Delete w t) = V.InterruptsEnabled w) ∧
  (∀ w x, V.InterruptsEnabled (V.KernelVolatileMemUnlock w x) = V.InterruptsEnabled w)

/-! ## The module syscalls on the whole state -/

/-- A module syscall run on all the variables of the file: the four functions
and the two internal ones name `currentlyLoadedModules` and `userMemory` only
(and the notify callbacks), so every other variable is handed on as it is. -/
def ModuleCall.execUtility {α δ : Type} (A : BlockAllocator α) (E : ErrorCodes) (c : ModuleCall)
    (s : UtilityState α δ) : HLEResult × UtilityState α δ :=
  let r := ModuleCall.exec A E c s.loader
  (r.1, { s with loader := r.2 })

/-- The argument of an `InitStart` syscall (the address of its parameter
block); 0 for a syscall of another kind. -/
def DialogSyscall.initArg : DialogSyscall → Nat
  | .SavedataInitStart p => p
  | .MsgDialogInitStart p => p
  | .OskInitStart p => p
  | .NetconfInitStart p => p
  | .ScreenshotInitStart p => p
  | .GamedataInstallInitStart p => p
  | .NpSigninInitStart p => p
  | .GameSharingInitStart p => p
  | _ => 0

/-! ## VideoBufferLock (`Windows/BufferLock.h`) -/

/-- The media buffer a `VideoBufferLock` holds, as `LockBuffer` sees it:
whether the constructor obtained the 2-D interface (`m_p2DBuffer` non-null),
the call `m_p2DBuffer->Lock2D(ppbScanLine0, plStride)` — from the values the two
out-parameters hold to the `HRESULT` and the values it leaves in them — and the
call `m_pBuffer->Lock(&pData, NULL, NULL)`, giving the `HRESULT` and `pData`. -/
structure MediaBuffer where
  has2D : Bool
  Lock2D : Nat → Int → Int × Nat × Int
  Lock : Int × Nat

/-- The test `SUCCEEDED(hr)` of the Windows SDK: `hr >= 0`. -/
def SUCCEEDED (hr : Int) : Bool := decide (0 ≤ hr)

/-- The value `abs(lDefaultStride)` of a `LONG`, converted to the `unsigned
long` of the product.  `abs(LONG_MIN)` is undefined in C; the function gives
the two's-complement result there, `2^31`. -/
def absLong (x : Int) : Nat := x.natAbs % 2 ^ 32

/-- What `LockBuffer` leaves: the `HRESULT` returned, the out-parameters
`*ppbScanLine0` (an address) and `*plStride`, and the member `m_bLocked`. -/
structure LockResult where
  hr : Int
  scanLine0 : Nat
  stride : Int
  m_bLocked : Bool
  deriving DecidableEq, Repr

/-- The method `HRESULT VideoBufferLock::LockBuffer(LONG lDefaultStride, DWORD
dwHeightInPixels, BYTE **ppbScanLine0, LONG *plStride)`; `scanLine0` and
`stride` are the values the out-parameters hold before the call.  `LONG` and
`DWORD` are 32 bits wide, so the product `abs(lDefaultStride) *
(dwHeightInPixels - 1)` is computed in `unsigned long`, modulo `2^32`, and then
added to the pointer. -/
def LockBuffer (B : MediaBuffer) (lDefaultStride : Int) (dwHeightInPixels : Nat)
    (scanLine0 : Nat) (stride : Int) : LockResult :=
  if B.has2D then
    let r := B.Lock2D scanLine0 stride
    { hr := r.1, scanLine0 := r.2.1, stride := r.2.2, m_bLocked := SUCCEEDED r.1 }
  else
    let hr := B.Lock.1
    let pData := B.Lock.2
    if SUCCEEDED hr then
      if lDefaultStride < 0 then
        { hr := hr,
          scanLine0 := pData +
            (absLong lDefaultStride * ((dwHeightInPixels % 2 ^ 32 + 2 ^ 32 - 1) % 2 ^ 32))
              % 2 ^ 32,
          stride := lDefaultStride, m_bLocked := SUCCEEDED hr }
      else
        { hr := hr, scanLine0 := pData, stride := lDefaultStride, m_bLocked := SUCCEEDED hr }
    else
      { hr := hr, scanLine0 := scanLine0, stride := stride, m_bLocked := SUCCEEDED hr }

/-! ## Loading a module after its dependencies -/

/-- The results of `LoadModuleInternal` for the listed modules, called one
after the other. -/
def loadResults {α : Type} (A : BlockAllocator α) (E : ErrorCodes) :
    List Nat → LoaderState α → List Int
  | [], _ => []
  | module :: rest, s =>
    (LoadModuleInternal A E module s).1 ::
      loadResults A E rest (LoadModuleInternal A E module s).2

/-- The modules to load for a catalogue entry: its listed dependencies in list
order, then the module itself (as the `u32` arguments of the calls). -/
def loadOrder (info : ModuleLoadInfo) : List Nat :=
  (depList info).map intToU32 ++ [intToU32 info.mod]

/-- Whether `LoadModuleInternal(module)` passes its three checks when the keys
of the table are `loaded`: the id is in the catalogue, is not loaded, and every
listed dependency is loaded. -/
def loadable (loaded : List Int) (module : Nat) : Bool :=
  match __UtilityModuleInfo (u32ToInt module) with
  | none => false
  | some info =>
    !(loaded.contains (u32ToInt module)) && (depList info).all (fun d => loaded.contains d)

/-- Whether each call of a sequence of loads passes its checks, the keys of
the table being `loaded` at the start and growing by each module loaded. -/
def canLoadSeq : List Int → List Nat → Bool
  | _, [] => true
  | loaded, module :: rest =>
    loadable loaded module && canLoadSeq (u32ToInt module :: loaded) rest

/-! ## Sample collaborators and states for concrete runs -/

/-- A toy dialog object: the outside state is one status word shared by all
dialogs.  `Init` fails with -1 on a null parameter block and otherwise sets the
status to 2, `Update` sets it to 3, `Shutdown` to 4, and `GetStatus` returns
it; the other methods return 0. -/
def sampleDialog (_t : UtilityDialogType) (m : DialogMethod) (o : Outside Nat Int) :
    Int × Outside Nat Int :=
  match m with
  | .Init paramAddr => if paramAddr = 0 then (-1, o) else (0, { o with world := 2 })
  | .Update _ => (0, { o with world := 3 })
  | .Shutdown _ => (0, { o with world := 4 })
  | .GetStatus => (o.world, o)
  | _ => (0, o)

/-- Sample collaborators: the toy dialog, a helper thread that never reports
`Stopped`, kernel calls with no effect on the status word, `YugiohSaveFix`
off. -/
def sampleEnv : Env Nat Int where
  YugiohSaveFix := false
  Stopped := fun _ _ => false
  Terminate := fun w _ => w
  Delete := fun w _ => w
  KernelVolatileMemUnlock := fun w _ => w
  NewDialogs := fun _ => 0
  SavedataParamInit := fun w => w
  RegisterEvent := fun w _ => (0, w)
  ResetSecondsSinceLastGameSave := fun w => w
  dialog := sampleDialog
  InterruptsEnabled := fun _ => true
  DisableInterrupts := fun w => w
  EnableInterrupts := fun w => w
  NewThread := fun w _ => w
  Start := fun w _ _ _ => w
  Forget := fun w _ => w
  RestoreRegisterEvent := fun w event _ => (event, w)
  dialogCode := fun t =>
    match t with
    | .NONE => 0
    | .SAVEDATA => 1
    | .MSG => 2
    | .OSK => 3
    | .NET => 4
    | .SCREENSHOT => 5
    | .GAMESHARING => 6
    | .GAMEDATAINSTALL => 7
    | .NPSIGNIN => 8
  dialogSave := fun _ w => [w.toNat]
  dialogLoad := fun _ _ w => w
  threadSave := fun _ => []
  threadLoad := fun _ w =>
    ({ name := "ScePafJob", insts := [], prio := 0x20, stacksize := 0x200, started := none }, w)

/-- The sample collaborators with the `YugiohSaveFix` flag on. -/
def yugiohEnv : Env Nat Int := { sampleEnv with YugiohSaveFix := true }

/-- The variables as their initialisers leave them, before `__UtilityInit`. -/
def staticState : UtilityState Nat Int :=
  { currentDialogType := UtilityDialogType.NONE, currentDialogActive := false,
    oldStatus := -1, volatileUnlockEvent := -1, accessThread := none,
    accessThreadFinished := true, accessThreadState := "initial",
    lastSaveStateVersion := -1, netParamLatestId := 1,
    loader := LoaderState.init 0x08800000, world := 0, log := [] }

/-- The freshly initialised subsystem of the sample. -/
def freshState : UtilityState Nat Int := __UtilityInit sampleEnv staticState

/-- A sample helper thread still in flight. -/
def sampleThread : HLEHelperThread :=
  { name := "ScePafJob", insts := [], prio := 0x20, stacksize := 0x200, started := some (0, 0) }

/-- A sample state: the message dialog is active, its status is 2, and a
helper thread is in flight (not finished). -/
def msgActiveState : UtilityState Nat Int :=
  { freshState with currentDialogType := UtilityDialogType.MSG, currentDialogActive := true,
                    oldStatus := 2, accessThread := some sampleThread,
                    accessThreadFinished := false, accessThreadState := "initializing",
                    world := 2 }

/-- A sample state with a helper thread that has finished. -/
def finishedThreadState : UtilityState Nat Int :=
  { msgActiveState with accessThreadFinished := true }

/-- The helper thread object both spawning functions build: name "ScePafJob",
stack size 0x200, with the given program, priority and `Start` arguments
(`none` before `Start`). -/
def pafJobThread (insts : List Inst) (priority : Int) (started : Option (Int × Int)) :
    HLEHelperThread :=
  { name := "ScePafJob", insts := insts, prio := priority, stacksize := 0x200,
    started := started }

/-- A sample memory map: guest RAM is `[0x08000000, 0x0A000000)`; the checked
write stores the four bytes when they lie in RAM and does nothing otherwise. -/
def sampleMemoryMap : MemoryMap where
  IsValidRange := fun address size =>
    decide (0x08000000 ≤ address ∧ address + size ≤ 0x0A000000)
  Write_U32 := fun mem value address =>
    if 0x08000000 ≤ address ∧ address + 4 ≤ 0x0A000000 then
      WriteUnchecked_U32 mem value address
    else mem

/-- Sample guest memory: every byte is 0xCC. -/
def sampleMemory : GuestMemory := fun _ => 0xCC

/-- A sample configuration; the nickname is the five bytes of "Alice". -/
def sampleConfig : Config where
  sNickName := [65, 108, 105, 99, 101]
  iWlanAdhocChannel := 1
  bWlanPowerSave := false
  iDateFormat := 1
  iTimeFormat := 1
  iTimeZone := 60
  bDayLightSavings := false
  language := 1
  iButtonPreference := 1
  iLockParentalLevel := 0
  EnglishOrJapaneseOnly := false
  ForceCircleButtonConfirm := false

/-- A sample assignment of the system-parameter constants (ids 1 to 10 in the
order of the `case` labels), for concrete runs. -/
def sampleSystemParamConsts : SystemParamConsts where
  PSP_SYSTEMPARAM_ID_STRING_NICKNAME := 1
  intId := fun id =>
    if id = 2 then some .PSP_SYSTEMPARAM_ID_INT_ADHOC_CHANNEL
    else if id = 3 then some .PSP_SYSTEMPARAM_ID_INT_WLAN_POWERSAVE
    else if id = 4 then some .PSP_SYSTEMPARAM_ID_INT_DATE_FORMAT
    else if id = 5 then some .PSP_SYSTEMPARAM_ID_INT_TIME_FORMAT
    else if id = 6 then some .PSP_SYSTEMPARAM_ID_INT_TIMEZONE
    else if id = 7 then some .PSP_SYSTEMPARAM_ID_INT_DAYLIGHTSAVINGS
    else if id = 8 then some .PSP_SYSTEMPARAM_ID_INT_LANGUAGE
    else if id = 9 then some .PSP_SYSTEMPARAM_ID_INT_BUTTON_PREFERENCE
    else if id = 10 then some .PSP_SYSTEMPARAM_ID_INT_LOCK_PARENTAL_LEVEL
    else none
  PSP_SYSTEMPARAM_ADHOC_CHANNEL_AUTOMATIC := 0
  PSP_SYSTEMPARAM_WLAN_POWERSAVE_ON := 1
  PSP_SYSTEMPARAM_WLAN_POWERSAVE_OFF := 0
  PSP_SYSTEMPARAM_TIME_FORMAT_12HR := 1
  PSP_SYSTEMPARAM_TIME_FORMAT_24HR := 0
  PSP_SYSTEMPARAM_DAYLIGHTSAVINGS_SAVING := 1
  PSP_SYSTEMPARAM_DAYLIGHTSAVINGS_STD := 0
  PSP_SYSTEMPARAM_LANGUAGE_ENGLISH := 1
  PSP_SYSTEMPARAM_LANGUAGE_JAPANESE := 0
  PSP_SYSTEMPARAM_BUTTON_CIRCLE := 0

/-- A sample assignment of the error constants (0x80110102, 0x80110601 and
0x80110604 read as `int`), for concrete runs. -/
def sampleParamErrorCodes : ParamErrorCodes where
  SCE_ERROR_UTILITY_STRING_TOO_LONG := 0x80110102 - 2 ^ 32
  SCE_ERROR_NETPARAM_BAD_NETCONF := 0x80110601 - 2 ^ 32
  SCE_ERROR_NETPARAM_BAD_PARAM := 0x80110604 - 2 ^ 32

/-- A sample assignment of the network-parameter constants: one dummy entry,
kinds numbered from 0 in the order of the `case` labels (only the first four
are given a number here), lengths 64, 32, 16 and 128. -/
def sampleNetParamConsts : NetParamConsts where
  PSP_NETPARAM_MAX_NUMBER_DUMMY_ENTRIES := 1
  kindOf := fun param =>
    if param = 0 then some .PSP_NETPARAM_NAME
    else if param = 1 then some .PSP_NETPARAM_SSID
    else if param = 2 then some .PSP_NETPARAM_SECURE
    else if param = 3 then some .PSP_NETPARAM_WEPKEY
    else none
  APCTL_PROFILENAME_MAXLEN := 64
  APCTL_SSID_MAXLEN := 32
  APCTL_IPADDR_MAXLEN := 16
  APCTL_URL_MAXLEN := 128
  profileName := fun _ => [78, 101, 116, 0]

/-- A sample `netApctlInfo`, all fields empty or 0. -/
def sampleNetApctlInfo : NetApctlInfo where
  ssid := []
  ip := []
  subNetMask := []
  gateway := []
  primaryDns := []
  secondaryDns := []
  proxyUrl := []
  useProxy := 0
  proxyPort := 0
  eapType := 0
  startBrowser := 0

/-- A sample state to save: the message dialog active with a helper thread in
flight, modules 0x300 and 0x302 loaded, timer-event handle 7. -/
def savedState : UtilityState Nat Int :=
  { msgActiveState with loader := sampleLoadedState, volatileUnlockEvent := 7 }

/-- Sample collaborators whose outside world is just the interrupt-enable
flag: `__DisableInterrupts` clears it, `__EnableInterrupts` sets it, nothing
else touches it. -/
def interruptEnv : Env Nat Bool where
  YugiohSaveFix := false
  Stopped := fun _ _ => false
  Terminate := fun w _ => w
  Delete := fun w _ => w
  KernelVolatileMemUnlock := fun w _ => w
  NewDialogs := fun w => w
  SavedataParamInit := fun w => w
  RegisterEvent := fun w _ => (0, w)
  ResetSecondsSinceLastGameSave := fun w => w
  dialog := fun _ _ o => (0, o)
  InterruptsEnabled := fun w => w
  DisableInterrupts := fun _ => false
  EnableInterrupts := fun _ => true
  NewThread := fun w _ => w
  Start := fun w _ _ _ => w
  Forget := fun w _ => w
  RestoreRegisterEvent := fun w event _ => (event, w)
  dialogCode := sampleEnv.dialogCode
  dialogSave := fun _ _ => []
  dialogLoad := fun _ _ w => w
  threadSave := fun _ => []
  threadLoad := fun _ w => (sampleThread, w)

/-- A sample state over the interrupt flag: the message dialog active with a
helper thread in flight, interrupts enabled or not as `flag` says. -/
def interruptState (flag : Bool) : UtilityState Nat Bool :=
  { currentDialogType := UtilityDialogType.MSG, currentDialogActive := true,
    oldStatus := 2, volatileUnlockEvent := 0, accessThread := some sampleThread,
    accessThreadFinished := false, accessThreadState := "initializing",
    lastSaveStateVersion := -1, netParamLatestId := 1,
    loader := LoaderState.init 0x08800000, world := flag, log := [] }

/-- A sample allocator that always fails: `Alloc` returns `(u32)-1` and leaves
the allocator as it is. -/
def failingAllocator : BlockAllocator Nat where
  Alloc := fun mem _ _ _ => (0xFFFFFFFF, mem)
  Free := fun mem _ => (false, mem)

/-- A sample media buffer without the 2-D interface whose `Lock` succeeds
(`S_OK`) with the data at address 0x10000. -/
def sampleMediaBuffer : MediaBuffer where
  has2D := false
  Lock2D := fun p st => (0, p, st)
  Lock := (0, 0x10000)

/-- A sample state of the whole file with modules 0x300 (address 0) and 0x302
(address 0x08800000) loaded, the message dialog active. -/
def loadedUtilityState : UtilityState Nat Int :=
  { msgActiveState with loader := sampleLoadedState }

/-! ## Lemmas on the table -/

theorem ModuleMap.find_assign (m : ModuleMap) (k : Int) (v : Nat) (k2 : Int) :
    ModuleMap.find (ModuleMap.assign m k v) k2
      = if k2 = k then some v else ModuleMap.find m k2 := by
  induction m with
  | nil =>
    by_cases h : k2 = k
    · simp [ModuleMap.assign, ModuleMap.find, h]
    · have h2 : ¬ k = k2 := fun e => h e.symm
      simp [ModuleMap.assign, ModuleMap.find, h, h2]
  | cons p rest ih =>
    obtain ⟨k1, v1⟩ := p
    unfold ModuleMap.assign
    by_cases hlt : k < k1
    · by_cases h : k2 = k
      · simp [hlt, ModuleMap.find, h]
      · have h2 : ¬ k = k2 := fun e => h e.symm
        simp [hlt, ModuleMap.find, h, h2]
    · by_cases heq : k = k1
      · subst heq
        by_cases h : k2 = k
        · simp [ModuleMap.find, h]
        · have h2 : ¬ k = k2 := fun e => h e.symm
          simp [ModuleMap.find, h, h2]
      · by_cases h : k2 = k
        · subst h
          have h3 : ¬ k1 = k2 := fun e => heq e.symm
          simp [hlt, heq, ModuleMap.find, h3, ih]
        · simp [hlt, heq, ModuleMap.find, ih, h]

theorem ModuleMap.find_erase (m : ModuleMap) (k k2 : Int) :
    ModuleMap.find (ModuleMap.erase m k) k2
      = if k2 = k then none else ModuleMap.find m k2 := by
  induction m with
  | nil => simp [ModuleMap.erase, ModuleMap.find]
  | cons p rest ih =>
    obtain ⟨k1, v1⟩ := p
    unfold ModuleMap.erase
    by_cases h1 : k1 = k
    · subst h1
      by_cases h : k2 = k1
      · subst h
        simp [ih]
      · have h2 : ¬ k1 = k2 := fun e => h e.symm
        simp [ih, h, ModuleMap.find, h2]
    · by_cases h : k2 = k
      · subst h
        simp [h1, ModuleMap.find, ih]
      · simp [h1, ModuleMap.find, ih, h]

theorem ModuleMap.erase_of_find_none (m : ModuleMap) (k : Int)
    (h : ModuleMap.find m k = none) : ModuleMap.erase m k = m := by
  induction m with
  | nil => rfl
  | cons p rest ih =>
    obtain ⟨k1, v1⟩ := p
    unfold ModuleMap.find at h
    by_cases h1 : k1 = k
    · simp [h1] at h
    · simp only [h1, if_false] at h
      simp [ModuleMap.erase, h1, ih h]

theorem ModuleMap.erase_assign (m : ModuleMap) (k : Int) (v : Nat)
    (h : ModuleMap.find m k = none) : ModuleMap.erase (ModuleMap.assign m k v) k = m := by
  induction m with
  | nil => simp [ModuleMap.assign, ModuleMap.erase]
  | cons p rest ih =>
    obtain ⟨k1, v1⟩ := p
    unfold ModuleMap.find at h
    by_cases h1 : k1 = k
    · simp [h1] at h
    · simp only [h1, if_false] at h
      have h2 : ¬ k = k1 := fun e => h1 e.symm
      have hrest := ModuleMap.erase_of_find_none rest k h
      unfold ModuleMap.assign
      by_cases hlt : k < k1
      · simp [hlt, ModuleMap.erase, h1, hrest]
      · simp [hlt, h2, ModuleMap.erase, h1, ih h]

theorem ModuleMap.mem_keys_iff (m : ModuleMap) (k : Int) :
    k ∈ ModuleMap.keys m ↔ (ModuleMap.find m k).isSome = true := by
  induction m with
  | nil => simp [ModuleMap.keys, ModuleMap.find]
  | cons p rest ih =>
    obtain ⟨k1, v1⟩ := p
    by_cases h1 : k1 = k
    · simp [ModuleMap.keys, ModuleMap.find, h1]
    · have h2 : ¬ k = k1 := fun e => h1 e.symm
      have ih2 : k ∈ List.map Prod.fst rest ↔ (ModuleMap.find rest k).isSome = true := ih
      simp only [ModuleMap.keys, List.map_cons, List.mem_cons, h2, false_or, ModuleMap.find,
        h1, if_false]
      exact ih2

/-! ## Lemmas on the catalogue -/

theorem moduleInfo_none_iff (k : Int) : __UtilityModuleInfo k = none ↔ ¬ inCatalog k := by
  unfold __UtilityModuleInfo inCatalog
  rw [List.find?_eq_none]
  constructor
  · rintro h ⟨info, hmem, hk⟩
    exact h info hmem (by simpa using hk)
  · intro h info hmem
    simp only [decide_eq_true_eq]
    intro hk
    exact h ⟨info, hmem, hk⟩

theorem moduleInfo_some (k : Int) (info : ModuleLoadInfo)
    (h : __UtilityModuleInfo k = some info) : info ∈ moduleLoadInfo ∧ info.mod = k := by
  unfold __UtilityModuleInfo at h
  refine ⟨List.mem_of_find?_eq_some h, ?_⟩
  have := List.find?_some h
  simpa using this

theorem depsLoaded_iff (t : ModuleMap) (deps : List Int) :
    depsLoaded t deps = true ↔
      ∀ d ∈ deps.takeWhile (fun d => decide (d ≠ 0)), (ModuleMap.find t d).isSome = true := by
  induction deps with
  | nil => simp [depsLoaded]
  | cons d rest ih =>
    unfold depsLoaded
    by_cases h0 : d = 0
    · simp [h0, List.takeWhile]
    · by_cases hf : (ModuleMap.find t d).isNone = true
      · have hn : ModuleMap.find t d = none := by simpa using hf
        simp [h0, List.takeWhile, hn]
      · have hs : (ModuleMap.find t d).isSome = true := by
          cases hfd : ModuleMap.find t d with
          | none => simp [hfd] at hf
          | some v => rfl
        simp only [h0, if_false, hf, List.takeWhile, ne_eq, not_false_eq_true, decide_True,
          List.mem_cons, forall_eq_or_imp, hs, true_and]
        exact ih

/-! ## Lemmas on traces -/

theorem notifyCalls_append (l1 l2 : List Event) :
    notifyCalls (l1 ++ l2) = notifyCalls l1 ++ notifyCalls l2 := by
  induction l1 with
  | nil => rfl
  | cons e rest ih => cases e <;> simp [notifyCalls, ih]

theorem notifyCalls_callNotify (cb : ModuleLoadCallback) (st : Int) (a sz : Nat) :
    notifyCalls (callNotify cb st a sz) = [(cb, st, a, sz)] := by
  cases cb
  · simp [callNotify, NotifyLoadStatusAvcodec, notifyCalls]
  · by_cases h1 : st = 1
    · simp [callNotify, NotifyLoadStatusAtrac, notifyCalls, h1]
    · by_cases h2 : st = -1
      · simp [callNotify, NotifyLoadStatusAtrac, notifyCalls, h2]
      · simp [callNotify, NotifyLoadStatusAtrac, notifyCalls, h1, h2]

theorem notifyCalls_notifyEvents (info : ModuleLoadInfo) (st : Int) (a sz : Nat) :
    notifyCalls (notifyEvents info st a sz)
      = match info.notify with
        | some cb => [(cb, st, a, sz)]
        | none => [] := by
  unfold notifyEvents
  cases info.notify with
  | none => rfl
  | some cb => exact notifyCalls_callNotify cb st a sz

theorem freeCalls_append (l1 l2 : List Event) :
    freeCalls (l1 ++ l2) = freeCalls l1 ++ freeCalls l2 := by
  induction l1 with
  | nil => rfl
  | cons e rest ih => cases e <;> simp [freeCalls, ih]

theorem freeCalls_notifyEvents (info : ModuleLoadInfo) (st : Int) (a sz : Nat) :
    freeCalls (notifyEvents info st a sz) = [] := by
  unfold notifyEvents
  cases info.notify with
  | none => rfl
  | some cb =>
    cases cb
    · simp [callNotify, NotifyLoadStatusAvcodec, freeCalls]
    · by_cases h1 : st = 1
      · simp [callNotify, NotifyLoadStatusAtrac, freeCalls, h1]
      · by_cases h2 : st = -1
        · simp [callNotify, NotifyLoadStatusAtrac, freeCalls, h2]
        · simp [callNotify, NotifyLoadStatusAtrac, freeCalls, h1, h2]

theorem intToU32_ne_zero (x : Int) (h1 : -(2 ^ 31) ≤ x) (h2 : x < 0) : intToU32 x ≠ 0 := by
  unfold intToU32
  omega

/-! ## The paths through `LoadModuleInternal` and `UnloadModuleInternal` -/

theorem load_already {α : Type} (A : BlockAllocator α) (E : ErrorCodes) (module : Nat)
    (s : LoaderState α) (hcat : inCatalog (u32ToInt module))
    (hl : (ModuleMap.find s.currentlyLoadedModules (u32ToInt module)).isSome = true) :
    LoadModuleInternal A E module s = (E.SCE_ERROR_MODULE_ALREADY_LOADED, s) := by
  cases hi : __UtilityModuleInfo (u32ToInt module) with
  | none => exact absurd hcat ((moduleInfo_none_iff _).1 hi)
  | some info => simp [LoadModuleInternal, hi, hl]

theorem load_success {α : Type} (A : BlockAllocator α) (E : ErrorCodes) (module : Nat)
    (s : LoaderState α) (info : ModuleLoadInfo)
    (hinfo : __UtilityModuleInfo (u32ToInt module) = some info)
    (hnl : ModuleMap.find s.currentlyLoadedModules (u32ToInt module) = none)
    (hdeps : depsLoaded s.currentlyLoadedModules info.dependencies = true) :
    LoadModuleInternal A E module s =
      if info.size ≠ 0 then
        (0, { currentlyLoadedModules :=
                ModuleMap.assign s.currentlyLoadedModules (u32ToInt module)
                  (A.Alloc s.userMemory info.size false (allocTag module info.name)).1,
              userMemory := (A.Alloc s.userMemory info.size false (allocTag module info.name)).2,
              trace := (s.trace ++ [Event.Alloc info.size false (allocTag module info.name)
                  (A.Alloc s.userMemory info.size false (allocTag module info.name)).1]) ++
                notifyEvents info 1
                  (A.Alloc s.userMemory info.size false (allocTag module info.name)).1 info.size })
      else
        (0, { currentlyLoadedModules :=
                ModuleMap.assign s.currentlyLoadedModules (u32ToInt module) 0,
              userMemory := s.userMemory,
              trace := s.trace ++ notifyEvents info 1 0 info.size }) := by
  by_cases hsz : info.size = 0
  · cases hn : info.notify <;>
      simp [LoadModuleInternal, hinfo, hnl, hdeps, hsz, notifyEvents, hn]
  · cases hn : info.notify <;>
      simp [LoadModuleInternal, hinfo, hnl, hdeps, hsz, notifyEvents, hn]

theorem unload_success {α : Type} (A : BlockAllocator α) (E : ErrorCodes) (module : Nat)
    (s : LoaderState α) (info : ModuleLoadInfo) (a : Nat)
    (hinfo : __UtilityModuleInfo (u32ToInt module) = some info)
    (hl : ModuleMap.find s.currentlyLoadedModules (u32ToInt module) = some a) :
    UnloadModuleInternal A E module s =
      if a ≠ 0 then
        (0, { currentlyLoadedModules :=
                ModuleMap.erase s.currentlyLoadedModules (u32ToInt module),
              userMemory := (A.Free s.userMemory a).2,
              trace := (s.trace ++ [Event.Free a]) ++ notifyEvents info (-1) 0 0 })
      else
        (0, { currentlyLoadedModules :=
                ModuleMap.erase s.currentlyLoadedModules (u32ToInt module),
              userMemory := s.userMemory,
              trace := s.trace ++ notifyEvents info (-1) 0 0 }) := by
  by_cases ha : a = 0
  · cases hn : info.notify <;>
      simp [UnloadModuleInternal, hinfo, hl, ha, notifyEvents, hn]
  · cases hn : info.notify <;>
      simp [UnloadModuleInternal, hinfo, hl, ha, notifyEvents, hn]

theorem load_table_cases {α : Type} (A : BlockAllocator α) (E : ErrorCodes) (module : Nat)
    (s : LoaderState α) :
    (LoadModuleInternal A E module s).2 = s ∨
    (inCatalog (u32ToInt module) ∧ ∃ a, (LoadModuleInternal A E module s).2.currentlyLoadedModules
      = ModuleMap.assign s.currentlyLoadedModules (u32ToInt module) a) := by
  cases hi : __UtilityModuleInfo (u32ToInt module) with
  | none => left; simp [LoadModuleInternal, hi]
  | some info =>
    have hcat : inCatalog (u32ToInt module) := ⟨info, moduleInfo_some _ _ hi⟩
    cases hf : ModuleMap.find s.currentlyLoadedModules (u32ToInt module) with
    | some a => left; simp [LoadModuleInternal, hi, hf]
    | none =>
      by_cases hd : depsLoaded s.currentlyLoadedModules info.dependencies = true
      · right
        refine ⟨hcat, ?_⟩
        rw [load_success A E module s info hi hf hd]
        by_cases hsz : info.size = 0
        · exact ⟨0, by simp [hsz]⟩
        · exact ⟨(A.Alloc s.userMemory info.size false (allocTag module info.name)).1,
            by simp [hsz]⟩
      · left; simp [LoadModuleInternal, hi, hf, hd]

theorem unload_table_cases {α : Type} (A : BlockAllocator α) (E : ErrorCodes) (module : Nat)
    (s : LoaderState α) :
    (UnloadModuleInternal A E module s).2 = s ∨
    (UnloadModuleInternal A E module s).2.currentlyLoadedModules
      = ModuleMap.erase s.currentlyLoadedModules (u32ToInt module) := by
  cases hi : __UtilityModuleInfo (u32ToInt module) with
  | none => left; simp [UnloadModuleInternal, hi]
  | some info =>
    cases hf : ModuleMap.find s.currentlyLoadedModules (u32ToInt module) with
    | none => left; simp [UnloadModuleInternal, hi, hf]
    | some a =>
      right
      rw [unload_success A E module s info a hi hf]
      by_cases ha : a = 0 <;> simp [ha]

theorem load_keeps_loaded {α : Type} (A : BlockAllocator α) (E : ErrorCodes) (module : Nat)
    (s : LoaderState α) (k : Int)
    (hk : (ModuleMap.find s.currentlyLoadedModules k).isSome = true) :
    (ModuleMap.find (LoadModuleInternal A E module s).2.currentlyLoadedModules k).isSome
      = true := by
  rcases load_table_cases A E module s with h | ⟨_, a, h⟩
  · rw [h]; exact hk
  · rw [h, ModuleMap.find_assign]
    by_cases hkm : k = u32ToInt module
    · simp [hkm]
    · simpa [hkm] using hk

theorem unload_keeps_loaded {α : Type} (A : BlockAllocator α) (E : ErrorCodes) (module : Nat)
    (s : LoaderState α) (k : Int) (hne : u32ToInt module ≠ k)
    (hk : (ModuleMap.find s.currentlyLoadedModules k).isSome = true) :
    (ModuleMap.find (UnloadModuleInternal A E module s).2.currentlyLoadedModules k).isSome
      = true := by
  rcases unload_table_cases A E module s with h | h
  · rw [h]; exact hk
  · rw [h, ModuleMap.find_erase]
    have hkm : ¬ k = u32ToInt module := fun e => hne e.symm
    simpa [hkm] using hk

theorem exec_keeps_loaded {α : Type} (A : BlockAllocator α) (E : ErrorCodes) (c : ModuleCall)
    (s : LoaderState α) (k : Int) (hc : ModuleCall.unloadKey c ≠ some k)
    (hk : (ModuleMap.find s.currentlyLoadedModules k).isSome = true) :
    (ModuleMap.find (ModuleCall.exec A E c s).2.currentlyLoadedModules k).isSome = true := by
  cases c with
  | LoadModule m =>
    simp only [ModuleCall.exec, sceUtilityLoadModule]
    split <;> exact load_keeps_loaded A E m s k hk
  | UnloadModule m =>
    have hne : u32ToInt m ≠ k := fun e => hc (by simp [ModuleCall.unloadKey, e])
    simp only [ModuleCall.exec, sceUtilityUnloadModule]
    split <;> exact unload_keeps_loaded A E m s k hne hk
  | LoadAvModule m =>
    simp only [ModuleCall.exec, sceUtilityLoadAvModule]
    split
    · exact hk
    · exact load_keeps_loaded A E _ s k hk
  | UnloadAvModule m =>
    simp only [ModuleCall.exec, sceUtilityUnloadAvModule]
    split
    · exact hk
    · rename_i h7
      have hne : u32ToInt (0x300 ||| m) ≠ k := fun e => hc (by simp [ModuleCall.unloadKey, h7, e])
      exact unload_keeps_loaded A E _ s k hne hk

theorem runCalls_keeps_loaded {α : Type} (A : BlockAllocator α) (E : ErrorCodes)
    (calls : List ModuleCall) (s : LoaderState α) (k : Int)
    (hc : ∀ c ∈ calls, ModuleCall.unloadKey c ≠ some k)
    (hk : (ModuleMap.find s.currentlyLoadedModules k).isSome = true) :
    (ModuleMap.find (runCalls A E calls s).currentlyLoadedModules k).isSome = true := by
  induction calls generalizing s with
  | nil => exact hk
  | cons c cs ih =>
    simp only [runCalls]
    exact ih _ (fun c2 h2 => hc c2 (List.mem_cons_of_mem _ h2))
      (exec_keeps_loaded A E c s k (hc c (List.mem_cons_self _ _)) hk)

theorem load_zero_loaded {α : Type} (A : BlockAllocator α) (E : ErrorCodes) (module : Nat)
    (s : LoaderState α) (hE : E.Valid) (h0 : (LoadModuleInternal A E module s).1 = 0) :
    inCatalog (u32ToInt module) ∧
    ModuleMap.find s.currentlyLoadedModules (u32ToInt module) = none ∧
    (ModuleMap.find (LoadModuleInternal A E module s).2.currentlyLoadedModules
      (u32ToInt module)).isSome = true := by
  obtain ⟨⟨_, h1⟩, ⟨_, h2⟩, _, _, ⟨_, h5⟩⟩ := hE
  cases hi : __UtilityModuleInfo (u32ToInt module) with
  | none =>
    simp [LoadModuleInternal, hi] at h0
    omega
  | some info =>
    have hcat : inCatalog (u32ToInt module) := ⟨info, moduleInfo_some _ _ hi⟩
    cases hf : ModuleMap.find s.currentlyLoadedModules (u32ToInt module) with
    | some a =>
      simp [LoadModuleInternal, hi, hf] at h0
      omega
    | none =>
      by_cases hd : depsLoaded s.currentlyLoadedModules info.dependencies = true
      · refine ⟨hcat, rfl, ?_⟩
        rw [load_success A E module s info hi hf hd]
        by_cases hsz : info.size = 0 <;> simp [hsz, ModuleMap.find_assign]
      · simp [LoadModuleInternal, hi, hf, hd] at h0
        omega

/-! ## The catalogue invariant of the table -/

theorem load_keysInCatalog {α : Type} (A : BlockAllocator α) (E : ErrorCodes) (module : Nat)
    (s : LoaderState α) (h : KeysInCatalog s.currentlyLoadedModules) :
    KeysInCatalog (LoadModuleInternal A E module s).2.currentlyLoadedModules := by
  rcases load_table_cases A E module s with hs | ⟨hcat, a, hs⟩
  · rw [hs]; exact h
  · intro k hk
    rw [hs, ModuleMap.find_assign] at hk
    by_cases hkm : k = u32ToInt module
    · rw [hkm]; exact hcat
    · simp only [hkm, if_false] at hk
      exact h k hk

theorem unload_keysInCatalog {α : Type} (A : BlockAllocator α) (E : ErrorCodes)
    (module : Nat) (s : LoaderState α) (h : KeysInCatalog s.currentlyLoadedModules) :
    KeysInCatalog (UnloadModuleInternal A E module s).2.currentlyLoadedModules := by
  rcases unload_table_cases A E module s with hs | hs
  · rw [hs]; exact h
  · intro k hk
    rw [hs, ModuleMap.find_erase] at hk
    by_cases hkm : k = u32ToInt module
    · simp [hkm] at hk
    · simp only [hkm, if_false] at hk
      exact h k hk

theorem exec_keysInCatalog {α : Type} (A : BlockAllocator α) (E : ErrorCodes)
    (c : ModuleCall) (s : LoaderState α) (h : KeysInCatalog s.currentlyLoadedModules) :
    KeysInCatalog (ModuleCall.exec A E c s).2.currentlyLoadedModules := by
  cases c with
  | LoadModule m =>
    simp only [ModuleCall.exec, sceUtilityLoadModule]
    split <;> exact load_keysInCatalog A E m s h
  | UnloadModule m =>
    simp only [ModuleCall.exec, sceUtilityUnloadModule]
    split <;> exact unload_keysInCatalog A E m s h
  | LoadAvModule m =>
    simp only [ModuleCall.exec, sceUtilityLoadAvModule]
    split
    · exact h
    · exact load_keysInCatalog A E _ s h
  | UnloadAvModule m =>
    simp only [ModuleCall.exec, sceUtilityUnloadAvModule]
    split
    · exact h
    · exact unload_keysInCatalog A E _ s h

theorem runCalls_keysInCatalog {α : Type} (A : BlockAllocator α) (E : ErrorCodes)
    (calls : List ModuleCall) (s : LoaderState α)
    (h : KeysInCatalog s.currentlyLoadedModules) :
    KeysInCatalog (runCalls A E calls s).currentlyLoadedModules := by
  induction calls generalizing s with
  | nil => exact h
  | cons c cs ih => exact ih _ (exec_keysInCatalog A E c s h)

/-! ## Theorems -/



/-- C1: for a module id that is not in the `moduleLoadInfo` catalogue, and any
state, `LoadModuleInternal` and `UnloadModuleInternal` both return
`SCE_ERROR_MODULE_BAD_ID` and return the state as it was: the loaded-module
table is unchanged, the allocator is untouched and the trace records no
`Alloc`, `Free` or notify call. -/
theorem C1_bad_module_id {α : Type} (A : BlockAllocator α) (E : ErrorCodes) (module : Nat)
    (s : LoaderState α) (h : ¬ inCatalog (u32ToInt module)) :
    LoadModuleInternal A E module s = (E.SCE_ERROR_MODULE_BAD_ID, s) ∧
    UnloadModuleInternal A E module s = (E.SCE_ERROR_MODULE_BAD_ID, s) := by
  have hn := (moduleInfo_none_iff (u32ToInt module)).2 h
  constructor
  · simp [LoadModuleInternal, hn]
  · simp [UnloadModuleInternal, hn]

/-- Witness for C1: module id 0x109 is not in the catalogue. -/
theorem C1_bad_module_id_witness :
    ¬ inCatalog (u32ToInt 0x109) ∧
    (LoadModuleInternal bumpAllocator sampleErrorCodes 0x109 sampleState
        = (sampleErrorCodes.SCE_ERROR_MODULE_BAD_ID, sampleState) ∧
     UnloadModuleInternal bumpAllocator sampleErrorCodes 0x109 sampleState
        = (sampleErrorCodes.SCE_ERROR_MODULE_BAD_ID, sampleState)) :=
  ⟨by decide, C1_bad_module_id bumpAllocator sampleErrorCodes 0x109 sampleState (by decide)⟩

/-- C2: if `LoadModuleInternal(m)` succeeds (returns 0), then after any sequence
of module syscalls none of which unloads `m`, a second `LoadModuleInternal(m)`
returns `SCE_ERROR_MODULE_ALREADY_LOADED` and returns the state as it was (the
table, with the address recorded for `m`, the allocator and the trace).  The
intervening calls may unload dependencies of `m`: the already-loaded check
comes before the dependency check. -/
theorem C2_already_loaded {α : Type} (A : BlockAllocator α) (E : ErrorCodes) (module : Nat)
    (s : LoaderState α) (calls : List ModuleCall) (hE : E.Valid)
    (h0 : (LoadModuleInternal A E module s).1 = 0)
    (hno : ∀ c ∈ calls, ModuleCall.unloadKey c ≠ some (u32ToInt module)) :
    LoadModuleInternal A E module (runCalls A E calls (LoadModuleInternal A E module s).2)
      = (E.SCE_ERROR_MODULE_ALREADY_LOADED,
         runCalls A E calls (LoadModuleInternal A E module s).2) := by
  obtain ⟨hcat, _, hl⟩ := load_zero_loaded A E module s hE h0
  exact load_already A E module _ hcat
    (runCalls_keeps_loaded A E calls _ (u32ToInt module) hno hl)

/-- Witness for C2: module 0x302 is loaded while its dependency 0x300 is
loaded, 0x300 is then unloaded, and the second load of 0x302 still answers
`SCE_ERROR_MODULE_ALREADY_LOADED`. -/
theorem C2_already_loaded_witness :
    sampleErrorCodes.Valid ∧
    (LoadModuleInternal bumpAllocator sampleErrorCodes 0x302 sampleState).1 = 0 ∧
    (∀ c ∈ [ModuleCall.UnloadModule 0x300],
      ModuleCall.unloadKey c ≠ some (u32ToInt 0x302)) ∧
    LoadModuleInternal bumpAllocator sampleErrorCodes 0x302
        (runCalls bumpAllocator sampleErrorCodes [ModuleCall.UnloadModule 0x300]
          (LoadModuleInternal bumpAllocator sampleErrorCodes 0x302 sampleState).2)
      = (sampleErrorCodes.SCE_ERROR_MODULE_ALREADY_LOADED,
         runCalls bumpAllocator sampleErrorCodes [ModuleCall.UnloadModule 0x300]
          (LoadModuleInternal bumpAllocator sampleErrorCodes 0x302 sampleState).2) :=
  ⟨by decide, by decide, by decide,
   C2_already_loaded bumpAllocator sampleErrorCodes 0x302 sampleState
     [ModuleCall.UnloadModule 0x300] (by decide) (by decide) (by decide)⟩

/-- C3: for a catalogue module `m` that is not loaded and whose direct
dependencies are all loaded, `LoadModuleInternal(m)` followed by
`UnloadModuleInternal(m)` returns 0 twice and leaves the loaded-module table
equal to the table before the load; the notify callbacks invoked by the two
calls are, when `m` has a callback, exactly `notify(1, address, size)` followed
by `notify(-1, 0, 0)` (with `address` the address the load recorded for `m` and
`size` its footprint), and none when `m` has no callback. -/
theorem C3_load_unload_roundtrip {α : Type} (A : BlockAllocator α) (E : ErrorCodes)
    (module : Nat) (s : LoaderState α) (info : ModuleLoadInfo)
    (hinfo : __UtilityModuleInfo (u32ToInt module) = some info)
    (hnl : ModuleMap.find s.currentlyLoadedModules (u32ToInt module) = none)
    (hdeps : ∀ d ∈ depList info, (ModuleMap.find s.currentlyLoadedModules d).isSome = true) :
    (LoadModuleInternal A E module s).1 = 0 ∧
    (UnloadModuleInternal A E module (LoadModuleInternal A E module s).2).1 = 0 ∧
    (UnloadModuleInternal A E module (LoadModuleInternal A E module s).2).2.currentlyLoadedModules
      = s.currentlyLoadedModules ∧
    ∃ address,
      ModuleMap.find (LoadModuleInternal A E module s).2.currentlyLoadedModules (u32ToInt module)
        = some address ∧
      notifyCalls (UnloadModuleInternal A E module (LoadModuleInternal A E module s).2).2.trace
        = notifyCalls s.trace ++
            (match info.notify with
             | some cb => [(cb, 1, address, info.size), (cb, -1, 0, 0)]
             | none => []) := by
  have hd : depsLoaded s.currentlyLoadedModules info.dependencies = true :=
    (depsLoaded_iff _ _).2 hdeps
  have hload := load_success A E module s info hinfo hnl hd
  by_cases hsz : info.size = 0
  · simp only [hsz, ne_eq, not_true_eq_false, if_false] at hload
    have hf : ModuleMap.find (LoadModuleInternal A E module s).2.currentlyLoadedModules
        (u32ToInt module) = some 0 := by
      rw [hload]; simp [ModuleMap.find_assign]
    have hun := unload_success A E module _ info 0 hinfo hf
    simp only [ne_eq, not_true_eq_false, if_false] at hun
    refine ⟨by rw [hload], by rw [hun], ?_, 0, hf, ?_⟩
    · rw [hun, hload]
      exact ModuleMap.erase_assign _ _ _ hnl
    · rw [hun, hload]
      simp only [notifyCalls_append, notifyCalls_notifyEvents, hsz]
      cases info.notify <;> simp
  · simp only [hsz, ne_eq, not_false_eq_true, if_true] at hload
    have hf : ModuleMap.find (LoadModuleInternal A E module s).2.currentlyLoadedModules
        (u32ToInt module)
        = some (A.Alloc s.userMemory info.size false (allocTag module info.name)).1 := by
      rw [hload]; simp [ModuleMap.find_assign]
    have hun := unload_success A E module _ info _ hinfo hf
    refine ⟨by rw [hload], ?_, ?_, _, hf, ?_⟩
    · rw [hun]; split <;> rfl
    · rw [hun]
      have he : ModuleMap.erase (LoadModuleInternal A E module s).2.currentlyLoadedModules
          (u32ToInt module) = s.currentlyLoadedModules := by
        rw [hload]; exact ModuleMap.erase_assign _ _ _ hnl
      split <;> exact he
    · rw [hun]
      have ht : notifyCalls (LoadModuleInternal A E module s).2.trace
          = notifyCalls s.trace ++
              (match info.notify with
               | some cb => [(cb, 1,
                   (A.Alloc s.userMemory info.size false (allocTag module info.name)).1,
                   info.size)]
               | none => []) := by
        rw [hload]
        simp only [notifyCalls_append, notifyCalls_notifyEvents]
        simp [notifyCalls]
      split
      · simp only [notifyCalls_append, notifyCalls_notifyEvents, ht]
        cases info.notify <;> simp [notifyCalls]
      · simp only [notifyCalls_append, notifyCalls_notifyEvents, ht]
        cases info.notify <;> simp [notifyCalls]

/-- Witness for C3: module 0x302 (callback `NotifyLoadStatusAtrac`, dependency
0x300) loaded and unloaded in a state where only 0x300 is loaded. -/
theorem C3_load_unload_roundtrip_witness :
    (__UtilityModuleInfo (u32ToInt 0x302) = some (ModuleLoadInfo.ctorDeps 0x302 0x00008000
        "av_atrac3plus" atrac3PlusModuleDeps (some .NotifyLoadStatusAtrac)) ∧
     ModuleMap.find sampleState.currentlyLoadedModules (u32ToInt 0x302) = none ∧
     ∀ d ∈ depList (ModuleLoadInfo.ctorDeps 0x302 0x00008000
        "av_atrac3plus" atrac3PlusModuleDeps (some .NotifyLoadStatusAtrac)),
       (ModuleMap.find sampleState.currentlyLoadedModules d).isSome = true) ∧
    ((LoadModuleInternal bumpAllocator sampleErrorCodes 0x302 sampleState).1 = 0 ∧
     (UnloadModuleInternal bumpAllocator sampleErrorCodes 0x302
       (LoadModuleInternal bumpAllocator sampleErrorCodes 0x302 sampleState).2).1 = 0 ∧
     (UnloadModuleInternal bumpAllocator sampleErrorCodes 0x302
       (LoadModuleInternal bumpAllocator sampleErrorCodes 0x302
         sampleState).2).2.currentlyLoadedModules
       = sampleState.currentlyLoadedModules ∧
     ∃ address,
       ModuleMap.find (LoadModuleInternal bumpAllocator sampleErrorCodes 0x302
         sampleState).2.currentlyLoadedModules (u32ToInt 0x302) = some address ∧
       notifyCalls (UnloadModuleInternal bumpAllocator sampleErrorCodes 0x302
         (LoadModuleInternal bumpAllocator sampleErrorCodes 0x302 sampleState).2).2.trace
         = notifyCalls sampleState.trace ++
             (match (ModuleLoadInfo.ctorDeps 0x302 0x00008000 "av_atrac3plus"
                 atrac3PlusModuleDeps (some .NotifyLoadStatusAtrac)).notify with
              | some cb => [(cb, 1, address, (ModuleLoadInfo.ctorDeps 0x302 0x00008000
                 "av_atrac3plus" atrac3PlusModuleDeps (some .NotifyLoadStatusAtrac)).size),
                 (cb, -1, 0, 0)]
              | none => [])) :=
  ⟨⟨by decide, by decide, by decide⟩,
   C3_load_unload_roundtrip bumpAllocator sampleErrorCodes 0x302 sampleState
    (ModuleLoadInfo.ctorDeps 0x302 0x00008000 "av_atrac3plus" atrac3PlusModuleDeps
      (some .NotifyLoadStatusAtrac))
    (by decide) (by decide) (by decide)⟩

/-- C4: for a catalogue module `m` that is not loaded, if some id of `m`'s
dependency list is not a key of the loaded-module table then
`LoadModuleInternal(m)` returns `SCE_KERNEL_ERROR_LIBRARY_NOTFOUND` and returns
the state as it was: table unchanged, nothing allocated, no notify call. -/
theorem C4_dependency_missing {α : Type} (A : BlockAllocator α) (E : ErrorCodes)
    (module : Nat) (s : LoaderState α) (info : ModuleLoadInfo)
    (hinfo : __UtilityModuleInfo (u32ToInt module) = some info)
    (hnl : ModuleMap.find s.currentlyLoadedModules (u32ToInt module) = none)
    (hmiss : ∃ d ∈ depList info, ModuleMap.find s.currentlyLoadedModules d = none) :
    LoadModuleInternal A E module s = (E.SCE_KERNEL_ERROR_LIBRARY_NOTFOUND, s) := by
  have hd : ¬ depsLoaded s.currentlyLoadedModules info.dependencies = true := by
    intro h
    obtain ⟨d, hmem, hnone⟩ := hmiss
    have := (depsLoaded_iff _ _).1 h d hmem
    simp [hnone] at this
  simp [LoadModuleInternal, hinfo, hnl, hd]

/-- Witness for C4: module 0x105 with only 0x300 loaded; its dependency 0x102
is missing. -/
theorem C4_dependency_missing_witness :
    (__UtilityModuleInfo (u32ToInt 0x105)
        = some (ModuleLoadInfo.ctorDeps 0x105 0x00028000 "net_http" httpModuleDeps none) ∧
     ModuleMap.find sampleState.currentlyLoadedModules (u32ToInt 0x105) = none ∧
     ∃ d ∈ depList (ModuleLoadInfo.ctorDeps 0x105 0x00028000 "net_http" httpModuleDeps none),
       ModuleMap.find sampleState.currentlyLoadedModules d = none) ∧
    LoadModuleInternal bumpAllocator sampleErrorCodes 0x105 sampleState
      = (sampleErrorCodes.SCE_KERNEL_ERROR_LIBRARY_NOTFOUND, sampleState) :=
  ⟨⟨by decide, by decide, 0x102, by decide, by decide⟩,
   C4_dependency_missing bumpAllocator sampleErrorCodes 0x105 sampleState
     (ModuleLoadInfo.ctorDeps 0x105 0x00028000 "net_http" httpModuleDeps none)
     (by decide) (by decide) ⟨0x102, by decide, by decide⟩⟩

/-- C5: for a catalogue module `m` that is not loaded and whose listed
dependencies are all keys of the loaded-module table (nothing else is asked of
the table), `LoadModuleInternal(m)` returns 0 and the new table is the old one
with the single entry `m -> address` added: looking up `m` gives `address`,
every other key is looked up as before.  When `m`'s footprint is 0, `address`
is 0, the allocator is not called and its state is unchanged; otherwise
`address` is what `userMemory.Alloc` returned for a request of exactly the
footprint (not from the top, tagged with the module's diagnostic name), called
once.  The trace gains that `Alloc` call, if any, then the notify call. -/
theorem C5_load_success {α : Type} (A : BlockAllocator α) (E : ErrorCodes)
    (module : Nat) (s : LoaderState α) (info : ModuleLoadInfo)
    (hinfo : __UtilityModuleInfo (u32ToInt module) = some info)
    (hnl : ModuleMap.find s.currentlyLoadedModules (u32ToInt module) = none)
    (hdeps : ∀ d ∈ depList info, (ModuleMap.find s.currentlyLoadedModules d).isSome = true) :
    (LoadModuleInternal A E module s).1 = 0 ∧
    ∃ address,
      (LoadModuleInternal A E module s).2.currentlyLoadedModules
        = ModuleMap.assign s.currentlyLoadedModules (u32ToInt module) address ∧
      (∀ k, ModuleMap.find (LoadModuleInternal A E module s).2.currentlyLoadedModules k
        = if k = u32ToInt module then some address
          else ModuleMap.find s.currentlyLoadedModules k) ∧
      (info.size = 0 →
        address = 0 ∧
        (LoadModuleInternal A E module s).2.userMemory = s.userMemory ∧
        (LoadModuleInternal A E module s).2.trace = s.trace ++ notifyEvents info 1 0 0) ∧
      (info.size ≠ 0 →
        address = (A.Alloc s.userMemory info.size false (allocTag module info.name)).1 ∧
        (LoadModuleInternal A E module s).2.userMemory
          = (A.Alloc s.userMemory info.size false (allocTag module info.name)).2 ∧
        (LoadModuleInternal A E module s).2.trace
          = s.trace ++ [Event.Alloc info.size false (allocTag module info.name) address] ++
              notifyEvents info 1 address info.size) := by
  have hd : depsLoaded s.currentlyLoadedModules info.dependencies = true :=
    (depsLoaded_iff _ _).2 hdeps
  have hload := load_success A E module s info hinfo hnl hd
  by_cases hsz : info.size = 0
  · simp only [hsz, ne_eq, not_true_eq_false, if_false] at hload
    refine ⟨by rw [hload], 0, by rw [hload], ?_, ?_, ?_⟩
    · intro k; rw [hload]; exact ModuleMap.find_assign _ _ _ _
    · intro _; rw [hload]; exact ⟨rfl, rfl, rfl⟩
    · intro h; exact absurd hsz h
  · simp only [hsz, ne_eq, not_false_eq_true, if_true] at hload
    refine ⟨by rw [hload],
      (A.Alloc s.userMemory info.size false (allocTag module info.name)).1,
      by rw [hload], ?_, ?_, ?_⟩
    · intro k; rw [hload]; exact ModuleMap.find_assign _ _ _ _
    · intro h; exact absurd h hsz
    · intro _; rw [hload]; exact ⟨rfl, rfl, rfl⟩

/-- Witness for C5: module 0x302 (footprint 0x8000) with only its dependency
0x300 loaded. -/
theorem C5_load_success_witness :
    (__UtilityModuleInfo (u32ToInt 0x302) = some (ModuleLoadInfo.ctorDeps 0x302 0x00008000
        "av_atrac3plus" atrac3PlusModuleDeps (some .NotifyLoadStatusAtrac)) ∧
     ModuleMap.find sampleState.currentlyLoadedModules (u32ToInt 0x302) = none ∧
     ∀ d ∈ depList (ModuleLoadInfo.ctorDeps 0x302 0x00008000
        "av_atrac3plus" atrac3PlusModuleDeps (some .NotifyLoadStatusAtrac)),
       (ModuleMap.find sampleState.currentlyLoadedModules d).isSome = true) ∧
    (LoadModuleInternal bumpAllocator sampleErrorCodes 0x302 sampleState).1 = 0 :=
  ⟨⟨by decide, by decide, by decide⟩,
   (C5_load_success bumpAllocator sampleErrorCodes 0x302 sampleState
    (ModuleLoadInfo.ctorDeps 0x302 0x00008000 "av_atrac3plus" atrac3PlusModuleDeps
      (some .NotifyLoadStatusAtrac))
    (by decide) (by decide) (by decide)).1⟩

/-- C6: for a catalogue module `m` that is not a key of the loaded-module
table, `UnloadModuleInternal(m)` returns `SCE_ERROR_MODULE_NOT_LOADED` and
returns the state as it was: table unchanged, nothing freed, no notify call. -/
theorem C6_unload_not_loaded {α : Type} (A : BlockAllocator α) (E : ErrorCodes)
    (module : Nat) (s : LoaderState α) (hcat : inCatalog (u32ToInt module))
    (hnl : ModuleMap.find s.currentlyLoadedModules (u32ToInt module) = none) :
    UnloadModuleInternal A E module s = (E.SCE_ERROR_MODULE_NOT_LOADED, s) := by
  cases hi : __UtilityModuleInfo (u32ToInt module) with
  | none => exact absurd hcat ((moduleInfo_none_iff _).1 hi)
  | some info => simp [UnloadModuleInternal, hi, hnl]

/-- Witness for C6: module 0x302 is in the catalogue and not loaded. -/
theorem C6_unload_not_loaded_witness :
    (inCatalog (u32ToInt 0x302) ∧
     ModuleMap.find sampleState.currentlyLoadedModules (u32ToInt 0x302) = none) ∧
    UnloadModuleInternal bumpAllocator sampleErrorCodes 0x302 sampleState
      = (sampleErrorCodes.SCE_ERROR_MODULE_NOT_LOADED, sampleState) :=
  ⟨⟨by decide, by decide⟩,
   C6_unload_not_loaded bumpAllocator sampleErrorCodes 0x302 sampleState
     (by decide) (by decide)⟩

/-- C7: for a catalogue module `m` loaded at address `a`,
`UnloadModuleInternal(m)` returns 0 and erases `m` from the table: `m` is no
longer a key and every other key is looked up as before.  `userMemory.Free(a)`
is called (once) exactly when `a` is non-zero, otherwise the allocator is left
alone; and `m`'s notify callback, when present, is invoked once, with
`(-1, 0, 0)`. -/
theorem C7_unload_success {α : Type} (A : BlockAllocator α) (E : ErrorCodes)
    (module : Nat) (s : LoaderState α) (info : ModuleLoadInfo) (a : Nat)
    (hinfo : __UtilityModuleInfo (u32ToInt module) = some info)
    (hl : ModuleMap.find s.currentlyLoadedModules (u32ToInt module) = some a) :
    (UnloadModuleInternal A E module s).1 = 0 ∧
    (UnloadModuleInternal A E module s).2.currentlyLoadedModules
      = ModuleMap.erase s.currentlyLoadedModules (u32ToInt module) ∧
    ModuleMap.find (UnloadModuleInternal A E module s).2.currentlyLoadedModules
      (u32ToInt module) = none ∧
    (∀ k, k ≠ u32ToInt module →
      ModuleMap.find (UnloadModuleInternal A E module s).2.currentlyLoadedModules k
        = ModuleMap.find s.currentlyLoadedModules k) ∧
    freeCalls (UnloadModuleInternal A E module s).2.trace
      = freeCalls s.trace ++ (if a ≠ 0 then [a] else []) ∧
    (UnloadModuleInternal A E module s).2.userMemory
      = (if a ≠ 0 then (A.Free s.userMemory a).2 else s.userMemory) ∧
    notifyCalls (UnloadModuleInternal A E module s).2.trace
      = notifyCalls s.trace ++
          (match info.notify with
           | some cb => [(cb, -1, 0, 0)]
           | none => []) := by
  have hun := unload_success A E module s info a hinfo hl
  have htab : (UnloadModuleInternal A E module s).2.currentlyLoadedModules
      = ModuleMap.erase s.currentlyLoadedModules (u32ToInt module) := by
    rw [hun]; split <;> rfl
  refine ⟨by rw [hun]; split <;> rfl, htab, ?_, ?_, ?_, ?_, ?_⟩
  · rw [htab, ModuleMap.find_erase]; simp
  · intro k hk
    rw [htab, ModuleMap.find_erase]; simp [hk]
  · rw [hun]
    by_cases ha : a = 0
    · simp [ha, freeCalls_append, freeCalls_notifyEvents]
    · simp [ha, freeCalls_append, freeCalls_notifyEvents, freeCalls]
  · rw [hun]
    by_cases ha : a = 0 <;> simp [ha]
  · rw [hun]
    by_cases ha : a = 0
    · simp only [ha, ne_eq, not_true_eq_false, if_false, notifyCalls_append,
        notifyCalls_notifyEvents]
    · simp only [ha, ne_eq, not_false_eq_true, if_true, notifyCalls_append,
        notifyCalls_notifyEvents]
      simp [notifyCalls]

/-- Witness for C7: module 0x302 loaded at the non-zero address 0x08800000. -/
theorem C7_unload_success_witness :
    (__UtilityModuleInfo (u32ToInt 0x302) = some (ModuleLoadInfo.ctorDeps 0x302 0x00008000
        "av_atrac3plus" atrac3PlusModuleDeps (some .NotifyLoadStatusAtrac)) ∧
     ModuleMap.find sampleLoadedState.currentlyLoadedModules (u32ToInt 0x302)
       = some 0x08800000) ∧
    ((UnloadModuleInternal bumpAllocator sampleErrorCodes 0x302 sampleLoadedState).1 = 0 ∧
     (UnloadModuleInternal bumpAllocator sampleErrorCodes 0x302
        sampleLoadedState).2.currentlyLoadedModules
       = ModuleMap.erase sampleLoadedState.currentlyLoadedModules (u32ToInt 0x302)) :=
  ⟨⟨by decide, by decide⟩,
   ⟨(C7_unload_success bumpAllocator sampleErrorCodes 0x302 sampleLoadedState
      (ModuleLoadInfo.ctorDeps 0x302 0x00008000 "av_atrac3plus" atrac3PlusModuleDeps
        (some .NotifyLoadStatusAtrac)) 0x08800000 (by decide) (by decide)).1,
    (C7_unload_success bumpAllocator sampleErrorCodes 0x302 sampleLoadedState
      (ModuleLoadInfo.ctorDeps 0x302 0x00008000 "av_atrac3plus" atrac3PlusModuleDeps
        (some .NotifyLoadStatusAtrac)) 0x08800000 (by decide) (by decide)).2.1⟩⟩

/-- C8: in the state reached from the freshly initialised loader (empty table)
by any sequence of `sceUtilityLoadModule`, `sceUtilityUnloadModule`,
`sceUtilityLoadAvModule` and `sceUtilityUnloadAvModule` calls with arbitrary
arguments, every key of the loaded-module table is the id of an entry of the
`moduleLoadInfo` catalogue. -/
theorem C8_keys_in_catalog {α : Type} (A : BlockAllocator α) (E : ErrorCodes)
    (calls : List ModuleCall) (mem : α) (k : Int)
    (hk : k ∈ ModuleMap.keys
      (runCalls A E calls (LoaderState.init mem)).currentlyLoadedModules) :
    inCatalog k := by
  have hinit : KeysInCatalog (LoaderState.init mem).currentlyLoadedModules := by
    intro k2 h2
    simp [LoaderState.init, ModuleMap.find] at h2
  exact runCalls_keysInCatalog A E calls _ hinit k ((ModuleMap.mem_keys_iff _ _).1 hk)

/-- Witness for C8: after loading AV modules 0 and 2, with a rejected load of
the unknown id 0x109 and a rejected AV index 9 in between, 0x302 is a key. -/
theorem C8_keys_in_catalog_witness :
    (0x302 : Int) ∈ ModuleMap.keys
      (runCalls bumpAllocator sampleErrorCodes
        [ModuleCall.LoadAvModule 0, ModuleCall.LoadModule 0x109, ModuleCall.LoadAvModule 9,
         ModuleCall.LoadAvModule 2]
        (LoaderState.init 0x08800000)).currentlyLoadedModules ∧
    inCatalog 0x302 :=
  ⟨by decide,
   C8_keys_in_catalog bumpAllocator sampleErrorCodes
     [ModuleCall.LoadAvModule 0, ModuleCall.LoadModule 0x109, ModuleCall.LoadAvModule 9,
      ModuleCall.LoadAvModule 2] 0x08800000 0x302 (by decide)⟩

/-- C9: for an index greater than 7, `sceUtilityLoadAvModule` and
`sceUtilityUnloadAvModule` return `SCE_ERROR_AV_MODULE_BAD_ID` at once (no
`hleDelayResult`) and return the state as it was; for an index in 0..7 their
value is the (`u32`) result of `LoadModuleInternal` / `UnloadModuleInternal`
applied to module id `0x300 | index`, and the state they leave is the state
that call leaves. -/
theorem C9_av_module_index {α : Type} (A : BlockAllocator α) (E : ErrorCodes)
    (module : Nat) (s : LoaderState α) :
    (7 < module →
      sceUtilityLoadAvModule A E module s
        = ({ value := intToU32 E.SCE_ERROR_AV_MODULE_BAD_ID, delayUs := none }, s) ∧
      sceUtilityUnloadAvModule A E module s
        = ({ value := intToU32 E.SCE_ERROR_AV_MODULE_BAD_ID, delayUs := none }, s)) ∧
    (module ≤ 7 →
      (sceUtilityLoadAvModule A E module s).1.value
        = intToU32 (LoadModuleInternal A E (0x300 ||| module) s).1 ∧
      (sceUtilityLoadAvModule A E module s).2
        = (LoadModuleInternal A E (0x300 ||| module) s).2 ∧
      (sceUtilityUnloadAvModule A E module s).1.value
        = intToU32 (UnloadModuleInternal A E (0x300 ||| module) s).1 ∧
      (sceUtilityUnloadAvModule A E module s).2
        = (UnloadModuleInternal A E (0x300 ||| module) s).2) := by
  constructor
  · intro h
    simp [sceUtilityLoadAvModule, sceUtilityUnloadAvModule, h]
  · intro h
    have h2 : ¬ module > 7 := by omega
    simp [sceUtilityLoadAvModule, sceUtilityUnloadAvModule, h2]

/-- Witness for C9: index 8 is rejected, index 2 goes to module 0x302. -/
theorem C9_av_module_index_witness :
    (7 < 8 ∧
      sceUtilityLoadAvModule bumpAllocator sampleErrorCodes 8 sampleState
        = ({ value := intToU32 sampleErrorCodes.SCE_ERROR_AV_MODULE_BAD_ID, delayUs := none },
           sampleState) ∧
      sceUtilityUnloadAvModule bumpAllocator sampleErrorCodes 8 sampleState
        = ({ value := intToU32 sampleErrorCodes.SCE_ERROR_AV_MODULE_BAD_ID, delayUs := none },
           sampleState)) ∧
    (2 ≤ 7 ∧
      (sceUtilityLoadAvModule bumpAllocator sampleErrorCodes 2 sampleState).1.value
        = intToU32 (LoadModuleInternal bumpAllocator sampleErrorCodes (0x300 ||| 2)
            sampleState).1) :=
  ⟨⟨by decide, (C9_av_module_index bumpAllocator sampleErrorCodes 8 sampleState).1 (by decide)⟩,
   ⟨by decide,
    ((C9_av_module_index bumpAllocator sampleErrorCodes 2 sampleState).2 (by decide)).1⟩⟩

/-- C10, as stated, fails: in the state reached by loading AV modules 0 and 2
and unloading AV module 0, module 0x300 is not in the table, yet
`sceUtilityLoadAvModule(2)` does not return
`SCE_KERNEL_ERROR_LIBRARY_NOTFOUND` (it returns
`SCE_ERROR_MODULE_ALREADY_LOADED`); and after a successful
`sceUtilityLoadAvModule(0)` the same call still does not return 0. -/
theorem C10_counterexample :
    ModuleMap.find atracOnlyState.currentlyLoadedModules 0x300 = none ∧
    (sceUtilityLoadAvModule bumpAllocator sampleErrorCodes 2 atracOnlyState).1.value
      ≠ intToU32 sampleErrorCodes.SCE_KERNEL_ERROR_LIBRARY_NOTFOUND ∧
    (sceUtilityLoadAvModule bumpAllocator sampleErrorCodes 2 atracOnlyState).1.value
      = intToU32 sampleErrorCodes.SCE_ERROR_MODULE_ALREADY_LOADED ∧
    (sceUtilityLoadAvModule bumpAllocator sampleErrorCodes 0 atracOnlyState).1.value = 0 ∧
    (sceUtilityLoadAvModule bumpAllocator sampleErrorCodes 2
      (sceUtilityLoadAvModule bumpAllocator sampleErrorCodes 0 atracOnlyState).2).1.value
      ≠ 0 := by
  decide

/-- C10, amended: for ATRAC3PLUS (index 2) and MPEGBASE (index 3), from a state
in which the module itself (0x302, 0x303) is not loaded: if module 0x300 is not
in the table, `sceUtilityLoadAvModule` returns
`SCE_KERNEL_ERROR_LIBRARY_NOTFOUND` and returns the state as it was; and if
`sceUtilityLoadAvModule(0)` succeeds (returns 0), the same call made after it
returns 0. -/
theorem C10_av_requires_avcodec {α : Type} (A : BlockAllocator α) (E : ErrorCodes)
    (module : Nat) (s : LoaderState α) (hE : E.Valid) (hm : module = 2 ∨ module = 3)
    (hself : ModuleMap.find s.currentlyLoadedModules (u32ToInt (0x300 ||| module)) = none) :
    (ModuleMap.find s.currentlyLoadedModules 0x300 = none →
      sceUtilityLoadAvModule A E module s
        = ({ value := intToU32 E.SCE_KERNEL_ERROR_LIBRARY_NOTFOUND, delayUs := some 25000 },
           s)) ∧
    ((sceUtilityLoadAvModule A E 0 s).1.value = 0 →
      (sceUtilityLoadAvModule A E module (sceUtilityLoadAvModule A E 0 s).2).1.value = 0) := by
  obtain ⟨_, ⟨ha1, ha2⟩, _, _, _⟩ := hE
  have h0info : __UtilityModuleInfo (u32ToInt (0x300 ||| 0))
      = some (ModuleLoadInfo.ctor 0x300 0x00000000 "av_avcodec"
          (some .NotifyLoadStatusAvcodec)) := by decide
  have hkey0 : u32ToInt (0x300 ||| 0) = 0x300 := by decide
  -- the catalogue entry of the module and its key
  have hent : ∃ info, __UtilityModuleInfo (u32ToInt (0x300 ||| module)) = some info ∧
      info.dependencies = [0x300, 0] ∧ u32ToInt (0x300 ||| module) ≠ 0x300 := by
    rcases hm with h | h
    · subst h
      exact ⟨ModuleLoadInfo.ctorDeps 0x302 0x00008000 "av_atrac3plus" atrac3PlusModuleDeps
        (some .NotifyLoadStatusAtrac), by decide, by decide, by decide⟩
    · subst h
      exact ⟨ModuleLoadInfo.ctorDeps 0x303 0x0000c000 "av_mpegbase" mpegBaseModuleDeps none,
        by decide, by decide, by decide⟩
  obtain ⟨info, hinfo, hdepsEq, hne⟩ := hent
  have h7 : ¬ module > 7 := by rcases hm with h | h <;> omega
  constructor
  · intro h300
    have hmiss : ∃ d ∈ depList info, ModuleMap.find s.currentlyLoadedModules d = none :=
      ⟨0x300, by simp [depList, hdepsEq], h300⟩
    have hd : ¬ depsLoaded s.currentlyLoadedModules info.dependencies = true := by
      intro h
      obtain ⟨d, hmem, hnone⟩ := hmiss
      have := (depsLoaded_iff _ _).1 h d hmem
      simp [hnone] at this
    simp [sceUtilityLoadAvModule, h7, LoadModuleInternal, hinfo, hself, hd]
  · intro hz
    have hav0 : sceUtilityLoadAvModule A E 0 s
        = ({ value := intToU32 (LoadModuleInternal A E (0x300 ||| 0) s).1,
             delayUs := some 25000 }, (LoadModuleInternal A E (0x300 ||| 0) s).2) := by
      simp [sceUtilityLoadAvModule]
    cases hf : ModuleMap.find s.currentlyLoadedModules (u32ToInt (0x300 ||| 0)) with
    | some a =>
      exfalso
      have hl := load_already A E (0x300 ||| 0) s ⟨_, moduleInfo_some _ _ h0info⟩
        (by rw [hf]; rfl)
      rw [hav0, hl] at hz
      exact intToU32_ne_zero _ ha1 ha2 hz
    | none =>
      have hload := load_success A E (0x300 ||| 0) s _ h0info hf
        (by simp [ModuleLoadInfo.ctor, noDeps, depsLoaded])
      simp only [ModuleLoadInfo.ctor, ne_eq, not_true_eq_false, if_false] at hload
      have hs1 : (sceUtilityLoadAvModule A E 0 s).2.currentlyLoadedModules
          = ModuleMap.assign s.currentlyLoadedModules 0x300 0 := by
        rw [hav0, hload, hkey0]
      have hself1 : ModuleMap.find (sceUtilityLoadAvModule A E 0 s).2.currentlyLoadedModules
          (u32ToInt (0x300 ||| module)) = none := by
        rw [hs1, ModuleMap.find_assign]
        simp [hne, hself]
      have hdeps1 : depsLoaded (sceUtilityLoadAvModule A E 0 s).2.currentlyLoadedModules
          info.dependencies = true := by
        rw [depsLoaded_iff, hdepsEq]
        intro d hd
        have hd300 : d = 0x300 := by simpa [List.takeWhile] using hd
        rw [hd300, hs1, ModuleMap.find_assign]
        simp
      have hload1 := load_success A E (0x300 ||| module) (sceUtilityLoadAvModule A E 0 s).2
        info hinfo hself1 hdeps1
      have hres : (LoadModuleInternal A E (0x300 ||| module)
          (sceUtilityLoadAvModule A E 0 s).2).1 = 0 := by
        rw [hload1]; split <;> rfl
      generalize (sceUtilityLoadAvModule A E 0 s).2 = s1 at hres
      simp [sceUtilityLoadAvModule, h7, hres, intToU32]

/-- Witness for C10 (amended): index 2 on the freshly initialised loader. -/
theorem C10_av_requires_avcodec_witness :
    (sampleErrorCodes.Valid ∧ ((2 : Nat) = 2 ∨ (2 : Nat) = 3) ∧
     ModuleMap.find (LoaderState.init 0x08800000).currentlyLoadedModules
       (u32ToInt (0x300 ||| 2)) = none ∧
     ModuleMap.find (LoaderState.init 0x08800000).currentlyLoadedModules 0x300 = none ∧
     (sceUtilityLoadAvModule bumpAllocator sampleErrorCodes 0
       (LoaderState.init 0x08800000)).1.value = 0) ∧
    (sceUtilityLoadAvModule bumpAllocator sampleErrorCodes 2 (LoaderState.init 0x08800000)
        = ({ value := intToU32 sampleErrorCodes.SCE_KERNEL_ERROR_LIBRARY_NOTFOUND,
             delayUs := some 25000 }, LoaderState.init 0x08800000) ∧
     (sceUtilityLoadAvModule bumpAllocator sampleErrorCodes 2
       (sceUtilityLoadAvModule bumpAllocator sampleErrorCodes 0
         (LoaderState.init 0x08800000)).2).1.value = 0) :=
  ⟨⟨by decide, by decide, by decide, by decide, by decide⟩,
   ⟨(C10_av_requires_avcodec bumpAllocator sampleErrorCodes 2 (LoaderState.init 0x08800000)
      (by decide) (by decide) (by decide)).1 (by decide),
    (C10_av_requires_avcodec bumpAllocator sampleErrorCodes 2 (LoaderState.init 0x08800000)
      (by decide) (by decide) (by decide)).2 (by decide)⟩⟩

/-! ## Lemmas on the dialog session -/

theorem dialogCalls_append (l1 l2 : List SysEvent) :
    dialogCalls (l1 ++ l2) = dialogCalls l1 ++ dialogCalls l2 := by
  induction l1 with
  | nil => rfl
  | cons e rest ih => cases e <;> simp [dialogCalls, ih]

theorem CleanupDialogThreads_frame {α δ : Type} (V : Env α δ) (force : Bool)
    (s : UtilityState α δ) :
    (CleanupDialogThreads V force s).currentDialogType = s.currentDialogType ∧
    (CleanupDialogThreads V force s).currentDialogActive = s.currentDialogActive ∧
    (CleanupDialogThreads V force s).oldStatus = s.oldStatus ∧
    (CleanupDialogThreads V force s).loader = s.loader ∧
    dialogCalls (CleanupDialogThreads V force s).log = dialogCalls s.log := by
  unfold CleanupDialogThreads
  cases s.accessThread with
  | none => simp
  | some thread =>
    simp only
    split
    · simp [dialogCalls_append, dialogCalls]
    · split
      · simp [dialogCalls_append, dialogCalls]
      · simp

theorem callDialog_frame {α δ : Type} (V : Env α δ) (t : UtilityDialogType)
    (m : DialogMethod) (s : UtilityState α δ) :
    (callDialog V t m s).1 = (V.dialog t m s.outside).1 ∧
    (callDialog V t m s).2.currentDialogType = s.currentDialogType ∧
    (callDialog V t m s).2.currentDialogActive = s.currentDialogActive ∧
    (callDialog V t m s).2.oldStatus = s.oldStatus ∧
    (callDialog V t m s).2.loader.currentlyLoadedModules = s.loader.currentlyLoadedModules := by
  simp [callDialog, UtilityState.setOutside]

theorem ActivateDialog_inactive {α δ : Type} (V : Env α δ) (type : UtilityDialogType)
    (s : UtilityState α δ) (h : s.currentDialogActive = false) :
    (ActivateDialog V type s).currentDialogType = type ∧
    (ActivateDialog V type s).currentDialogActive = true ∧
    (ActivateDialog V type s).oldStatus = -1 := by
  have hf := (CleanupDialogThreads_frame V false s).2.1
  simp [ActivateDialog, hf, h]

theorem ActivateDialog_active {α δ : Type} (V : Env α δ) (type : UtilityDialogType)
    (s : UtilityState α δ) (h : s.currentDialogActive = true) :
    (ActivateDialog V type s).currentDialogType = s.currentDialogType ∧
    (ActivateDialog V type s).currentDialogActive = true ∧
    (ActivateDialog V type s).oldStatus = s.oldStatus := by
  obtain ⟨h1, h2, h3, _, _⟩ := CleanupDialogThreads_frame V false s
  simp [ActivateDialog, h1, h2, h3, h]

theorem DeactivateDialog_frame {α δ : Type} (V : Env α δ) (s : UtilityState α δ) :
    (DeactivateDialog V s).currentDialogActive = false ∧
    (DeactivateDialog V s).currentDialogType = s.currentDialogType ∧
    (DeactivateDialog V s).oldStatus = s.oldStatus := by
  obtain ⟨h1, h2, h3, _, _⟩ := CleanupDialogThreads_frame V false s
  unfold DeactivateDialog
  cases hact : s.currentDialogActive
  · simp [h1, h2, h3, hact]
  · simp [h1, h2, h3, hact]

/-- After `ActivateDialog(type)` from a state that is inactive or already of
that type, the session is active with that type. -/
theorem ActivateDialog_accepted {α δ : Type} (V : Env α δ) (type : UtilityDialogType)
    (s : UtilityState α δ)
    (h : ¬ (s.currentDialogActive = true ∧ s.currentDialogType ≠ type)) :
    (ActivateDialog V type s).currentDialogType = type ∧
    (ActivateDialog V type s).currentDialogActive = true := by
  cases hact : s.currentDialogActive
  · exact ⟨(ActivateDialog_inactive V type s hact).1, (ActivateDialog_inactive V type s hact).2.1⟩
  · have ht : s.currentDialogType = type := by
      by_contra hne
      exact h ⟨hact, hne⟩
    obtain ⟨h1, h2, _⟩ := ActivateDialog_active V type s hact
    exact ⟨h1.trans ht, h2⟩

theorem noteStatus_frame {α δ : Type} (status : Int) (s : UtilityState α δ) :
    (noteStatus status s).1 = hleReturn status ∧
    (noteStatus status s).2.oldStatus = status ∧
    (noteStatus status s).2.currentDialogType = s.currentDialogType ∧
    (noteStatus status s).2.currentDialogActive = s.currentDialogActive := by
  unfold noteStatus
  by_cases h : s.oldStatus = status
  · simp [h]
  · simp [h]

/-! ## Theorems on the memory range query and the dialog session -/

/-- C11: `__UtilityModuleGetMemoryRange(id, ...)` returns true if and only if
`id` is in the catalogue and is a key of the loaded-module table; and when `id`
has catalogue entry `info` and is loaded at address `a`, it returns true with
`*startPtr = a` and `*sizePtr = info.size`, the catalogue footprint. -/
theorem C11_memory_range (t : ModuleMap) (moduleID : Int) (start0 size0 : Nat) :
    ((__UtilityModuleGetMemoryRange t moduleID start0 size0).1 = true ↔
      (inCatalog moduleID ∧ (ModuleMap.find t moduleID).isSome = true)) ∧
    (∀ info a, __UtilityModuleInfo moduleID = some info → ModuleMap.find t moduleID = some a →
      __UtilityModuleGetMemoryRange t moduleID start0 size0 = (true, a, info.size)) := by
  constructor
  · cases hi : __UtilityModuleInfo moduleID with
    | none =>
      have hn := (moduleInfo_none_iff moduleID).1 hi
      simp [__UtilityModuleGetMemoryRange, hi, hn]
    | some info =>
      have hcat : inCatalog moduleID := ⟨info, moduleInfo_some _ _ hi⟩
      cases hf : ModuleMap.find t moduleID with
      | none => simp [__UtilityModuleGetMemoryRange, hi, hf]
      | some a => simp [__UtilityModuleGetMemoryRange, hi, hf, hcat]
  · intro info a hi hf
    simp [__UtilityModuleGetMemoryRange, hi, hf]

/-- Witness for C11: module 0x302 in the sample table, loaded at 0x08800000. -/
theorem C11_memory_range_witness :
    (__UtilityModuleInfo 0x302 = some (ModuleLoadInfo.ctorDeps 0x302 0x00008000
        "av_atrac3plus" atrac3PlusModuleDeps (some .NotifyLoadStatusAtrac)) ∧
     ModuleMap.find sampleLoadedState.currentlyLoadedModules 0x302 = some 0x08800000) ∧
    __UtilityModuleGetMemoryRange sampleLoadedState.currentlyLoadedModules 0x302 0 0
      = (true, 0x08800000, 0x00008000) :=
  ⟨⟨by decide, by decide⟩,
   (C11_memory_range sampleLoadedState.currentlyLoadedModules 0x302 0 0).2
     (ModuleLoadInfo.ctorDeps 0x302 0x00008000 "av_atrac3plus" atrac3PlusModuleDeps
       (some .NotifyLoadStatusAtrac)) 0x08800000 (by decide) (by decide)⟩

/-- C12: for every `InitStart` syscall (of SAVEDATA with the `YugiohSaveFix`
flag off, MSG, OSK, NET, SCREENSHOT, GAMEDATAINSTALL, NPSIGNIN, GAMESHARING),
if a dialog is active and `currentDialogType` differs from the syscall's type,
the syscall returns `SCE_ERROR_UTILITY_WRONG_TYPE` at once and returns the
state as it was: no dialog method is called, and `currentDialogType`,
`currentDialogActive`, `oldStatus` and the helper task are unchanged. -/
theorem C12_init_wrong_type {α δ : Type} (V : Env α δ) (U : UtilityErrorCodes)
    (c : DialogSyscall) (s : UtilityState α δ)
    (hkind : c.kind = SyscallKind.InitStart)
    (hflag : c.dialogType = UtilityDialogType.SAVEDATA → V.YugiohSaveFix = false)
    (hact : s.currentDialogActive = true)
    (htype : s.currentDialogType ≠ c.dialogType) :
    DialogSyscall.exec V U c s = (hleReturn U.SCE_ERROR_UTILITY_WRONG_TYPE, s) := by
  cases c <;> simp [DialogSyscall.kind] at hkind <;>
    simp only [DialogSyscall.dialogType] at htype hflag
  · simp [DialogSyscall.exec, sceUtilitySavedataInitStart, hact, htype, hflag]
  · simp [DialogSyscall.exec, sceUtilityMsgDialogInitStart, hact, htype]
  · simp [DialogSyscall.exec, sceUtilityOskInitStart, hact, htype]
  · simp [DialogSyscall.exec, sceUtilityNetconfInitStart, hact, htype]
  · simp [DialogSyscall.exec, sceUtilityScreenshotInitStart, hact, htype]
  · simp [DialogSyscall.exec, sceUtilityGamedataInstallInitStart, hact, htype]
  · simp [DialogSyscall.exec, sceUtilityNpSigninInitStart, hact, htype]
  · simp [DialogSyscall.exec, sceUtilityGameSharingInitStart, hact, htype]

/-- Witness for C12: `sceUtilitySavedataInitStart` while the message dialog is
active, flag off. -/
theorem C12_init_wrong_type_witness :
    ((DialogSyscall.SavedataInitStart 0x1000).kind = SyscallKind.InitStart ∧
     ((DialogSyscall.SavedataInitStart 0x1000).dialogType = UtilityDialogType.SAVEDATA →
        sampleEnv.YugiohSaveFix = false) ∧
     msgActiveState.currentDialogActive = true ∧
     msgActiveState.currentDialogType ≠ (DialogSyscall.SavedataInitStart 0x1000).dialogType) ∧
    DialogSyscall.exec sampleEnv sampleUtilityErrorCodes (DialogSyscall.SavedataInitStart 0x1000)
        msgActiveState
      = (hleReturn sampleUtilityErrorCodes.SCE_ERROR_UTILITY_WRONG_TYPE, msgActiveState) :=
  ⟨⟨rfl, fun _ => rfl, rfl, by decide⟩,
   C12_init_wrong_type sampleEnv sampleUtilityErrorCodes (DialogSyscall.SavedataInitStart 0x1000)
     msgActiveState rfl (fun _ => rfl) rfl (by decide)⟩

theorem initGuard_false {α δ : Type} (s : UtilityState α δ) (type : UtilityDialogType)
    (h : ¬ (s.currentDialogActive = true ∧ s.currentDialogType ≠ type)) :
    (s.currentDialogActive && s.currentDialogType != type) = false := by
  cases hact : s.currentDialogActive
  · simp
  · have ht : s.currentDialogType = type := by
      by_contra hne
      exact h ⟨hact, hne⟩
    simp [ht]

theorem initTail_session {α δ : Type} (V : Env α δ) (type : UtilityDialogType)
    (m : DialogMethod) (s : UtilityState α δ)
    (h : ¬ (s.currentDialogActive = true ∧ s.currentDialogType ≠ type)) :
    (callDialog V type m (ActivateDialog V type s)).2.currentDialogActive = true ∧
    (callDialog V type m (ActivateDialog V type s)).2.currentDialogType = type := by
  obtain ⟨_, h2, h3, _, _⟩ := callDialog_frame V type m (ActivateDialog V type s)
  obtain ⟨h4, h5⟩ := ActivateDialog_accepted V type s h
  exact ⟨h3.trans h5, h2.trans h4⟩

/-- C13: `ActivateDialog(T)` from an inactive session sets
`currentDialogType = T`, `currentDialogActive = true` and `oldStatus = -1`,
whatever `currentDialogType` was; from an active session it leaves the three
unchanged.  Consequently every `InitStart` syscall that passes its guard (the
session is inactive, or active with the syscall's own type) leaves the session
active with `currentDialogType` equal to the syscall's type — for
GamedataInstall provided `Init` returned a non-negative result. -/
theorem C13_activate_dialog {α δ : Type} (V : Env α δ) (U : UtilityErrorCodes)
    (type : UtilityDialogType) (c : DialogSyscall) (s : UtilityState α δ) :
    (s.currentDialogActive = false →
      (ActivateDialog V type s).currentDialogType = type ∧
      (ActivateDialog V type s).currentDialogActive = true ∧
      (ActivateDialog V type s).oldStatus = -1) ∧
    (s.currentDialogActive = true →
      (ActivateDialog V type s).currentDialogType = s.currentDialogType ∧
      (ActivateDialog V type s).currentDialogActive = true ∧
      (ActivateDialog V type s).oldStatus = s.oldStatus) ∧
    (c.kind = SyscallKind.InitStart →
      ¬ (s.currentDialogActive = true ∧ s.currentDialogType ≠ c.dialogType) →
      (c.dialogType = UtilityDialogType.GAMEDATAINSTALL →
        0 ≤ (DialogSyscall.exec V U c s).1.value) →
      (DialogSyscall.exec V U c s).2.currentDialogActive = true ∧
      (DialogSyscall.exec V U c s).2.currentDialogType = c.dialogType) := by
  refine ⟨ActivateDialog_inactive V type s, ActivateDialog_active V type s, ?_⟩
  intro hkind hacc hres
  cases c <;> simp [DialogSyscall.kind] at hkind <;>
    simp only [DialogSyscall.dialogType] at hacc hres ⊢
  · have hg := initGuard_false s _ hacc
    simp only [DialogSyscall.exec, sceUtilitySavedataInitStart, hg]
    exact initTail_session V _ _ s hacc
  · have hg := initGuard_false s _ hacc
    simp only [DialogSyscall.exec, sceUtilityMsgDialogInitStart, hg]
    exact initTail_session V _ _ s hacc
  · have hg := initGuard_false s _ hacc
    simp only [DialogSyscall.exec, sceUtilityOskInitStart, hg]
    exact initTail_session V _ _ s hacc
  · have hg := initGuard_false s _ hacc
    simp only [DialogSyscall.exec, sceUtilityNetconfInitStart, hg]
    exact initTail_session V _ _ s hacc
  · have hg := initGuard_false s _ hacc
    simp only [DialogSyscall.exec, sceUtilityScreenshotInitStart, hg]
    exact initTail_session V _ _ s hacc
  · rename_i p
    have hg := initGuard_false s _ hacc
    simp only [DialogSyscall.exec, sceUtilityGamedataInstallInitStart, hg, Bool.false_eq_true,
      if_false, hleReturn] at hres ⊢
    have hnn : ¬ (callDialog V UtilityDialogType.GAMEDATAINSTALL (DialogMethod.Init p)
        (ActivateDialog V UtilityDialogType.GAMEDATAINSTALL s)).1 < 0 :=
      not_lt.mpr (hres trivial)
    simp only [hnn, if_false]
    exact initTail_session V _ _ s hacc
  · have hg := initGuard_false s _ hacc
    simp only [DialogSyscall.exec, sceUtilityNpSigninInitStart, hg]
    exact initTail_session V _ _ s hacc
  · have hg := initGuard_false s _ hacc
    simp only [DialogSyscall.exec, sceUtilityGameSharingInitStart, hg]
    exact ⟨(ActivateDialog_accepted V _ s hacc).2, (ActivateDialog_accepted V _ s hacc).1⟩

/-- Witness for C13: `ActivateDialog(OSK)` on the fresh (inactive) state and on
the state with the message dialog active, and `sceUtilityOskInitStart` on the
fresh state. -/
theorem C13_activate_dialog_witness :
    (freshState.currentDialogActive = false ∧
      (ActivateDialog sampleEnv UtilityDialogType.OSK freshState).currentDialogType
        = UtilityDialogType.OSK) ∧
    (msgActiveState.currentDialogActive = true ∧
      (ActivateDialog sampleEnv UtilityDialogType.OSK msgActiveState).currentDialogType
        = msgActiveState.currentDialogType) ∧
    ((DialogSyscall.OskInitStart 0x1000).kind = SyscallKind.InitStart ∧
      ¬ (freshState.currentDialogActive = true ∧
          freshState.currentDialogType ≠ (DialogSyscall.OskInitStart 0x1000).dialogType) ∧
      (DialogSyscall.exec sampleEnv sampleUtilityErrorCodes (DialogSyscall.OskInitStart 0x1000)
        freshState).2.currentDialogType = UtilityDialogType.OSK) :=
  ⟨⟨rfl, ((C13_activate_dialog sampleEnv sampleUtilityErrorCodes UtilityDialogType.OSK
      (DialogSyscall.OskInitStart 0x1000) freshState).1 rfl).1⟩,
   ⟨rfl, ((C13_activate_dialog sampleEnv sampleUtilityErrorCodes UtilityDialogType.OSK
      (DialogSyscall.OskInitStart 0x1000) msgActiveState).2.1 rfl).1⟩,
   ⟨rfl, by decide,
    ((C13_activate_dialog sampleEnv sampleUtilityErrorCodes UtilityDialogType.OSK
      (DialogSyscall.OskInitStart 0x1000) freshState).2.2 rfl (by decide)
      (fun h => by simp [DialogSyscall.dialogType] at h)).2⟩⟩

/-- The behaviour of the override path of `sceUtilitySavedataInitStart`: with
`YugiohSaveFix` set and a dialog of another type active, the call returns the
save dialog's `Init` result and discards the helper task, but
`currentDialogType` keeps the other type. -/
theorem savedataInitStart_override {α δ : Type} (V : Env α δ) (U : UtilityErrorCodes)
    (paramAddr : Nat) (s : UtilityState α δ) (hflag : V.YugiohSaveFix = true)
    (hact : s.currentDialogActive = true)
    (htype : s.currentDialogType ≠ UtilityDialogType.SAVEDATA) :
    (sceUtilitySavedataInitStart V U paramAddr s).2.currentDialogActive = true ∧
    (sceUtilitySavedataInitStart V U paramAddr s).2.currentDialogType = s.currentDialogType := by
  have hg : (s.currentDialogActive && s.currentDialogType != UtilityDialogType.SAVEDATA)
      = true := by simp [hact, htype]
  unfold sceUtilitySavedataInitStart
  simp only [hg, hflag, if_true]
  cases hth : s.accessThread with
  | none =>
    simp only
    obtain ⟨_, h2, h3, _, _⟩ := callDialog_frame V UtilityDialogType.SAVEDATA
      (DialogMethod.Init paramAddr) (ActivateDialog V UtilityDialogType.SAVEDATA s)
    obtain ⟨h4, h5, _⟩ := ActivateDialog_active V UtilityDialogType.SAVEDATA s hact
    exact ⟨h3.trans h5, h2.trans h4⟩
  | some thread =>
    simp only
    obtain ⟨_, h2, h3, _, _⟩ := callDialog_frame V UtilityDialogType.SAVEDATA
      (DialogMethod.Init paramAddr) (ActivateDialog V UtilityDialogType.SAVEDATA
        { s with world := V.KernelVolatileMemUnlock
                   (V.Delete (V.Terminate s.world thread) thread) 0,
                 accessThread := none,
                 accessThreadFinished := true,
                 accessThreadState := "terminated",
                 log := s.log ++ [SysEvent.Terminate thread, SysEvent.Delete thread,
                   SysEvent.KernelVolatileMemUnlock 0] })
    obtain ⟨h4, h5, _⟩ := ActivateDialog_active V UtilityDialogType.SAVEDATA
        { s with world := V.KernelVolatileMemUnlock
                   (V.Delete (V.Terminate s.world thread) thread) 0,
                 accessThread := none,
                 accessThreadFinished := true,
                 accessThreadState := "terminated",
                 log := s.log ++ [SysEvent.Terminate thread, SysEvent.Delete thread,
                   SysEvent.KernelVolatileMemUnlock 0] } hact
    exact ⟨h3.trans h5, h2.trans h4⟩

/-- C14, the code at the failing input: with `YugiohSaveFix` set, the message
dialog active and a helper task in flight, `sceUtilitySavedataInitStart` does
not return `SCE_ERROR_UTILITY_WRONG_TYPE` but the save dialog's `Init` result
(0 here), and it terminates and discards the helper task; yet afterwards
`currentDialogType` is still MSG, not SAVEDATA, so that the next
`sceUtilitySavedataGetStatus` and `sceUtilitySavedataUpdate` are rejected with
`SCE_ERROR_UTILITY_WRONG_TYPE`. -/
theorem C14_override_keeps_other_type :
    yugiohEnv.YugiohSaveFix = true ∧
    msgActiveState.currentDialogActive = true ∧
    msgActiveState.currentDialogType = UtilityDialogType.MSG ∧
    msgActiveState.accessThread = some sampleThread ∧
    (sceUtilitySavedataInitStart yugiohEnv sampleUtilityErrorCodes 0x1000 msgActiveState).1
      = hleReturn 0 ∧
    (sceUtilitySavedataInitStart yugiohEnv sampleUtilityErrorCodes 0x1000
      msgActiveState).2.accessThread = none ∧
    (sceUtilitySavedataInitStart yugiohEnv sampleUtilityErrorCodes 0x1000 msgActiveState).2.log
      = [SysEvent.Terminate sampleThread, SysEvent.Delete sampleThread,
         SysEvent.KernelVolatileMemUnlock 0,
         SysEvent.DialogCall UtilityDialogType.SAVEDATA (DialogMethod.Init 0x1000)] ∧
    (sceUtilitySavedataInitStart yugiohEnv sampleUtilityErrorCodes 0x1000
      msgActiveState).2.currentDialogActive = true ∧
    (sceUtilitySavedataInitStart yugiohEnv sampleUtilityErrorCodes 0x1000
      msgActiveState).2.currentDialogType = UtilityDialogType.MSG ∧
    (sceUtilitySavedataGetStatus yugiohEnv sampleUtilityErrorCodes
      (sceUtilitySavedataInitStart yugiohEnv sampleUtilityErrorCodes 0x1000
        msgActiveState).2).1
      = hleReturn sampleUtilityErrorCodes.SCE_ERROR_UTILITY_WRONG_TYPE ∧
    (sceUtilitySavedataUpdate yugiohEnv sampleUtilityErrorCodes 1
      (sceUtilitySavedataInitStart yugiohEnv sampleUtilityErrorCodes 0x1000
        msgActiveState).2).1
      = hleReturn sampleUtilityErrorCodes.SCE_ERROR_UTILITY_WRONG_TYPE := by
  refine ⟨rfl, rfl, rfl, rfl, ?_, ?_, ?_, ?_, ?_, ?_, ?_⟩ <;> decide

/-- C15: `DeactivateDialog` always leaves `currentDialogActive = false` and
never changes `currentDialogType`; hence every `ShutdownStart` syscall that
passes its guard (`currentDialogType` is the syscall's type, and for
GamedataInstall the session is active) leaves the session inactive with
`currentDialogType` still equal to the syscall's type. -/
theorem C15_deactivate_dialog {α δ : Type} (V : Env α δ) (U : UtilityErrorCodes)
    (c : DialogSyscall) (s : UtilityState α δ) :
    ((DeactivateDialog V s).currentDialogActive = false ∧
     (DeactivateDialog V s).currentDialogType = s.currentDialogType) ∧
    (c.kind = SyscallKind.ShutdownStart →
      s.currentDialogType = c.dialogType →
      (c.dialogType = UtilityDialogType.GAMEDATAINSTALL → s.currentDialogActive = true) →
      (DialogSyscall.exec V U c s).2.currentDialogActive = false ∧
      (DialogSyscall.exec V U c s).2.currentDialogType = c.dialogType) := by
  obtain ⟨hd1, hd2, _⟩ := DeactivateDialog_frame V s
  refine ⟨⟨hd1, hd2⟩, ?_⟩
  intro hkind htype hgdi
  have htail : ∀ (t : UtilityDialogType) (m : DialogMethod),
      (callDialog V t m (DeactivateDialog V s)).2.currentDialogActive = false ∧
      (callDialog V t m (DeactivateDialog V s)).2.currentDialogType = s.currentDialogType := by
    intro t m
    obtain ⟨_, h2, h3, _, _⟩ := callDialog_frame V t m (DeactivateDialog V s)
    exact ⟨h3.trans hd1, h2.trans hd2⟩
  cases c <;> simp [DialogSyscall.kind] at hkind <;>
    simp only [DialogSyscall.dialogType] at htype hgdi ⊢
  · simp only [DialogSyscall.exec, sceUtilitySavedataShutdownStart, htype, bne_self_eq_false,
      Bool.false_eq_true, if_false, hleEatCycles]
    rw [← htype]; exact htail _ _
  · simp only [DialogSyscall.exec, sceUtilityMsgDialogShutdownStart, htype, bne_self_eq_false,
      Bool.false_eq_true, if_false]
    rw [← htype]; exact htail _ _
  · simp only [DialogSyscall.exec, sceUtilityOskShutdownStart, htype, bne_self_eq_false,
      Bool.false_eq_true, if_false]
    rw [← htype]; exact htail _ _
  · simp only [DialogSyscall.exec, sceUtilityNetconfShutdownStart, htype, bne_self_eq_false,
      Bool.false_eq_true, if_false]
    rw [← htype]; exact htail _ _
  · simp only [DialogSyscall.exec, sceUtilityScreenshotShutdownStart, htype, bne_self_eq_false,
      Bool.false_eq_true, if_false]
    rw [← htype]; exact htail _ _
  · have ha := hgdi trivial
    simp only [DialogSyscall.exec, sceUtilityGamedataInstallShutdownStart, htype, ha,
      bne_self_eq_false, Bool.not_true, Bool.or_self, Bool.false_eq_true, if_false]
    rw [← htype]; exact htail _ _
  · simp only [DialogSyscall.exec, sceUtilityNpSigninShutdownStart, htype, bne_self_eq_false,
      Bool.false_eq_true, if_false]
    rw [← htype]; exact htail _ _
  · simp only [DialogSyscall.exec, sceUtilityGameSharingShutdownStart, htype, bne_self_eq_false,
      Bool.false_eq_true, if_false]
    rw [← htype]; exact ⟨hd1, hd2⟩

/-- Witness for C15: `sceUtilityMsgDialogShutdownStart` while the message
dialog is active. -/
theorem C15_deactivate_dialog_witness :
    ((DialogSyscall.MsgDialogShutdownStart).kind = SyscallKind.ShutdownStart ∧
     msgActiveState.currentDialogType = (DialogSyscall.MsgDialogShutdownStart).dialogType) ∧
    ((DialogSyscall.exec sampleEnv sampleUtilityErrorCodes DialogSyscall.MsgDialogShutdownStart
        msgActiveState).2.currentDialogActive = false ∧
     (DialogSyscall.exec sampleEnv sampleUtilityErrorCodes DialogSyscall.MsgDialogShutdownStart
        msgActiveState).2.currentDialogType = UtilityDialogType.MSG) :=
  ⟨⟨rfl, rfl⟩,
   (C15_deactivate_dialog sampleEnv sampleUtilityErrorCodes DialogSyscall.MsgDialogShutdownStart
     msgActiveState).2 rfl rfl (fun h => by simp [DialogSyscall.dialogType] at h)⟩

theorem UtilityInit_session {α δ : Type} (V : Env α δ) (s : UtilityState α δ) :
    (__UtilityInit V s).currentDialogActive = false ∧
    (__UtilityInit V s).currentDialogType = UtilityDialogType.NONE ∧
    (__UtilityInit V s).loader.currentlyLoadedModules = [] := by
  obtain ⟨h1, h2, _⟩ := DeactivateDialog_frame V
    { s with world := V.NewDialogs s.world, currentDialogType := UtilityDialogType.NONE }
  unfold __UtilityInit
  exact ⟨h1, h2, rfl⟩

theorem savedataUpdate_session {α δ : Type} (V : Env α δ) (U : UtilityErrorCodes)
    (animSpeed : Int) (s : UtilityState α δ) :
    (sceUtilitySavedataUpdate V U animSpeed s).2.currentDialogType = s.currentDialogType ∧
    (sceUtilitySavedataUpdate V U animSpeed s).2.currentDialogActive
      = s.currentDialogActive := by
  obtain ⟨_, h2, h3, _, _⟩ := callDialog_frame V UtilityDialogType.SAVEDATA
    (DialogMethod.Update animSpeed) s
  unfold sceUtilitySavedataUpdate
  split
  · exact ⟨rfl, rfl⟩
  · by_cases h : (callDialog V UtilityDialogType.SAVEDATA (DialogMethod.Update animSpeed) s).1
        ≥ 0
    · simp only [h, if_true]
      exact ⟨h2, h3⟩
    · simp only [h, if_false]
      exact ⟨h2, h3⟩

theorem runSavedataUpdates_session {α δ : Type} (V : Env α δ) (U : UtilityErrorCodes)
    (speeds : List Int) (s : UtilityState α δ) :
    (runSavedataUpdates V U speeds s).currentDialogType = s.currentDialogType ∧
    (runSavedataUpdates V U speeds s).currentDialogActive = s.currentDialogActive := by
  induction speeds generalizing s with
  | nil => exact ⟨rfl, rfl⟩
  | cons a rest ih =>
    obtain ⟨h1, h2⟩ := savedataUpdate_session V U a s
    obtain ⟨h3, h4⟩ := ih (sceUtilitySavedataUpdate V U a s).2
    simp only [runSavedataUpdates]
    exact ⟨h3.trans h1, h4.trans h2⟩

/-- C16, as stated, fails: from the freshly initialised sample subsystem, after
an accepted `sceUtilitySavedataInitStart` (it returns 0), two
`sceUtilitySavedataUpdate` calls and `sceUtilitySavedataShutdownStart`, the
session is inactive, and `sceUtilitySavedataGetStatus` returns the dialog's
status 4, not `SCE_ERROR_UTILITY_WRONG_TYPE`. -/
theorem C16_counterexample :
    (sceUtilitySavedataInitStart sampleEnv sampleUtilityErrorCodes 0x1000
      (__UtilityInit sampleEnv staticState)).1 = hleReturn 0 ∧
    (savedataRun sampleEnv sampleUtilityErrorCodes 0x1000 [1, 1]
      staticState).currentDialogActive = false ∧
    (sceUtilitySavedataGetStatus sampleEnv sampleUtilityErrorCodes
      (savedataRun sampleEnv sampleUtilityErrorCodes 0x1000 [1, 1] staticState)).1
      = hleReturn 4 ∧
    (sceUtilitySavedataGetStatus sampleEnv sampleUtilityErrorCodes
      (savedataRun sampleEnv sampleUtilityErrorCodes 0x1000 [1, 1] staticState)).1.value
      ≠ sampleUtilityErrorCodes.SCE_ERROR_UTILITY_WRONG_TYPE := by
  refine ⟨?_, ?_, ?_, ?_⟩ <;> decide

/-- C16, amended: starting from a freshly initialised subsystem, after
`sceUtilitySavedataInitStart`, any number of `sceUtilitySavedataUpdate` calls
and `sceUtilitySavedataShutdownStart`, the session is inactive with
`currentDialogType` still SAVEDATA, and a following
`sceUtilitySavedataGetStatus` is not rejected: it calls the save dialog's
`GetStatus()` and returns its value. -/
theorem C16_status_after_shutdown {α δ : Type} (V : Env α δ) (U : UtilityErrorCodes)
    (paramAddr : Nat) (speeds : List Int) (s0 : UtilityState α δ) :
    (savedataRun V U paramAddr speeds s0).currentDialogActive = false ∧
    (savedataRun V U paramAddr speeds s0).currentDialogType = UtilityDialogType.SAVEDATA ∧
    (sceUtilitySavedataGetStatus V U (savedataRun V U paramAddr speeds s0)).1
      = hleReturn (V.dialog UtilityDialogType.SAVEDATA DialogMethod.GetStatus
          (savedataRun V U paramAddr speeds s0).outside).1 ∧
    dialogCalls (sceUtilitySavedataGetStatus V U (savedataRun V U paramAddr speeds s0)).2.log
      = dialogCalls (savedataRun V U paramAddr speeds s0).log
          ++ [(UtilityDialogType.SAVEDATA, DialogMethod.GetStatus)] := by
  -- after InitStart the session is active with type SAVEDATA
  have hinit := (UtilityInit_session V s0).1
  have hacc : ¬ ((__UtilityInit V s0).currentDialogActive = true ∧
      (__UtilityInit V s0).currentDialogType ≠ UtilityDialogType.SAVEDATA) := by
    simp [hinit]
  have hg := initGuard_false (__UtilityInit V s0) UtilityDialogType.SAVEDATA hacc
  have h1 : (sceUtilitySavedataInitStart V U paramAddr (__UtilityInit V s0)).2.currentDialogType
      = UtilityDialogType.SAVEDATA := by
    simp only [sceUtilitySavedataInitStart, hg]
    exact (initTail_session V _ _ _ hacc).2
  -- the updates keep the type
  have h2 := (runSavedataUpdates_session V U speeds
    (sceUtilitySavedataInitStart V U paramAddr (__UtilityInit V s0)).2).1
  have h3 : (runSavedataUpdates V U speeds
      (sceUtilitySavedataInitStart V U paramAddr (__UtilityInit V s0)).2).currentDialogType
      = UtilityDialogType.SAVEDATA := h2.trans h1
  -- ShutdownStart deactivates and keeps the type
  have h4 : (savedataRun V U paramAddr speeds s0).currentDialogActive = false ∧
      (savedataRun V U paramAddr speeds s0).currentDialogType
        = UtilityDialogType.SAVEDATA := by
    obtain ⟨hd1, hd2, _⟩ := DeactivateDialog_frame V (runSavedataUpdates V U speeds
      (sceUtilitySavedataInitStart V U paramAddr (__UtilityInit V s0)).2)
    obtain ⟨_, c2, c3, _, _⟩ := callDialog_frame V UtilityDialogType.SAVEDATA
      (DialogMethod.Shutdown false) (DeactivateDialog V (runSavedataUpdates V U speeds
      (sceUtilitySavedataInitStart V U paramAddr (__UtilityInit V s0)).2))
    simp only [savedataRun, sceUtilitySavedataShutdownStart, h3, bne_self_eq_false,
      Bool.false_eq_true, if_false, hleEatCycles]
    exact ⟨c3.trans hd1, (c2.trans hd2).trans h3⟩
  refine ⟨h4.1, h4.2, ?_, ?_⟩
  · generalize savedataRun V U paramAddr speeds s0 = s at h4 ⊢
    simp only [sceUtilitySavedataGetStatus, h4.2, bne_self_eq_false, Bool.false_eq_true,
      if_false]
    rw [(noteStatus_frame _ _).1, (callDialog_frame V _ _ s).1]
  · generalize savedataRun V U paramAddr speeds s0 = s at h4 ⊢
    simp only [sceUtilitySavedataGetStatus, h4.2, bne_self_eq_false, Bool.false_eq_true,
      if_false]
    have hn : ∀ (st : Int) (x : UtilityState α δ), (noteStatus st x).2.log = x.log := by
      intro st x
      unfold noteStatus
      split <;> rfl
    rw [hn, (CleanupDialogThreads_frame V false _).2.2.2.2]
    simp [hleEatCycles, callDialog, dialogCalls_append, dialogCalls]

/-- C17: for every `ShutdownStart`, `Update`, `GetStatus`, `Abort` and
`ContStart` syscall and every state whose `currentDialogType` differs from the
syscall's type, the syscall returns `SCE_ERROR_UTILITY_WRONG_TYPE` without
calling a dialog method and without changing `currentDialogType`,
`currentDialogActive`, `oldStatus`, the helper task, the loader or the outside
world: nothing but an `hleEatCycles(200)` (in two of the `GetStatus` syscalls)
is added to the log. -/
theorem C17_wrong_type {α δ : Type} (V : Env α δ) (U : UtilityErrorCodes)
    (c : DialogSyscall) (s : UtilityState α δ)
    (hkind : c.kind ≠ SyscallKind.InitStart)
    (htype : s.currentDialogType ≠ c.dialogType) :
    (DialogSyscall.exec V U c s).1 = hleReturn U.SCE_ERROR_UTILITY_WRONG_TYPE ∧
    ((DialogSyscall.exec V U c s).2 = s ∨ (DialogSyscall.exec V U c s).2 = hleEatCycles 200 s) ∧
    dialogCalls (DialogSyscall.exec V U c s).2.log = dialogCalls s.log ∧
    (DialogSyscall.exec V U c s).2.currentDialogType = s.currentDialogType ∧
    (DialogSyscall.exec V U c s).2.currentDialogActive = s.currentDialogActive ∧
    (DialogSyscall.exec V U c s).2.accessThread = s.accessThread ∧
    (DialogSyscall.exec V U c s).2.accessThreadFinished = s.accessThreadFinished := by
  cases c <;> simp [DialogSyscall.kind] at hkind <;>
    simp only [DialogSyscall.dialogType] at htype <;>
    simp [DialogSyscall.exec, sceUtilitySavedataShutdownStart, sceUtilitySavedataGetStatus,
      sceUtilitySavedataUpdate, sceUtilityMsgDialogShutdownStart, sceUtilityMsgDialogUpdate,
      sceUtilityMsgDialogGetStatus, sceUtilityMsgDialogAbort, sceUtilityOskShutdownStart,
      sceUtilityOskUpdate, sceUtilityOskGetStatus, sceUtilityNetconfShutdownStart,
      sceUtilityNetconfUpdate, sceUtilityNetconfGetStatus, sceUtilityScreenshotShutdownStart,
      sceUtilityScreenshotUpdate, sceUtilityScreenshotGetStatus, sceUtilityScreenshotContStart,
      sceUtilityGamedataInstallShutdownStart, sceUtilityGamedataInstallUpdate,
      sceUtilityGamedataInstallGetStatus, sceUtilityGamedataInstallAbort,
      sceUtilityNpSigninShutdownStart, sceUtilityNpSigninUpdate, sceUtilityNpSigninGetStatus,
      sceUtilityGameSharingShutdownStart, sceUtilityGameSharingUpdate,
      sceUtilityGameSharingGetStatus, htype, hleEatCycles, dialogCalls_append, dialogCalls]

/-- Witness for C17: `sceUtilitySavedataGetStatus` while the message dialog is
the current one. -/
theorem C17_wrong_type_witness :
    ((DialogSyscall.SavedataGetStatus).kind ≠ SyscallKind.InitStart ∧
     msgActiveState.currentDialogType ≠ (DialogSyscall.SavedataGetStatus).dialogType) ∧
    (DialogSyscall.exec sampleEnv sampleUtilityErrorCodes DialogSyscall.SavedataGetStatus
      msgActiveState).1 = hleReturn sampleUtilityErrorCodes.SCE_ERROR_UTILITY_WRONG_TYPE :=
  ⟨⟨by decide, by decide⟩,
   (C17_wrong_type sampleEnv sampleUtilityErrorCodes DialogSyscall.SavedataGetStatus
     msgActiveState (by decide) (by decide)).1⟩

/-- The accepted path of the `GetStatus` syscalls that keep `oldStatus`. -/
theorem getStatusTail {α δ : Type} (V : Env α δ) (t : UtilityDialogType)
    (s : UtilityState α δ) :
    (noteStatus (callDialog V t DialogMethod.GetStatus s).1
        (CleanupDialogThreads V false (callDialog V t DialogMethod.GetStatus s).2)).1
      = hleReturn (V.dialog t DialogMethod.GetStatus s.outside).1 ∧
    (noteStatus (callDialog V t DialogMethod.GetStatus s).1
        (CleanupDialogThreads V false (callDialog V t DialogMethod.GetStatus s).2)).2.oldStatus
      = (V.dialog t DialogMethod.GetStatus s.outside).1 ∧
    (noteStatus (callDialog V t DialogMethod.GetStatus s).1
        (CleanupDialogThreads V false
          (callDialog V t DialogMethod.GetStatus s).2)).2.currentDialogType
      = s.currentDialogType ∧
    (noteStatus (callDialog V t DialogMethod.GetStatus s).1
        (CleanupDialogThreads V false
          (callDialog V t DialogMethod.GetStatus s).2)).2.currentDialogActive
      = s.currentDialogActive := by
  obtain ⟨n1, n2, n3, n4⟩ := noteStatus_frame (callDialog V t DialogMethod.GetStatus s).1
    (CleanupDialogThreads V false (callDialog V t DialogMethod.GetStatus s).2)
  obtain ⟨k1, k2, _, _, _⟩ := CleanupDialogThreads_frame V false
    (callDialog V t DialogMethod.GetStatus s).2
  obtain ⟨c1, c2, c3, _, _⟩ := callDialog_frame V t DialogMethod.GetStatus s
  exact ⟨n1.trans (by rw [c1]), n2.trans c1, (n3.trans k1).trans c2, (n4.trans k2).trans c3⟩

/-- What an accepted `GetStatus` syscall returns and leaves, in terms of the
state before it. -/
theorem getStatus_accepted {α δ : Type} (V : Env α δ) (U : UtilityErrorCodes)
    (c : DialogSyscall) (s : UtilityState α δ)
    (hkind : c.kind = SyscallKind.GetStatus)
    (htype : s.currentDialogType = c.dialogType) :
    (DialogSyscall.exec V U c s).1
      = hleReturn (if c.dialogType = UtilityDialogType.GAMESHARING then 0
          else (V.dialog c.dialogType DialogMethod.GetStatus s.outside).1) ∧
    (DialogSyscall.exec V U c s).2.currentDialogType = s.currentDialogType ∧
    (DialogSyscall.exec V U c s).2.currentDialogActive = s.currentDialogActive ∧
    (c.dialogType ≠ UtilityDialogType.GAMEDATAINSTALL →
      c.dialogType ≠ UtilityDialogType.GAMESHARING →
      (DialogSyscall.exec V U c s).2.oldStatus = (DialogSyscall.exec V U c s).1.value) := by
  cases c <;> simp [DialogSyscall.kind] at hkind <;>
    simp only [DialogSyscall.dialogType] at htype ⊢
  · -- Savedata
    obtain ⟨n1, n2, n3, n4⟩ := noteStatus_frame
      (callDialog V UtilityDialogType.SAVEDATA DialogMethod.GetStatus s).1
      (CleanupDialogThreads V false
        (hleEatCycles 200 (callDialog V UtilityDialogType.SAVEDATA DialogMethod.GetStatus s).2))
    obtain ⟨k1, k2, _, _, _⟩ := CleanupDialogThreads_frame V false
      (hleEatCycles 200 (callDialog V UtilityDialogType.SAVEDATA DialogMethod.GetStatus s).2)
    obtain ⟨c1, c2, c3, _, _⟩ := callDialog_frame V UtilityDialogType.SAVEDATA
      DialogMethod.GetStatus s
    simp only [DialogSyscall.exec, sceUtilitySavedataGetStatus, htype, bne_self_eq_false,
      Bool.false_eq_true, if_false]
    refine ⟨?_, ?_, ?_, ?_⟩
    · rw [n1, c1]; simp
    · rw [n3, k1]; exact c2.trans htype
    · rw [n4, k2]; exact c3
    · intro _ _; rw [n2, n1]; rfl
  · obtain ⟨g1, g2, g3, g4⟩ := getStatusTail V UtilityDialogType.MSG s
    simp only [DialogSyscall.exec, sceUtilityMsgDialogGetStatus, htype, bne_self_eq_false,
      Bool.false_eq_true, if_false]
    exact ⟨by rw [g1]; simp, g3.trans htype, g4, fun _ _ => by rw [g2, g1]; rfl⟩
  · obtain ⟨g1, g2, g3, g4⟩ := getStatusTail V UtilityDialogType.OSK s
    simp only [DialogSyscall.exec, sceUtilityOskGetStatus, htype, bne_self_eq_false,
      Bool.false_eq_true, if_false]
    exact ⟨by rw [g1]; simp, g3.trans htype, g4, fun _ _ => by rw [g2, g1]; rfl⟩
  · obtain ⟨g1, g2, g3, g4⟩ := getStatusTail V UtilityDialogType.NET s
    simp only [DialogSyscall.exec, sceUtilityNetconfGetStatus, htype, bne_self_eq_false,
      Bool.false_eq_true, if_false]
    exact ⟨by rw [g1]; simp, g3.trans htype, g4, fun _ _ => by rw [g2, g1]; rfl⟩
  · obtain ⟨g1, g2, g3, g4⟩ := getStatusTail V UtilityDialogType.SCREENSHOT s
    simp only [DialogSyscall.exec, sceUtilityScreenshotGetStatus, htype, bne_self_eq_false,
      Bool.false_eq_true, if_false]
    exact ⟨by rw [g1]; simp, g3.trans htype, g4, fun _ _ => by rw [g2, g1]; rfl⟩
  · -- GamedataInstall
    obtain ⟨k1, k2, _, _, _⟩ := CleanupDialogThreads_frame V false
      (callDialog V UtilityDialogType.GAMEDATAINSTALL DialogMethod.GetStatus s).2
    obtain ⟨c1, c2, c3, _, _⟩ := callDialog_frame V UtilityDialogType.GAMEDATAINSTALL
      DialogMethod.GetStatus s
    simp only [DialogSyscall.exec, sceUtilityGamedataInstallGetStatus, htype, bne_self_eq_false,
      Bool.false_eq_true, if_false]
    refine ⟨?_, ?_, ?_, ?_⟩
    · rw [c1]; simp
    · rw [k1]; exact c2.trans htype
    · rw [k2]; exact c3
    · intro h; exact absurd rfl h
  · obtain ⟨g1, g2, g3, g4⟩ := getStatusTail V UtilityDialogType.NPSIGNIN s
    simp only [DialogSyscall.exec, sceUtilityNpSigninGetStatus, htype, bne_self_eq_false,
      Bool.false_eq_true, if_false]
    exact ⟨by rw [g1]; simp, g3.trans htype, g4, fun _ _ => by rw [g2, g1]; rfl⟩
  · -- GameSharing
    obtain ⟨k1, k2, _, _, _⟩ := CleanupDialogThreads_frame V false s
    simp only [DialogSyscall.exec, sceUtilityGameSharingGetStatus, htype, bne_self_eq_false,
      Bool.false_eq_true, if_false]
    refine ⟨by simp, ?_, ?_, ?_⟩
    · rw [k1]; exact htype
    · exact k2
    · intro _ h; exact absurd rfl h

/-- C18: for every `GetStatus` syscall called with `currentDialogType` equal to
its type: (a) for the seven types that have a dialog object (all but
GAMESHARING) it returns exactly the value of the dialog's `GetStatus()`;
(b) the result does not depend on `oldStatus` — the same call from the state
with any other `oldStatus` returns the same result and leaves the same
`currentDialogType` and `currentDialogActive`; (c) for Savedata, Msg, Osk,
Netconf, Screenshot and NpSignin, `oldStatus` afterwards equals the returned
status. -/
theorem C18_get_status {α δ : Type} (V : Env α δ) (U : UtilityErrorCodes)
    (c : DialogSyscall) (s : UtilityState α δ) (x : Int)
    (hkind : c.kind = SyscallKind.GetStatus)
    (htype : s.currentDialogType = c.dialogType) :
    (c.dialogType ≠ UtilityDialogType.GAMESHARING →
      (DialogSyscall.exec V U c s).1
        = hleReturn (V.dialog c.dialogType DialogMethod.GetStatus s.outside).1) ∧
    ((DialogSyscall.exec V U c { s with oldStatus := x }).1 = (DialogSyscall.exec V U c s).1 ∧
     (DialogSyscall.exec V U c { s with oldStatus := x }).2.currentDialogType
       = (DialogSyscall.exec V U c s).2.currentDialogType ∧
     (DialogSyscall.exec V U c { s with oldStatus := x }).2.currentDialogActive
       = (DialogSyscall.exec V U c s).2.currentDialogActive) ∧
    (c.dialogType ≠ UtilityDialogType.GAMEDATAINSTALL →
      c.dialogType ≠ UtilityDialogType.GAMESHARING →
      (DialogSyscall.exec V U c s).2.oldStatus = (DialogSyscall.exec V U c s).1.value) := by
  obtain ⟨a1, a2, a3, a4⟩ := getStatus_accepted V U c s hkind htype
  obtain ⟨b1, b2, b3, _⟩ := getStatus_accepted V U c { s with oldStatus := x } hkind htype
  refine ⟨?_, ⟨?_, ?_, ?_⟩, a4⟩
  · intro hgs
    rw [a1]; simp [hgs]
  · rw [a1, b1]; rfl
  · rw [a2, b2]
  · rw [a3, b3]

/-- Witness for C18: `sceUtilityMsgDialogGetStatus` while the message dialog
is active; the toy dialog's status is 2. -/
theorem C18_get_status_witness :
    ((DialogSyscall.MsgDialogGetStatus).kind = SyscallKind.GetStatus ∧
     msgActiveState.currentDialogType = (DialogSyscall.MsgDialogGetStatus).dialogType ∧
     (DialogSyscall.MsgDialogGetStatus).dialogType ≠ UtilityDialogType.GAMESHARING) ∧
    (DialogSyscall.exec sampleEnv sampleUtilityErrorCodes DialogSyscall.MsgDialogGetStatus
        msgActiveState).1
      = hleReturn (sampleEnv.dialog (DialogSyscall.MsgDialogGetStatus).dialogType
          DialogMethod.GetStatus msgActiveState.outside).1 :=
  ⟨⟨rfl, rfl, by decide⟩,
   (C18_get_status sampleEnv sampleUtilityErrorCodes DialogSyscall.MsgDialogGetStatus
     msgActiveState 7 rfl rfl).1 (by decide)⟩

/-- C19: whenever `sceUtilityGamedataInstallInitStart` is not rejected (the
session is inactive, or active with type GAMEDATAINSTALL) it returns the result
of the dialog's `Init`; if that result is negative the session is inactive
afterwards, and if it is non-negative the session is active with
`currentDialogType = GAMEDATAINSTALL`. -/
theorem C19_gamedata_install_init {α δ : Type} (V : Env α δ) (U : UtilityErrorCodes)
    (paramsAddr : Nat) (s : UtilityState α δ)
    (hacc : ¬ (s.currentDialogActive = true ∧
      s.currentDialogType ≠ UtilityDialogType.GAMEDATAINSTALL)) :
    (sceUtilityGamedataInstallInitStart V U paramsAddr s).1
      = hleReturn (V.dialog UtilityDialogType.GAMEDATAINSTALL (DialogMethod.Init paramsAddr)
          (ActivateDialog V UtilityDialogType.GAMEDATAINSTALL s).outside).1 ∧
    ((sceUtilityGamedataInstallInitStart V U paramsAddr s).1.value < 0 →
      (sceUtilityGamedataInstallInitStart V U paramsAddr s).2.currentDialogActive = false) ∧
    (0 ≤ (sceUtilityGamedataInstallInitStart V U paramsAddr s).1.value →
      (sceUtilityGamedataInstallInitStart V U paramsAddr s).2.currentDialogActive = true ∧
      (sceUtilityGamedataInstallInitStart V U paramsAddr s).2.currentDialogType
        = UtilityDialogType.GAMEDATAINSTALL) := by
  have hg := initGuard_false s _ hacc
  obtain ⟨c1, _, _, _, _⟩ := callDialog_frame V UtilityDialogType.GAMEDATAINSTALL
    (DialogMethod.Init paramsAddr) (ActivateDialog V UtilityDialogType.GAMEDATAINSTALL s)
  obtain ⟨t1, t2⟩ := initTail_session V UtilityDialogType.GAMEDATAINSTALL
    (DialogMethod.Init paramsAddr) s hacc
  simp only [sceUtilityGamedataInstallInitStart, hg, Bool.false_eq_true, if_false, hleReturn]
  refine ⟨by rw [c1], ?_, ?_⟩
  · intro hneg
    simp only [hneg, if_true]
    exact (DeactivateDialog_frame V _).1
  · intro hnn
    have hn : ¬ (callDialog V UtilityDialogType.GAMEDATAINSTALL (DialogMethod.Init paramsAddr)
        (ActivateDialog V UtilityDialogType.GAMEDATAINSTALL s)).1 < 0 := not_lt.mpr hnn
    simp only [hn, if_false]
    exact ⟨t1, t2⟩

/-- Witness for C19: on the fresh sample state, `Init` fails (-1) for a null
parameter block and succeeds (0) otherwise. -/
theorem C19_gamedata_install_init_witness :
    (¬ (freshState.currentDialogActive = true ∧
        freshState.currentDialogType ≠ UtilityDialogType.GAMEDATAINSTALL) ∧
     (sceUtilityGamedataInstallInitStart sampleEnv sampleUtilityErrorCodes 0
        freshState).1.value < 0 ∧
     0 ≤ (sceUtilityGamedataInstallInitStart sampleEnv sampleUtilityErrorCodes 0x1000
        freshState).1.value) ∧
    ((sceUtilityGamedataInstallInitStart sampleEnv sampleUtilityErrorCodes 0
        freshState).2.currentDialogActive = false ∧
     (sceUtilityGamedataInstallInitStart sampleEnv sampleUtilityErrorCodes 0x1000
        freshState).2.currentDialogActive = true) :=
  ⟨⟨by decide, by decide, by decide⟩,
   ⟨(C19_gamedata_install_init sampleEnv sampleUtilityErrorCodes 0 freshState
      (by decide)).2.1 (by decide),
    ((C19_gamedata_install_init sampleEnv sampleUtilityErrorCodes 0x1000 freshState
      (by decide)).2.2 (by decide)).1⟩⟩

/-- C20: `sceUtilitySetSystemParamInt(PSP_SYSTEMPARAM_ID_INT_ADHOC_CHANNEL, v)`
returns 0 if and only if `v` is one of 0, 1, 6, 11 and returns
`SCE_ERROR_UTILITY_INVALID_ADHOC_CHANNEL` for every other `v`; for every id
other than ADHOC_CHANNEL and WLAN_POWERSAVE it returns
`SCE_ERROR_UTILITY_INVALID_SYSTEM_PARAM_ID`; and in every case the state
(the outside world with the stored configuration included) is returned
unchanged. -/
theorem C20_set_system_param_int {α δ : Type} (P : SystemParamIds) (U : UtilityErrorCodes)
    (id value : Nat) (s : UtilityState α δ) (hU : U.Valid) :
    (((sceUtilitySetSystemParamInt P U P.PSP_SYSTEMPARAM_ID_INT_ADHOC_CHANNEL value s).1.value
        = 0) ↔ (value = 0 ∨ value = 1 ∨ value = 6 ∨ value = 11)) ∧
    (¬ (value = 0 ∨ value = 1 ∨ value = 6 ∨ value = 11) →
      (sceUtilitySetSystemParamInt P U P.PSP_SYSTEMPARAM_ID_INT_ADHOC_CHANNEL value s).1
        = { value := intToU32 U.SCE_ERROR_UTILITY_INVALID_ADHOC_CHANNEL, delayUs := none }) ∧
    (id ≠ P.PSP_SYSTEMPARAM_ID_INT_ADHOC_CHANNEL →
      id ≠ P.PSP_SYSTEMPARAM_ID_INT_WLAN_POWERSAVE →
      (sceUtilitySetSystemParamInt P U id value s).1
        = { value := intToU32 U.SCE_ERROR_UTILITY_INVALID_SYSTEM_PARAM_ID,
            delayUs := none }) ∧
    (sceUtilitySetSystemParamInt P U id value s).2 = s := by
  obtain ⟨_, ⟨hc1, hc2⟩, _⟩ := hU
  have hnz := intToU32_ne_zero _ hc1 hc2
  refine ⟨?_, ?_, ?_, ?_⟩
  · by_cases hv : value = 0 ∨ value = 1 ∨ value = 6 ∨ value = 11
    · have hv2 : ¬ (value ≠ 0 ∧ value ≠ 1 ∧ value ≠ 6 ∧ value ≠ 11) := by omega
      simp [sceUtilitySetSystemParamInt, hv, hv2]
    · have hv2 : value ≠ 0 ∧ value ≠ 1 ∧ value ≠ 6 ∧ value ≠ 11 := by omega
      unfold sceUtilitySetSystemParamInt
      rw [if_pos rfl, if_pos hv2]
      constructor
      · intro h; exact absurd h hnz
      · intro h; exact absurd h hv
  · intro hv
    have hv2 : value ≠ 0 ∧ value ≠ 1 ∧ value ≠ 6 ∧ value ≠ 11 := by omega
    unfold sceUtilitySetSystemParamInt
    rw [if_pos rfl, if_pos hv2]
  · intro h1 h2
    simp [sceUtilitySetSystemParamInt, h1, h2]
  · unfold sceUtilitySetSystemParamInt
    split
    · split <;> rfl
    · split <;> rfl

/-- Witness for C20: channel 7 is rejected, id 9 is not settable. -/
theorem C20_set_system_param_int_witness :
    (sampleUtilityErrorCodes.Valid ∧
     ¬ ((7 : Nat) = 0 ∨ (7 : Nat) = 1 ∨ (7 : Nat) = 6 ∨ (7 : Nat) = 11) ∧
     (9 : Nat) ≠ sampleSystemParamIds.PSP_SYSTEMPARAM_ID_INT_ADHOC_CHANNEL ∧
     (9 : Nat) ≠ sampleSystemParamIds.PSP_SYSTEMPARAM_ID_INT_WLAN_POWERSAVE) ∧
    ((sceUtilitySetSystemParamInt sampleSystemParamIds sampleUtilityErrorCodes
        sampleSystemParamIds.PSP_SYSTEMPARAM_ID_INT_ADHOC_CHANNEL 7 freshState).1
      = { value := intToU32 sampleUtilityErrorCodes.SCE_ERROR_UTILITY_INVALID_ADHOC_CHANNEL,
          delayUs := none } ∧
     (sceUtilitySetSystemParamInt sampleSystemParamIds sampleUtilityErrorCodes 9 7
        freshState).1
      = { value := intToU32 sampleUtilityErrorCodes.SCE_ERROR_UTILITY_INVALID_SYSTEM_PARAM_ID,
          delayUs := none }) :=
  ⟨⟨by decide, by decide, by decide, by decide⟩,
   ⟨(C20_set_system_param_int sampleSystemParamIds sampleUtilityErrorCodes 9 7 freshState
      (by decide)).2.1 (by decide),
    (C20_set_system_param_int sampleSystemParamIds sampleUtilityErrorCodes 9 7 freshState
      (by decide)).2.2.1 (by decide) (by decide)⟩⟩

/-! ## Theorems on the helper task -/

theorem unlockCalls_append (l1 l2 : List SysEvent) :
    unlockCalls (l1 ++ l2) = unlockCalls l1 ++ unlockCalls l2 := by
  induction l1 with
  | nil => rfl
  | cons e rest ih => cases e <;> simp [unlockCalls, ih]

theorem eatenMicros_append (l1 l2 : List SysEvent) :
    eatenMicros (l1 ++ l2) = eatenMicros l1 + eatenMicros l2 := by
  induction l1 with
  | nil => simp [eatenMicros]
  | cons e rest ih => cases e <;> simp [eatenMicros, ih, add_assoc]

theorem rescheduleCount_append (l1 l2 : List SysEvent) :
    rescheduleCount (l1 ++ l2) = rescheduleCount l1 + rescheduleCount l2 := by
  induction l1 with
  | nil => simp [rescheduleCount]
  | cons e rest ih => cases e <;> simp [rescheduleCount, ih, add_assoc]

theorem CleanupDialogThreads_none {α δ : Type} (V : Env α δ) (force : Bool)
    (s : UtilityState α δ) (h : s.accessThread = none) :
    CleanupDialogThreads V force s = s := by
  simp [CleanupDialogThreads, h]

theorem CleanupDialogThreads_true_none {α δ : Type} (V : Env α δ) (s : UtilityState α δ) :
    (CleanupDialogThreads V true s).accessThread = none := by
  unfold CleanupDialogThreads
  cases h : s.accessThread with
  | none => simpa using h
  | some thread =>
    simp only
    split
    · rfl
    · simp

/-- C27: `CleanupDialogThreads` (a) called with no helper task returns the
state as it was, for either value of `force`; (b) with `force = true` always
leaves no helper task; (c) called twice in a row leaves the state the first
call left; (d) with `force = false` and a task present, discards the task if
and only if the task reports `Stopped()` or `accessThreadFinished` is set, and
otherwise returns the state as it was; (e) calls `KernelVolatileMemUnlock`
(once, with argument 0) exactly on the path that force-terminates a task that
is neither stopped nor finished. -/
theorem C27_cleanup_dialog_threads {α δ : Type} (V : Env α δ) (force : Bool)
    (s : UtilityState α δ) :
    (s.accessThread = none → CleanupDialogThreads V force s = s) ∧
    (CleanupDialogThreads V true s).accessThread = none ∧
    CleanupDialogThreads V force (CleanupDialogThreads V force s)
      = CleanupDialogThreads V force s ∧
    (∀ thread, s.accessThread = some thread →
      (((CleanupDialogThreads V false s).accessThread = none ↔
          (V.Stopped s.world thread = true ∨ s.accessThreadFinished = true)) ∧
       (¬ (V.Stopped s.world thread = true ∨ s.accessThreadFinished = true) →
          CleanupDialogThreads V false s = s))) ∧
    unlockCalls (CleanupDialogThreads V force s).log
      = unlockCalls s.log ++
          (match s.accessThread with
           | some thread =>
             if force = true ∧ V.Stopped s.world thread = false ∧ s.accessThreadFinished = false
             then [0] else []
           | none => []) := by
  refine ⟨CleanupDialogThreads_none V force s, CleanupDialogThreads_true_none V s, ?_, ?_, ?_⟩
  · -- idempotence
    cases hth : s.accessThread with
    | none => rw [CleanupDialogThreads_none V force s hth, CleanupDialogThreads_none V force s hth]
    | some thread =>
      by_cases hdone : (V.Stopped s.world thread || s.accessThreadFinished) = true
      · apply CleanupDialogThreads_none
        simp [CleanupDialogThreads, hth, hdone]
      · cases force
        · have hsame : CleanupDialogThreads V false s = s := by
            simp [CleanupDialogThreads, hth, hdone]
          rw [hsame, hsame]
        · apply CleanupDialogThreads_none
          simp [CleanupDialogThreads, hth, hdone]
  · intro thread hth
    by_cases hdone : (V.Stopped s.world thread || s.accessThreadFinished) = true
    · have hor : V.Stopped s.world thread = true ∨ s.accessThreadFinished = true := by
        simpa using hdone
      refine ⟨?_, fun hn => absurd hor hn⟩
      simp [CleanupDialogThreads, hth, hdone, hor]
    · have hor : ¬ (V.Stopped s.world thread = true ∨ s.accessThreadFinished = true) := by
        simpa using hdone
      have hsame : CleanupDialogThreads V false s = s := by
        simp [CleanupDialogThreads, hth, hdone]
      refine ⟨?_, fun _ => hsame⟩
      rw [hsame, hth]
      simp [hor]
  · cases hth : s.accessThread with
    | none => simp [CleanupDialogThreads, hth]
    | some thread =>
      cases hst : V.Stopped s.world thread <;> cases hfin : s.accessThreadFinished <;>
        cases force <;>
        simp [CleanupDialogThreads, hth, hst, hfin, unlockCalls_append, unlockCalls]

/-- Witness for C27: the sample state with an unfinished helper thread; the
non-forced call keeps it. -/
theorem C27_cleanup_dialog_threads_witness :
    (msgActiveState.accessThread = some sampleThread ∧
     ¬ (sampleEnv.Stopped msgActiveState.world sampleThread = true ∨
        msgActiveState.accessThreadFinished = true)) ∧
    CleanupDialogThreads sampleEnv false msgActiveState = msgActiveState :=
  ⟨⟨rfl, by decide⟩,
   ((C27_cleanup_dialog_threads sampleEnv false msgActiveState).2.2.2.1 sampleThread rfl).2
     (by decide)⟩

theorem CleanupDialogThreads_log {α δ : Type} (V : Env α δ) (force : Bool)
    (s : UtilityState α δ) :
    ∃ pre, (CleanupDialogThreads V force s).log = s.log ++ pre ∧
      (∀ old, s.accessThread = some old →
        (CleanupDialogThreads V force s).accessThread = none → SysEvent.Delete old ∈ pre) := by
  unfold CleanupDialogThreads
  cases hth : s.accessThread with
  | none => exact ⟨[], by simp, fun old h => by simp at h⟩
  | some thread =>
    simp only
    split
    · exact ⟨[SysEvent.Delete thread], rfl, fun old h _ => by
        have : thread = old := by simpa using h
        simp [this]⟩
    · split
      · exact ⟨[SysEvent.Terminate thread, SysEvent.Delete thread,
          SysEvent.KernelVolatileMemUnlock 0], rfl, fun old h _ => by
          have : thread = old := by simpa using h
          simp [this]⟩
      · exact ⟨[], by simp, fun old _ h => by simp [hth] at h⟩

/-- C28: whatever the state before (no helper task, a finished one or an
unfinished one), after `UtilityDialogInitialize` or `UtilityDialogShutdown`
the variable `accessThread` holds the newly created thread (named
"ScePafJob", with the function's program, the given priority, stack size 0x200,
started with arguments `delayUs / 4` and 0), `accessThreadFinished` is false,
and a previous thread was deleted before the new one was created: the log
gains the events of the cleanup, with `delete` of the old thread among them,
and then the construction and the start of the new thread. -/
theorem C28_single_helper_task {α δ : Type} (V : Env α δ) (type : UtilityDialogType)
    (delayUs priority : Int) (s : UtilityState α δ) :
    ((UtilityDialogInitialize V type delayUs priority s).accessThread
        = some (pafJobThread (initializeInsts (V.dialogCode type)) priority
            (some (Int.tdiv delayUs 4, 0))) ∧
     (UtilityDialogInitialize V type delayUs priority s).accessThreadFinished = false ∧
     ∃ pre, (UtilityDialogInitialize V type delayUs priority s).log
        = s.log ++ pre ++
          [SysEvent.NewThread (pafJobThread (initializeInsts (V.dialogCode type)) priority none),
           SysEvent.Start (pafJobThread (initializeInsts (V.dialogCode type)) priority none)
             (Int.tdiv delayUs 4) 0] ∧
        (∀ old, s.accessThread = some old → SysEvent.Delete old ∈ pre)) ∧
    ((UtilityDialogShutdown V type delayUs priority s).accessThread
        = some (pafJobThread (shutdownInsts (V.dialogCode type)) priority
            (some (Int.tdiv delayUs 4, 0))) ∧
     (UtilityDialogShutdown V type delayUs priority s).accessThreadFinished = false ∧
     ∃ pre post, (UtilityDialogShutdown V type delayUs priority s).log
        = s.log ++ pre ++
          [SysEvent.DisableInterrupts,
           SysEvent.NewThread (pafJobThread (shutdownInsts (V.dialogCode type)) priority none),
           SysEvent.Start (pafJobThread (shutdownInsts (V.dialogCode type)) priority none)
             (Int.tdiv delayUs 4) 0] ++ post ∧
        (∀ old, s.accessThread = some old → SysEvent.Delete old ∈ pre)) := by
  obtain ⟨pre, hpre, hdel⟩ := CleanupDialogThreads_log V true s
  have hnone := CleanupDialogThreads_true_none V s
  constructor
  · refine ⟨?_, ?_, pre, ?_, fun old h => hdel old h hnone⟩
    · simp [UtilityDialogInitialize, spawnAccessThread, pafJobThread]
    · simp [UtilityDialogInitialize, spawnAccessThread]
    · simp [UtilityDialogInitialize, spawnAccessThread, pafJobThread, hpre]
  · by_cases hint : V.InterruptsEnabled (CleanupDialogThreads V true s).world = true
    · refine ⟨?_, ?_, pre, [SysEvent.EnableInterrupts], ?_, fun old h => hdel old h hnone⟩
      · simp [UtilityDialogShutdown, spawnAccessThread, pafJobThread, hint]
      · simp [UtilityDialogShutdown, spawnAccessThread, hint]
      · simp [UtilityDialogShutdown, spawnAccessThread, pafJobThread, hint, hpre]
    · refine ⟨?_, ?_, pre, [], ?_, fun old h => hdel old h hnone⟩
      · simp [UtilityDialogShutdown, spawnAccessThread, pafJobThread, hint]
      · simp [UtilityDialogShutdown, spawnAccessThread, hint]
      · simp [UtilityDialogShutdown, spawnAccessThread, pafJobThread, hint, hpre]

theorem C28_single_helper_task_witness :
    (UtilityDialogInitialize sampleEnv UtilityDialogType.MSG 1000 0x20
        msgActiveState).accessThreadFinished = false :=
  (C28_single_helper_task sampleEnv UtilityDialogType.MSG 1000 0x20 msgActiveState).1.2.1

/-- C29: `UtilityWorkUs(us)` takes the `hleDelayResult` branch if and only if
`us > 1000`; then it eats exactly 1000 microseconds, requests no reschedule,
and returns 0 delayed by `us - 1000`; for `us <= 1000` it eats exactly `us`
microseconds, requests one reschedule and returns 0 with no delay.  In both
cases the time eaten plus the delay is `us`. -/
theorem C29_utility_work_us {α δ : Type} (us : Int) (s : UtilityState α δ) :
    (((UtilityWorkUs us s).1.delayUs).isSome = true ↔ us > 1000) ∧
    (us > 1000 →
      (UtilityWorkUs us s).1 = { value := 0, delayUs := some (us - 1000).toNat } ∧
      (((us - 1000).toNat : Nat) : Int) = us - 1000 ∧
      eatenMicros (UtilityWorkUs us s).2.log = eatenMicros s.log + 1000 ∧
      rescheduleCount (UtilityWorkUs us s).2.log = rescheduleCount s.log) ∧
    (us ≤ 1000 →
      (UtilityWorkUs us s).1 = { value := 0, delayUs := none } ∧
      eatenMicros (UtilityWorkUs us s).2.log = eatenMicros s.log + us ∧
      rescheduleCount (UtilityWorkUs us s).2.log = rescheduleCount s.log + 1) ∧
    (eatenMicros (UtilityWorkUs us s).2.log - eatenMicros s.log)
      + (((UtilityWorkUs us s).1.delayUs.getD 0 : Nat) : Int) = us := by
  by_cases h : us > 1000
  · have hnat : (((us - 1000).toNat : Nat) : Int) = us - 1000 := by omega
    refine ⟨by simp [UtilityWorkUs, h], fun _ => ⟨?_, hnat, ?_, ?_⟩, fun h2 => by omega, ?_⟩
    · simp [UtilityWorkUs, h]
    · simp [UtilityWorkUs, h, eatenMicros_append, eatenMicros]
    · simp [UtilityWorkUs, h, rescheduleCount_append, rescheduleCount]
    · simp only [UtilityWorkUs, h, if_true, eatenMicros_append, eatenMicros, Option.getD_some]
      omega
  · refine ⟨by simp [UtilityWorkUs, h, hleReturn], fun h2 => absurd h2 h, fun _ => ⟨?_, ?_, ?_⟩,
      ?_⟩
    · simp [UtilityWorkUs, h, hleReturn]
    · simp [UtilityWorkUs, h, eatenMicros_append, eatenMicros]
    · simp [UtilityWorkUs, h, rescheduleCount_append, rescheduleCount]
    · simp [UtilityWorkUs, h, hleReturn, eatenMicros_append, eatenMicros]

/-- Witness for C29: 2500 microseconds take the delayed branch, 400 do not. -/
theorem C29_utility_work_us_witness :
    ((2500 : Int) > 1000 ∧ (400 : Int) ≤ 1000) ∧
    ((UtilityWorkUs 2500 freshState).1 = { value := 0, delayUs := some 1500 } ∧
     (UtilityWorkUs 400 freshState).1 = { value := 0, delayUs := none }) :=
  ⟨⟨by decide, by decide⟩,
   ⟨((C29_utility_work_us 2500 freshState).2.1 (by decide)).1,
    ((C29_utility_work_us 400 freshState).2.2.1 (by decide)).1⟩⟩

/-- C30: for every `int` argument `type`, `UtilityInitDialog(type)` and
`UtilityFinishDialog(type)` set `accessThreadFinished` to true (and the state
string) before anything else; when the argument maps to no dialog object (NONE,
GAMESHARING, or a value outside the enumeration) they return 0 with that state
and no dialog method called; otherwise they call `FinishInit()`, respectively
`FinishShutdown()`, of the dialog object of that type on the state with the flag
set, and return its result. -/
theorem C30_completion_callbacks {α δ : Type} (V : Env α δ) (type : Int)
    (s : UtilityState α δ) :
    (CurrentDialog (castDialogType V type) = none →
      UtilityInitDialog V type s
        = (hleReturn 0, { s with accessThreadFinished := true,
                                 accessThreadState := "init finished" }) ∧
      UtilityFinishDialog V type s
        = (hleReturn 0, { s with accessThreadFinished := true,
                                 accessThreadState := "shutdown finished" })) ∧
    (∀ d, CurrentDialog (castDialogType V type) = some d →
      (castDialogType V type = some d ∧
       d ≠ UtilityDialogType.NONE ∧ d ≠ UtilityDialogType.GAMESHARING) ∧
      ((UtilityInitDialog V type s).1
          = hleReturn (V.dialog d DialogMethod.FinishInit
              { s with accessThreadFinished := true,
                       accessThreadState := "init finished" }.outside).1 ∧
       (UtilityInitDialog V type s).2
          = (callDialog V d DialogMethod.FinishInit
              { s with accessThreadFinished := true,
                       accessThreadState := "init finished" }).2) ∧
      ((UtilityFinishDialog V type s).1
          = hleReturn (V.dialog d DialogMethod.FinishShutdown
              { s with accessThreadFinished := true,
                       accessThreadState := "shutdown finished" }.outside).1 ∧
       (UtilityFinishDialog V type s).2
          = (callDialog V d DialogMethod.FinishShutdown
              { s with accessThreadFinished := true,
                       accessThreadState := "shutdown finished" }).2)) ∧
    (CurrentDialog (castDialogType V type) = none ↔
      (castDialogType V type = none ∨ castDialogType V type = some UtilityDialogType.NONE ∨
       castDialogType V type = some UtilityDialogType.GAMESHARING)) := by
  refine ⟨?_, ?_, ?_⟩
  · intro h
    simp [UtilityInitDialog, UtilityFinishDialog, h]
  · intro d h
    refine ⟨?_, ?_, ?_⟩
    · cases hc : castDialogType V type with
      | none => simp [hc, CurrentDialog] at h
      | some t => cases t <;> simp [hc, CurrentDialog] at h <;> subst h <;> simp
    · simp [UtilityInitDialog, h, callDialog]
    · simp [UtilityFinishDialog, h, callDialog]
  · cases hc : castDialogType V type with
    | none => simp [CurrentDialog]
    | some t => cases t <;> simp [CurrentDialog]

/-- Witness for C30: in the sample numbering 6 is GAMESHARING (no dialog
object) and 2 is MSG. -/
theorem C30_completion_callbacks_witness :
    (CurrentDialog (castDialogType sampleEnv 6) = none ∧
     CurrentDialog (castDialogType sampleEnv 2) = some UtilityDialogType.MSG) ∧
    ((UtilityInitDialog sampleEnv 6 msgActiveState).1 = hleReturn 0 ∧
     (UtilityInitDialog sampleEnv 6 msgActiveState).2.accessThreadFinished = true ∧
     (UtilityInitDialog sampleEnv 2 msgActiveState).1
        = hleReturn (sampleEnv.dialog UtilityDialogType.MSG DialogMethod.FinishInit
            { msgActiveState with accessThreadFinished := true,
                                  accessThreadState := "init finished" }.outside).1) :=
  ⟨⟨by decide, by decide⟩,
   ⟨by rw [((C30_completion_callbacks sampleEnv 6 msgActiveState).1 (by decide)).1],
    by rw [((C30_completion_callbacks sampleEnv 6 msgActiveState).1 (by decide)).1],
    (((C30_completion_callbacks sampleEnv 2 msgActiveState).2.1 UtilityDialogType.MSG
      (by decide)).2.1).1⟩⟩

/-! ## Lemmas on guest memory -/

theorem writeBytes_outside (mem : GuestMemory) (addr : Nat) (data : List Nat) (a : Nat)
    (h : a < addr ∨ addr + data.length ≤ a) : writeBytes mem addr data a = mem a := by
  unfold writeBytes
  have : ¬ (addr ≤ a ∧ a < addr + data.length) := by omega
  simp [this]

theorem writeBytes_inside (mem : GuestMemory) (addr : Nat) (data : List Nat) (i : Nat)
    (h : i < data.length) : writeBytes mem addr data (addr + i) = data.getD i 0 := by
  unfold writeBytes
  have h1 : addr ≤ addr + i ∧ addr + i < addr + data.length := by omega
  simp [h1]

theorem readArray_length (src : List Nat) (len : Nat) : (readArray src len).length = len := by
  simp [readArray]

theorem littleEndian_length (n value : Nat) : (littleEndian n value).length = n := by
  induction n generalizing value with
  | zero => rfl
  | succ k ih => simp [littleEndian, ih]

theorem cString_length_le (src : List Nat) : (cString src).length ≤ src.length := by
  unfold cString
  exact (List.takeWhile_sublist _).length_le

theorem cString_of_no_zero (src : List Nat) (h : 0 ∉ src) : cString src = src := by
  unfold cString
  rw [List.takeWhile_eq_self_iff]
  intro b hb
  have : b ≠ 0 := fun e => h (e ▸ hb)
  simpa using this

theorem strncpyBytes_length (src : List Nat) (n : Nat) : (strncpyBytes src n).length = n := by
  simp [strncpyBytes]

theorem strncpyBytes_eq (src : List Nat) (n : Nat) (h : (cString src).length ≤ n) :
    strncpyBytes src n = cString src ++ List.replicate (n - (cString src).length) 0 := by
  unfold strncpyBytes
  rw [List.take_append_eq_append_take, List.take_of_length_le h, List.take_replicate]
  congr 2
  omega

theorem strncpyBytes_last (src : List Nat) (n : Nat) (h : (cString src).length < n) :
    (strncpyBytes src n).getD (n - 1) 0 = 0 := by
  rw [strncpyBytes_eq src n (Nat.le_of_lt h)]
  rw [List.getD_eq_getElem?_getD, List.getElem?_append_right (by omega)]
  rw [List.getElem?_replicate]
  split <;> rfl

theorem u32ToInt_small (n : Nat) (h : n < 2 ^ 31) : u32ToInt n = (n : Int) := by
  unfold u32ToInt
  have h1 : n % 2 ^ 32 = n := Nat.mod_eq_of_lt (by omega)
  rw [h1, if_pos h]

/-! ## Theorems on the parameter syscalls -/

/-- C21: for every nickname (of fewer than 2^31 bytes), destination address
and `destSize` with `Memory::IsValidRange(destAddr, destSize)`,
`sceUtilityGetSystemParamString(PSP_SYSTEMPARAM_ID_STRING_NICKNAME, destAddr,
destSize)` returns `SCE_ERROR_UTILITY_STRING_TOO_LONG` with guest memory
unchanged if and only if `destSize <= length(nickname)`; otherwise it returns 0
and writes exactly `destSize` bytes at `destAddr`: the bytes of the nickname's C
string (the whole nickname when it holds no zero byte) followed by zero bytes,
the last byte written being zero, and no byte outside
`[destAddr, destAddr + destSize)` is changed. -/
theorem C21_get_system_param_string (M : MemoryMap) (K : SystemParamConsts)
    (U : UtilityErrorCodes) (E : ParamErrorCodes) (cfg : Config) (destAddr : Nat)
    (destSize : Int) (mem : GuestMemory)
    (hvalid : M.IsValidRange destAddr (intToU32 destSize) = true)
    (hlen : cfg.sNickName.length < 2 ^ 31) (hE : E.Valid) :
    (((sceUtilityGetSystemParamString M K U E cfg K.PSP_SYSTEMPARAM_ID_STRING_NICKNAME destAddr
          destSize mem).1.value = intToU32 E.SCE_ERROR_UTILITY_STRING_TOO_LONG ∧
      (sceUtilityGetSystemParamString M K U E cfg K.PSP_SYSTEMPARAM_ID_STRING_NICKNAME destAddr
          destSize mem).2 = mem) ↔ destSize ≤ (cfg.sNickName.length : Int)) ∧
    ((cfg.sNickName.length : Int) < destSize →
      (sceUtilityGetSystemParamString M K U E cfg K.PSP_SYSTEMPARAM_ID_STRING_NICKNAME destAddr
          destSize mem).1 = { value := 0, delayUs := none } ∧
      (sceUtilityGetSystemParamString M K U E cfg K.PSP_SYSTEMPARAM_ID_STRING_NICKNAME destAddr
          destSize mem).2
        = writeBytes mem destAddr (strncpyBytes cfg.sNickName destSize.toNat) ∧
      (strncpyBytes cfg.sNickName destSize.toNat).length = destSize.toNat ∧
      strncpyBytes cfg.sNickName destSize.toNat
        = cString cfg.sNickName ++
            List.replicate (destSize.toNat - (cString cfg.sNickName).length) 0 ∧
      (0 ∉ cfg.sNickName → cString cfg.sNickName = cfg.sNickName) ∧
      (∀ i, i < destSize.toNat →
        (sceUtilityGetSystemParamString M K U E cfg K.PSP_SYSTEMPARAM_ID_STRING_NICKNAME
            destAddr destSize mem).2 (destAddr + i)
          = (strncpyBytes cfg.sNickName destSize.toNat).getD i 0) ∧
      (sceUtilityGetSystemParamString M K U E cfg K.PSP_SYSTEMPARAM_ID_STRING_NICKNAME destAddr
          destSize mem).2 (destAddr + (destSize.toNat - 1)) = 0 ∧
      (∀ a, a < destAddr ∨ destAddr + destSize.toNat ≤ a →
        (sceUtilityGetSystemParamString M K U E cfg K.PSP_SYSTEMPARAM_ID_STRING_NICKNAME
            destAddr destSize mem).2 a = mem a)) := by
  obtain ⟨⟨he1, he2⟩, _, _⟩ := hE
  have hnz := intToU32_ne_zero _ he1 he2
  have hlenInt : lengthAsInt cfg.sNickName = (cfg.sNickName.length : Int) :=
    u32ToInt_small _ hlen
  have hclen := cString_length_le cfg.sNickName
  by_cases hle : destSize ≤ (cfg.sNickName.length : Int)
  · have hr : sceUtilityGetSystemParamString M K U E cfg K.PSP_SYSTEMPARAM_ID_STRING_NICKNAME
        destAddr destSize mem
        = ({ value := intToU32 E.SCE_ERROR_UTILITY_STRING_TOO_LONG, delayUs := none }, mem) := by
      simp [sceUtilityGetSystemParamString, hvalid, hlenInt, hle]
    refine ⟨?_, fun h => absurd hle (not_le.mpr h)⟩
    rw [hr]
    simp [hle]
  · have hlt : (cfg.sNickName.length : Int) < destSize := not_le.mp hle
    have hr : sceUtilityGetSystemParamString M K U E cfg K.PSP_SYSTEMPARAM_ID_STRING_NICKNAME
        destAddr destSize mem
        = ({ value := 0, delayUs := none },
           writeBytes mem destAddr (strncpyBytes cfg.sNickName destSize.toNat)) := by
      simp [sceUtilityGetSystemParamString, hvalid, hlenInt, hle]
    have hcn : (cString cfg.sNickName).length < destSize.toNat := by omega
    refine ⟨?_, fun _ => ⟨by rw [hr], by rw [hr], strncpyBytes_length _ _,
      strncpyBytes_eq _ _ (Nat.le_of_lt hcn), cString_of_no_zero _, ?_, ?_, ?_⟩⟩
    · rw [hr]
      constructor
      · intro h
        exact absurd h.1.symm hnz
      · intro h
        exact absurd h hle
    · intro i hi
      rw [hr]
      exact writeBytes_inside _ _ _ _ (by rw [strncpyBytes_length]; exact hi)
    · rw [hr]
      show writeBytes mem destAddr (strncpyBytes cfg.sNickName destSize.toNat)
        (destAddr + (destSize.toNat - 1)) = 0
      rw [writeBytes_inside _ _ _ _ (by rw [strncpyBytes_length]; omega)]
      exact strncpyBytes_last _ _ hcn
    · intro a ha
      rw [hr]
      exact writeBytes_outside _ _ _ _ (by rw [strncpyBytes_length]; exact ha)

/-- Witness for C21: the nickname "Alice" copied into a buffer of 8 bytes at
0x08800000. -/
theorem C21_get_system_param_string_witness :
    (sampleMemoryMap.IsValidRange 0x08800000 (intToU32 8) = true ∧
     sampleConfig.sNickName.length < 2 ^ 31 ∧ sampleParamErrorCodes.Valid ∧
     (sampleConfig.sNickName.length : Int) < 8) ∧
    (sceUtilityGetSystemParamString sampleMemoryMap sampleSystemParamConsts
        sampleUtilityErrorCodes sampleParamErrorCodes sampleConfig
        sampleSystemParamConsts.PSP_SYSTEMPARAM_ID_STRING_NICKNAME 0x08800000 8
        sampleMemory).1 = { value := 0, delayUs := none } :=
  ⟨⟨by decide, by decide, by decide, by decide⟩,
   ((C21_get_system_param_string sampleMemoryMap sampleSystemParamConsts
      sampleUtilityErrorCodes sampleParamErrorCodes sampleConfig 0x08800000 8 sampleMemory
      (by decide) (by decide) (by decide)).2 (by decide)).1⟩

/-- C22: for every `int` id, `sceUtilityCheckNetParam(id)` returns 0 if and
only if `0 <= id <= min(24, PSP_NETPARAM_MAX_NUMBER_DUMMY_ENTRIES)`, and
returns `SCE_ERROR_NETPARAM_BAD_NETCONF` otherwise. -/
theorem C22_check_net_param (N : NetParamConsts) (E : ParamErrorCodes) (id : Int)
    (hE : E.Valid) :
    (sceUtilityCheckNetParam N E id = 0 ↔
      (0 ≤ id ∧ id ≤ min 24 N.PSP_NETPARAM_MAX_NUMBER_DUMMY_ENTRIES)) ∧
    (¬ (0 ≤ id ∧ id ≤ min 24 N.PSP_NETPARAM_MAX_NUMBER_DUMMY_ENTRIES) →
      sceUtilityCheckNetParam N E id = E.SCE_ERROR_NETPARAM_BAD_NETCONF) := by
  obtain ⟨_, ⟨_, he2⟩, _⟩ := hE
  have hne : E.SCE_ERROR_NETPARAM_BAD_NETCONF ≠ 0 := by omega
  by_cases hmax : id > N.PSP_NETPARAM_MAX_NUMBER_DUMMY_ENTRIES
  · have hn : ¬ (0 ≤ id ∧ id ≤ min 24 N.PSP_NETPARAM_MAX_NUMBER_DUMMY_ENTRIES) := by
      intro h
      have := le_trans h.2 (min_le_right _ _)
      omega
    simp [sceUtilityCheckNetParam, hmax, hn, hne]
  · by_cases hr : id ≥ 0 ∧ id ≤ 24
    · have hy : 0 ≤ id ∧ id ≤ min 24 N.PSP_NETPARAM_MAX_NUMBER_DUMMY_ENTRIES :=
        ⟨hr.1, le_min hr.2 (not_lt.mp hmax)⟩
      simp [sceUtilityCheckNetParam, hmax, hr, hy]
    · have hn : ¬ (0 ≤ id ∧ id ≤ min 24 N.PSP_NETPARAM_MAX_NUMBER_DUMMY_ENTRIES) := by
        intro h
        exact hr ⟨h.1, le_trans h.2 (min_le_left _ _)⟩
      have hd : decide (id ≥ 0 ∧ id ≤ 24) = false := decide_eq_false hr
      have hval : sceUtilityCheckNetParam N E id = E.SCE_ERROR_NETPARAM_BAD_NETCONF := by
        unfold sceUtilityCheckNetParam
        rw [hd]
        simp [hmax]
      rw [hval]
      exact ⟨⟨fun h => absurd h hne, fun h => absurd h hn⟩, fun _ => rfl⟩

/-- Witness for C22: with one dummy entry, id 2 is rejected. -/
theorem C22_check_net_param_witness :
    (sampleParamErrorCodes.Valid ∧
     ¬ ((0 : Int) ≤ 2 ∧
        (2 : Int) ≤ min 24 sampleNetParamConsts.PSP_NETPARAM_MAX_NUMBER_DUMMY_ENTRIES)) ∧
    sceUtilityCheckNetParam sampleNetParamConsts sampleParamErrorCodes 2
      = sampleParamErrorCodes.SCE_ERROR_NETPARAM_BAD_NETCONF :=
  ⟨⟨by decide, by decide⟩,
   (C22_check_net_param sampleNetParamConsts sampleParamErrorCodes 2 (by decide)).2
     (by decide)⟩

theorem netParamCopy_spec (M : MemoryMap) (mem : GuestMemory) (dataAddr : Nat)
    (src : List Nat) (len : Nat) :
    (M.IsValidRange dataAddr len = false → netParamCopy M mem dataAddr src len = (-1, mem)) ∧
    (M.IsValidRange dataAddr len = true →
      (netParamCopy M mem dataAddr src len).1 = 0 ∧
      ∀ a, a < dataAddr ∨ dataAddr + len ≤ a →
        (netParamCopy M mem dataAddr src len).2 a = mem a) := by
  constructor
  · intro h
    simp [netParamCopy, h]
  · intro h
    refine ⟨by simp [netParamCopy, h], fun a ha => ?_⟩
    simp only [netParamCopy, h, Bool.not_true, Bool.false_eq_true, if_false, MemcpyUnchecked]
    exact writeBytes_outside _ _ _ _ (by rw [readArray_length]; exact ha)

theorem netParamU32_spec (M : MemoryMap) (mem : GuestMemory) (dataAddr value : Nat) :
    (M.IsValidRange dataAddr 4 = false → netParamU32 M mem dataAddr value = (-1, mem)) ∧
    (M.IsValidRange dataAddr 4 = true →
      (netParamU32 M mem dataAddr value).1 = 0 ∧
      ∀ a, a < dataAddr ∨ dataAddr + 4 ≤ a → (netParamU32 M mem dataAddr value).2 a = mem a) := by
  constructor
  · intro h
    simp [netParamU32, h]
  · intro h
    refine ⟨by simp [netParamU32, h], fun a ha => ?_⟩
    simp only [netParamU32, h, Bool.not_true, Bool.false_eq_true, if_false, WriteUnchecked_U32]
    exact writeBytes_outside _ _ _ _ (by rw [littleEndian_length]; exact ha)

theorem netParamU16_spec (M : MemoryMap) (mem : GuestMemory) (dataAddr value : Nat) :
    (M.IsValidRange dataAddr 2 = false → netParamU16 M mem dataAddr value = (-1, mem)) ∧
    (M.IsValidRange dataAddr 2 = true →
      (netParamU16 M mem dataAddr value).1 = 0 ∧
      ∀ a, a < dataAddr ∨ dataAddr + 2 ≤ a → (netParamU16 M mem dataAddr value).2 a = mem a) := by
  constructor
  · intro h
    simp [netParamU16, h]
  · intro h
    refine ⟨by simp [netParamU16, h], fun a ha => ?_⟩
    simp only [netParamU16, h, Bool.not_true, Bool.false_eq_true, if_false, WriteUnchecked_U16]
    exact writeBytes_outside _ _ _ _ (by rw [littleEndian_length]; exact ha)

/-- C23: `sceUtilityGetNetParam(id, param, dataAddr)` returns
`SCE_ERROR_NETPARAM_BAD_NETCONF` for every id outside 0..24, whatever `param`
and `dataAddr` are, and `SCE_ERROR_NETPARAM_BAD_PARAM` for an id in 0..24 and a
`param` that is none of the supported kinds, with guest memory unchanged in
both cases.  For a supported kind, with `L` the field length the specification
gives for it, it returns -1 with guest memory unchanged when
`Memory::IsValidRange(dataAddr, L)` fails, and otherwise returns 0 and changes
no byte outside `[dataAddr, dataAddr + L)`. -/
theorem C23_get_net_param (M : MemoryMap) (N : NetParamConsts) (E : ParamErrorCodes)
    (info : NetApctlInfo) (netParamLatestId : Int) (id param : Int) (dataAddr : Nat)
    (mem : GuestMemory) :
    ((id < 0 ∨ 24 < id) →
      sceUtilityGetNetParam M N E info netParamLatestId id param dataAddr mem
        = (E.SCE_ERROR_NETPARAM_BAD_NETCONF, mem)) ∧
    (0 ≤ id → id ≤ 24 → N.kindOf param = none →
      sceUtilityGetNetParam M N E info netParamLatestId id param dataAddr mem
        = (E.SCE_ERROR_NETPARAM_BAD_PARAM, mem)) ∧
    (∀ k, 0 ≤ id → id ≤ 24 → N.kindOf param = some k →
      (M.IsValidRange dataAddr (specFieldLength N k) = false →
        sceUtilityGetNetParam M N E info netParamLatestId id param dataAddr mem = (-1, mem)) ∧
      (M.IsValidRange dataAddr (specFieldLength N k) = true →
        (sceUtilityGetNetParam M N E info netParamLatestId id param dataAddr mem).1 = 0 ∧
        ∀ a, a < dataAddr ∨ dataAddr + specFieldLength N k ≤ a →
          (sceUtilityGetNetParam M N E info netParamLatestId id param dataAddr mem).2 a
            = mem a)) := by
  refine ⟨?_, ?_, ?_⟩
  · intro h
    have h2 : id < 0 ∨ id > 24 := h
    simp [sceUtilityGetNetParam, h2]
  · intro h0 h24 hk
    have h2 : ¬ (id < 0 ∨ id > 24) := by omega
    simp [sceUtilityGetNetParam, h2, hk]
  · intro k h0 h24 hk
    have h2 : ¬ (id < 0 ∨ id > 24) := by omega
    cases k <;>
      simp only [sceUtilityGetNetParam, h2, if_false, hk, specFieldLength] <;>
      first
        | exact netParamCopy_spec M mem dataAddr _ _
        | exact netParamU32_spec M mem dataAddr _
        | exact netParamU16_spec M mem dataAddr _

/-- Witness for C23: in the sample numbering, id 30 is out of range, param 99
is unsupported, and param 3 (the WEP key, 5 bytes) at the invalid address 0
fails with -1. -/
theorem C23_get_net_param_witness :
    (((30 : Int) < 0 ∨ (24 : Int) < 30) ∧
     sampleNetParamConsts.kindOf 99 = none ∧
     sampleNetParamConsts.kindOf 3 = some NetParamKind.PSP_NETPARAM_WEPKEY ∧
     sampleMemoryMap.IsValidRange 0
       (specFieldLength sampleNetParamConsts NetParamKind.PSP_NETPARAM_WEPKEY) = false) ∧
    (sceUtilityGetNetParam sampleMemoryMap sampleNetParamConsts sampleParamErrorCodes
        sampleNetApctlInfo 1 30 0 0x08800000 sampleMemory
      = (sampleParamErrorCodes.SCE_ERROR_NETPARAM_BAD_NETCONF, sampleMemory) ∧
     sceUtilityGetNetParam sampleMemoryMap sampleNetParamConsts sampleParamErrorCodes
        sampleNetApctlInfo 1 1 99 0x08800000 sampleMemory
      = (sampleParamErrorCodes.SCE_ERROR_NETPARAM_BAD_PARAM, sampleMemory) ∧
     sceUtilityGetNetParam sampleMemoryMap sampleNetParamConsts sampleParamErrorCodes
        sampleNetApctlInfo 1 1 3 0 sampleMemory = (-1, sampleMemory)) :=
  ⟨⟨by decide, by decide, by decide, by decide⟩,
   ⟨(C23_get_net_param sampleMemoryMap sampleNetParamConsts sampleParamErrorCodes
      sampleNetApctlInfo 1 30 0 0x08800000 sampleMemory).1 (by decide),
    (C23_get_net_param sampleMemoryMap sampleNetParamConsts sampleParamErrorCodes
      sampleNetApctlInfo 1 1 99 0x08800000 sampleMemory).2.1 (by decide) (by decide)
      (by decide),
    ((C23_get_net_param sampleMemoryMap sampleNetParamConsts sampleParamErrorCodes
      sampleNetApctlInfo 1 1 3 0 sampleMemory).2.2 NetParamKind.PSP_NETPARAM_WEPKEY
      (by decide) (by decide) (by decide)).1 (by decide)⟩⟩

/-- The value `sceUtilityGetSystemParamInt` returns does not depend on the
memory map: for a supported id it is 0, or 0x800ADF4 for the automatic ad hoc
channel, whether or not `destaddr` is valid guest memory. -/
theorem getSystemParamInt_value (M : MemoryMap) (K : SystemParamConsts)
    (U : UtilityErrorCodes) (cfg : Config) (id destaddr : Nat) (mem : GuestMemory)
    (k : SystemParamIntId) (hk : K.intId id = some k) :
    (sceUtilityGetSystemParamInt M K U cfg id destaddr mem).1
      = { value := 0, delayUs := none } ∨
    (sceUtilityGetSystemParamInt M K U cfg id destaddr mem).1
      = { value := 0x800ADF4, delayUs := none } := by
  cases k
  · simp only [sceUtilityGetSystemParamInt, hk]
    split
    · right; rfl
    · left; rfl
  all_goals (left; simp [sceUtilityGetSystemParamInt, hk])

/-- C24, the code at the failing input: in the sample memory map address 0 is
not valid guest memory, yet `sceUtilityGetSystemParamInt` for the supported id
`PSP_SYSTEMPARAM_ID_INT_DATE_FORMAT` with `destaddr = 0` returns 0 (success),
as does `sceUtilityGetNetParamLatestID(0)`; the sibling
`sceUtilityGetSystemParamString` fails with -1 for the same address. -/
theorem C24_no_address_validation :
    sampleMemoryMap.IsValidRange 0 4 = false ∧
    sampleSystemParamConsts.intId 4
      = some SystemParamIntId.PSP_SYSTEMPARAM_ID_INT_DATE_FORMAT ∧
    (sceUtilityGetSystemParamInt sampleMemoryMap sampleSystemParamConsts
      sampleUtilityErrorCodes sampleConfig 4 0 sampleMemory).1
      = { value := 0, delayUs := none } ∧
    (sceUtilityGetNetParamLatestID sampleMemoryMap 1 0 sampleMemory).1 = 0 ∧
    (sceUtilityGetSystemParamString sampleMemoryMap sampleSystemParamConsts
      sampleUtilityErrorCodes sampleParamErrorCodes sampleConfig
      sampleSystemParamConsts.PSP_SYSTEMPARAM_ID_STRING_NICKNAME 0 8 sampleMemory).1
      = { value := intToU32 (-1), delayUs := none } := by
  refine ⟨by decide, by decide, by decide, rfl, by decide⟩

/-! ## Save states -/

theorem find_assignOldModules (S : List Int) (t : ModuleMap) (k : Int) :
    ModuleMap.find (assignOldModules t S) k
      = if k ∈ S then some 0 else ModuleMap.find t k := by
  induction S generalizing t with
  | nil => simp [assignOldModules]
  | cons a rest ih =>
    unfold assignOldModules
    rw [ih, ModuleMap.find_assign]
    by_cases h1 : k ∈ rest
    · simp [h1]
    · by_cases h2 : k = a
      · simp [h1, h2]
      · simp [h1, h2]

theorem ModuleMap.assign_last (m : ModuleMap) (k : Int) (v : Nat)
    (h : ∀ x ∈ m, x.1 < k) : ModuleMap.assign m k v = m ++ [(k, v)] := by
  induction m with
  | nil => rfl
  | cons p rest ih =>
    obtain ⟨k1, v1⟩ := p
    have h1 : k1 < k := h (k1, v1) (List.mem_cons_self _ _)
    have h2 : ¬ k < k1 := by omega
    have h3 : ¬ k = k1 := by omega
    unfold ModuleMap.assign
    rw [if_neg h2, if_neg h3, ih (fun x hx => h x (List.mem_cons_of_mem _ hx))]
    rfl

theorem ModuleMap.foldl_assign_append (m acc : ModuleMap)
    (h : ((acc ++ m).map Prod.fst).Pairwise (fun a b => a < b)) :
    m.foldl (fun t kv => ModuleMap.assign t kv.1 kv.2) acc = acc ++ m := by
  induction m generalizing acc with
  | nil => simp
  | cons p rest ih =>
    obtain ⟨k, v⟩ := p
    have hlast : ∀ x ∈ acc, x.1 < k := by
      intro x hx
      rw [List.map_append, List.pairwise_append] at h
      exact h.2.2 x.1 (List.mem_map_of_mem _ hx) k (by simp)
    rw [List.foldl_cons]
    show List.foldl _ (ModuleMap.assign acc k v) rest = _
    rw [ModuleMap.assign_last acc k v hlast, ih (acc ++ [(k, v)]) (by simpa using h)]
    simp

theorem ModuleMap.foldl_assign_of_WF (m : ModuleMap) (h : ModuleMap.WF m) :
    m.foldl (fun t kv => ModuleMap.assign t kv.1 kv.2) [] = m := by
  have hp : ((([] : ModuleMap) ++ m).map Prod.fst).Pairwise (fun a b => a < b) := by
    unfold ModuleMap.WF ModuleMap.keys at h
    rw [List.chain'_iff_pairwise] at h
    simpa using h
  simpa using ModuleMap.foldl_assign_append m [] hp

/-- Claim C25: reading a version-1 block — whose module section is a bare set
`S` of module ids — into a subsystem whose loaded-module table is empty (as
`__UtilityInit` leaves it) gives a table whose keys are exactly the ids of `S`,
each mapped to address 0. -/
theorem C25_restore_v1_modules {α δ : Type} (V : Env α δ) (t : UtilityDialogType)
    (active : Bool) (b1 b2 b3 b4 b5 b6 : List Nat) (S : List Int) (s : UtilityState α δ)
    (hempty : s.loader.currentlyLoadedModules = []) (k : Int) :
    ModuleMap.find
        (__UtilityDoState V (snapshotV1 t active b1 b2 b3 b4 b5 b6 S) s).2.loader.currentlyLoadedModules
        k
      = if k ∈ S then some 0 else none := by
  have hstep :
      (__UtilityDoState V (snapshotV1 t active b1 b2 b3 b4 b5 b6 S) s).2.loader.currentlyLoadedModules
        = assignOldModules s.loader.currentlyLoadedModules S := by
    cases hth : s.accessThread <;>
      simp [__UtilityDoState, snapshotV1, PointerWrap.Section, DoDialogType, DoFlag,
        dialogDoState, DoSet, hth]
  rw [hstep, find_assignOldModules, hempty]
  rfl

theorem C25_restore_v1_modules_witness :
    (__UtilityInit sampleEnv freshState).loader.currentlyLoadedModules = [] ∧
    ModuleMap.find
        (__UtilityDoState sampleEnv
          (snapshotV1 UtilityDialogType.MSG true [] [] [] [] [] [] [0x302, 0x100])
          (__UtilityInit sampleEnv freshState)).2.loader.currentlyLoadedModules
        0x302
      = if (0x302 : Int) ∈ [(0x302 : Int), 0x100] then some 0 else none :=
  ⟨rfl, C25_restore_v1_modules sampleEnv UtilityDialogType.MSG true [] [] [] [] [] []
    [0x302, 0x100] (__UtilityInit sampleEnv freshState) rfl 0x302⟩

/-- Claim C26: writing a state with `__UtilityDoState` (format version 6) and
reading the block back into any subsystem state — a freshly initialised one in
particular — gives the same dialog type, active flag, loaded-module table,
timer-event handle, helper-thread presence and finished flag, for a table that
is a `std::map` (keys ascending) and a `CoreTiming::RestoreRegisterEvent` that
keeps the handle it is given. -/
theorem C26_save_restore_roundtrip {α δ : Type} (V : Env α δ) (s target : UtilityState α δ)
    (hWF : ModuleMap.WF s.loader.currentlyLoadedModules)
    (hkeep : ∀ w, (V.RestoreRegisterEvent w s.volatileUnlockEvent "UtilityVolatileUnlock").1
        = s.volatileUnlockEvent) :
    (__UtilityDoState V PointerWrap.writer s).1.version = 6 ∧
    (__UtilityDoState V
        (PointerWrap.reader (__UtilityDoState V PointerWrap.writer s).1) target).2.currentDialogType
      = s.currentDialogType ∧
    (__UtilityDoState V
        (PointerWrap.reader (__UtilityDoState V PointerWrap.writer s).1) target).2.currentDialogActive
      = s.currentDialogActive ∧
    (__UtilityDoState V
        (PointerWrap.reader (__UtilityDoState V PointerWrap.writer s).1)
        target).2.loader.currentlyLoadedModules
      = s.loader.currentlyLoadedModules ∧
    (__UtilityDoState V
        (PointerWrap.reader (__UtilityDoState V PointerWrap.writer s).1) target).2.volatileUnlockEvent
      = s.volatileUnlockEvent ∧
    (__UtilityDoState V
        (PointerWrap.reader (__UtilityDoState V PointerWrap.writer s).1)
        target).2.accessThread.isSome
      = s.accessThread.isSome ∧
    (__UtilityDoState V
        (PointerWrap.reader (__UtilityDoState V PointerWrap.writer s).1)
        target).2.accessThreadFinished
      = s.accessThreadFinished := by
  have hmap := ModuleMap.foldl_assign_of_WF s.loader.currentlyLoadedModules hWF
  cases hth : s.accessThread with
  | none =>
    have hw : (__UtilityDoState V PointerWrap.writer s).1
        = { mode := PointerWrapMode.MODE_WRITE, version := 6,
            items := [SaveItem.DialogType s.currentDialogType,
              SaveItem.Flag s.currentDialogActive,
              SaveItem.Block (V.dialogSave UtilityDialogType.SAVEDATA s.world),
              SaveItem.Block (V.dialogSave UtilityDialogType.MSG s.world),
              SaveItem.Block (V.dialogSave UtilityDialogType.OSK s.world),
              SaveItem.Block (V.dialogSave UtilityDialogType.NET s.world),
              SaveItem.Block (V.dialogSave UtilityDialogType.SCREENSHOT s.world),
              SaveItem.Block (V.dialogSave UtilityDialogType.GAMEDATAINSTALL s.world),
              SaveItem.Map s.loader.currentlyLoadedModules,
              SaveItem.Word s.volatileUnlockEvent,
              SaveItem.Flag false,
              SaveItem.Flag s.accessThreadFinished,
              SaveItem.Block (V.dialogSave UtilityDialogType.NPSIGNIN
                (V.RestoreRegisterEvent s.world s.volatileUnlockEvent
                  "UtilityVolatileUnlock").2)] } := by
      simp [__UtilityDoState, PointerWrap.writer, PointerWrap.Section, DoDialogType, DoFlag,
        dialogDoState, DoMap, DoWord, DoAccessThread, hth]
    rw [hw]
    cases htt : target.accessThread <;>
      simp [__UtilityDoState, PointerWrap.reader, PointerWrap.Section, DoDialogType, DoFlag,
        dialogDoState, DoMap, DoWord, DoAccessThread, htt, hmap, hkeep]
  | some thread =>
    have hw : (__UtilityDoState V PointerWrap.writer s).1
        = { mode := PointerWrapMode.MODE_WRITE, version := 6,
            items := [SaveItem.DialogType s.currentDialogType,
              SaveItem.Flag s.currentDialogActive,
              SaveItem.Block (V.dialogSave UtilityDialogType.SAVEDATA s.world),
              SaveItem.Block (V.dialogSave UtilityDialogType.MSG s.world),
              SaveItem.Block (V.dialogSave UtilityDialogType.OSK s.world),
              SaveItem.Block (V.dialogSave UtilityDialogType.NET s.world),
              SaveItem.Block (V.dialogSave UtilityDialogType.SCREENSHOT s.world),
              SaveItem.Block (V.dialogSave UtilityDialogType.GAMEDATAINSTALL s.world),
              SaveItem.Map s.loader.currentlyLoadedModules,
              SaveItem.Word s.volatileUnlockEvent,
              SaveItem.Flag true,
              SaveItem.Block (V.threadSave thread),
              SaveItem.Flag s.accessThreadFinished,
              SaveItem.Block (V.dialogSave UtilityDialogType.NPSIGNIN
                (V.RestoreRegisterEvent s.world s.volatileUnlockEvent
                  "UtilityVolatileUnlock").2)] } := by
      simp [__UtilityDoState, PointerWrap.writer, PointerWrap.Section, DoDialogType, DoFlag,
        dialogDoState, DoMap, DoWord, DoAccessThread, hth]
    rw [hw]
    cases htt : target.accessThread <;>
      simp [__UtilityDoState, PointerWrap.reader, PointerWrap.Section, DoDialogType, DoFlag,
        dialogDoState, DoMap, DoWord, DoAccessThread, htt, hmap, hkeep]

theorem C26_save_restore_roundtrip_witness :
    ModuleMap.WF savedState.loader.currentlyLoadedModules ∧
    (∀ w, (sampleEnv.RestoreRegisterEvent w savedState.volatileUnlockEvent
        "UtilityVolatileUnlock").1 = savedState.volatileUnlockEvent) ∧
    (__UtilityDoState sampleEnv
        (PointerWrap.reader (__UtilityDoState sampleEnv PointerWrap.writer savedState).1)
        (__UtilityInit sampleEnv freshState)).2.loader.currentlyLoadedModules
      = savedState.loader.currentlyLoadedModules :=
  ⟨by simp [ModuleMap.WF, ModuleMap.keys, savedState, sampleLoadedState], fun _ => rfl,
    (C26_save_restore_roundtrip sampleEnv savedState (__UtilityInit sampleEnv freshState)
      (by simp [ModuleMap.WF, ModuleMap.keys, savedState, sampleLoadedState]) (fun _ => rfl)).2.2.2.1⟩

/-! ## Theorems on the helper programs -/

theorem u32ToInt_intToU32 (x : Int) (h1 : -(2 ^ 31) ≤ x) (h2 : x < 2 ^ 31) :
    u32ToInt (intToU32 x) = x := by
  unfold u32ToInt intToU32
  split <;> omega

theorem u32ToInt_imm (c : Int) (h1 : 0 ≤ c) (h2 : c < 2 ^ 16) :
    u32ToInt (c % 65536).toNat = c := by
  unfold u32ToInt
  split <;> omega

theorem tdiv_four (x : Int) :
    (0 ≤ x → 4 * Int.tdiv x 4 ≤ x ∧ x - 4 < 4 * Int.tdiv x 4) ∧
    (-(2 ^ 31) ≤ x → x < 2 ^ 31 → -(2 ^ 31) ≤ Int.tdiv x 4 ∧ Int.tdiv x 4 < 2 ^ 31) := by
  by_cases hx : 0 ≤ x
  · have h := Int.tdiv_eq_ediv hx (by decide : (0 : Int) ≤ 4)
    rw [h]
    constructor
    · intro _; omega
    · intro _ _; omega
  · have hn : 0 ≤ -x := by omega
    have h := Int.tdiv_eq_ediv hn (by decide : (0 : Int) ≤ 4)
    rw [Int.neg_tdiv] at h
    have h2 : Int.tdiv x 4 = -((-x) / 4) := by omega
    rw [h2]
    constructor
    · intro h0; exact absurd h0 hx
    · intro _ _; omega

theorem workOf_eq {α δ : Type} (us : Int) (s : UtilityState α δ) : workOf us s = us := by
  unfold workOf UtilityWorkUs
  by_cases h : us > 1000
  · simp only [h, if_true, eatenMicros_append, eatenMicros, Option.getD_some]
    omega
  · simp only [h, if_false, eatenMicros_append, eatenMicros, hleReturn, Option.getD_none]
    omega

/-- C31: the helper thread `UtilityDialogInitialize` starts makes, in order,
the syscalls `sceKernelVolatileMemLock` (with `a0 = 0`), four times
`__UtilityWorkUs` with argument `delayUs / 4` (the truncating division of
`int`), and once `__UtilityInitDialog` with argument `(int)type`; the one
`UtilityDialogShutdown` starts makes four times `__UtilityWorkUs` with argument
`delayUs / 4` and once `__UtilityFinishDialog` with `(int)type`, and no lock
call.  Each `__UtilityWorkUs(us)` accounts for `us` microseconds, so the total
is `4 * (delayUs / 4)`, which for `delayUs >= 0` is at most `delayUs` and more
than `delayUs - 4`. -/
theorem C31_helper_programs {α δ : Type} (V : Env α δ) (type : UtilityDialogType)
    (delayUs priority : Int) (s : UtilityState α δ) (clobber : Nat)
    (hlo : -(2 ^ 31) ≤ delayUs) (hhi : delayUs < 2 ^ 31)
    (hcode : 0 ≤ V.dialogCode type ∧ V.dialogCode type < 2 ^ 16) :
    (UtilityDialogInitialize V type delayUs priority s).accessThread.map
        (runHelperThread clobber)
      = some [HelperCall.mk "sceSuspendForUser" "sceKernelVolatileMemLock" 0,
          HelperCall.mk "sceUtility" "__UtilityWorkUs" (Int.tdiv delayUs 4),
          HelperCall.mk "sceUtility" "__UtilityWorkUs" (Int.tdiv delayUs 4),
          HelperCall.mk "sceUtility" "__UtilityWorkUs" (Int.tdiv delayUs 4),
          HelperCall.mk "sceUtility" "__UtilityWorkUs" (Int.tdiv delayUs 4),
          HelperCall.mk "sceUtility" "__UtilityInitDialog" (V.dialogCode type)] ∧
    (UtilityDialogShutdown V type delayUs priority s).accessThread.map
        (runHelperThread clobber)
      = some [HelperCall.mk "sceUtility" "__UtilityWorkUs" (Int.tdiv delayUs 4),
          HelperCall.mk "sceUtility" "__UtilityWorkUs" (Int.tdiv delayUs 4),
          HelperCall.mk "sceUtility" "__UtilityWorkUs" (Int.tdiv delayUs 4),
          HelperCall.mk "sceUtility" "__UtilityWorkUs" (Int.tdiv delayUs 4),
          HelperCall.mk "sceUtility" "__UtilityFinishDialog" (V.dialogCode type)] ∧
    (∀ s1 s2 s3 s4 : UtilityState α δ,
      workOf (Int.tdiv delayUs 4) s1 + workOf (Int.tdiv delayUs 4) s2
        + workOf (Int.tdiv delayUs 4) s3 + workOf (Int.tdiv delayUs 4) s4
        = 4 * Int.tdiv delayUs 4) ∧
    (0 ≤ delayUs →
      4 * Int.tdiv delayUs 4 ≤ delayUs ∧ delayUs - 4 < 4 * Int.tdiv delayUs 4) := by
  have hpd := (tdiv_four delayUs).2 hlo hhi
  have ha := u32ToInt_intToU32 (Int.tdiv delayUs 4) hpd.1 hpd.2
  have hc := u32ToInt_imm (V.dialogCode type) hcode.1 hcode.2
  have hz : u32ToInt 0 = 0 := by decide
  refine ⟨?_, ?_, ?_, (tdiv_four delayUs).1⟩
  · simp [UtilityDialogInitialize, spawnAccessThread, runHelperThread, initializeInsts,
      runInsts, stepInst, HelperRegs.set, HelperRegs.get, ha, hc, hz]
  · by_cases hi : V.InterruptsEnabled (CleanupDialogThreads V true s).world = true
    · simp [UtilityDialogShutdown, spawnAccessThread, runHelperThread, shutdownInsts,
        runInsts, stepInst, HelperRegs.set, HelperRegs.get, ha, hc, hi]
    · simp [UtilityDialogShutdown, spawnAccessThread, runHelperThread, shutdownInsts,
        runInsts, stepInst, HelperRegs.set, HelperRegs.get, ha, hc, hi]
  · intro s1 s2 s3 s4
    rw [workOf_eq, workOf_eq, workOf_eq, workOf_eq]
    omega

/-- Witness for C31: the message dialog of the sample, a delay of 1003
microseconds. -/
theorem C31_helper_programs_witness :
    (-(2 ^ 31) ≤ (1003 : Int) ∧ (1003 : Int) < 2 ^ 31 ∧
     (0 ≤ sampleEnv.dialogCode UtilityDialogType.MSG ∧
      sampleEnv.dialogCode UtilityDialogType.MSG < 2 ^ 16)) ∧
    (UtilityDialogShutdown sampleEnv UtilityDialogType.MSG 1003 0x20
        msgActiveState).accessThread.map (runHelperThread 0xDEADBEEF)
      = some [HelperCall.mk "sceUtility" "__UtilityWorkUs" (Int.tdiv 1003 4),
          HelperCall.mk "sceUtility" "__UtilityWorkUs" (Int.tdiv 1003 4),
          HelperCall.mk "sceUtility" "__UtilityWorkUs" (Int.tdiv 1003 4),
          HelperCall.mk "sceUtility" "__UtilityWorkUs" (Int.tdiv 1003 4),
          HelperCall.mk "sceUtility" "__UtilityFinishDialog"
            (sampleEnv.dialogCode UtilityDialogType.MSG)] :=
  ⟨⟨by decide, by decide, by decide⟩,
   (C31_helper_programs sampleEnv UtilityDialogType.MSG 1003 0x20 msgActiveState 0xDEADBEEF
     (by decide) (by decide) (by decide)).2.1⟩

theorem CleanupDialogThreads_interrupts {α δ : Type} (V : Env α δ) (force : Bool)
    (s : UtilityState α δ) (hlaws : InterruptLaws V) :
    V.InterruptsEnabled (CleanupDialogThreads V force s).world = V.InterruptsEnabled s.world := by
  obtain ⟨_, _, _, _, hT, hD, hU⟩ := hlaws
  unfold CleanupDialogThreads
  cases s.accessThread with
  | none => rfl
  | some thread =>
    simp only
    split
    · exact hD _ _
    · split
      · show V.InterruptsEnabled (V.KernelVolatileMemUnlock _ 0) = _
        rw [hU, hD, hT]
      · rfl

/-- C32: `UtilityDialogShutdown` reads the interrupt-enable flag after its
cleanup, calls `__DisableInterrupts`, creates and starts the helper thread, and
calls `__EnableInterrupts` exactly when the flag read was set.  With interrupt
functions that behave as their names say, the flag is false when the thread is
created, false when it is started and still false after `Start`, and after the
call it equals the flag before the call, for either initial value. -/
theorem C32_shutdown_interrupts {α δ : Type} (V : Env α δ) (type : UtilityDialogType)
    (delayUs priority : Int) (s : UtilityState α δ) (hlaws : InterruptLaws V) :
    (UtilityDialogShutdown V type delayUs priority s).world
      = (if V.InterruptsEnabled (CleanupDialogThreads V true s).world = true then
          V.EnableInterrupts
            (V.Start
              (V.NewThread (V.DisableInterrupts (CleanupDialogThreads V true s).world)
                (pafJobThread (shutdownInsts (V.dialogCode type)) priority none))
              (pafJobThread (shutdownInsts (V.dialogCode type)) priority none)
              (Int.tdiv delayUs 4) 0)
         else
          V.Start
            (V.NewThread (V.DisableInterrupts (CleanupDialogThreads V true s).world)
              (pafJobThread (shutdownInsts (V.dialogCode type)) priority none))
            (pafJobThread (shutdownInsts (V.dialogCode type)) priority none)
            (Int.tdiv delayUs 4) 0) ∧
    V.InterruptsEnabled (V.DisableInterrupts (CleanupDialogThreads V true s).world) = false ∧
    V.InterruptsEnabled
        (V.NewThread (V.DisableInterrupts (CleanupDialogThreads V true s).world)
          (pafJobThread (shutdownInsts (V.dialogCode type)) priority none)) = false ∧
    V.InterruptsEnabled
        (V.Start
          (V.NewThread (V.DisableInterrupts (CleanupDialogThreads V true s).world)
            (pafJobThread (shutdownInsts (V.dialogCode type)) priority none))
          (pafJobThread (shutdownInsts (V.dialogCode type)) priority none)
          (Int.tdiv delayUs 4) 0) = false ∧
    V.InterruptsEnabled (UtilityDialogShutdown V type delayUs priority s).world
      = V.InterruptsEnabled s.world := by
  have hclean := CleanupDialogThreads_interrupts V true s hlaws
  obtain ⟨hDis, hEn, hNew, hStart, _, _, _⟩ := hlaws
  have hworld : (UtilityDialogShutdown V type delayUs priority s).world
      = (if V.InterruptsEnabled (CleanupDialogThreads V true s).world = true then
          V.EnableInterrupts
            (V.Start
              (V.NewThread (V.DisableInterrupts (CleanupDialogThreads V true s).world)
                (pafJobThread (shutdownInsts (V.dialogCode type)) priority none))
              (pafJobThread (shutdownInsts (V.dialogCode type)) priority none)
              (Int.tdiv delayUs 4) 0)
         else
          V.Start
            (V.NewThread (V.DisableInterrupts (CleanupDialogThreads V true s).world)
              (pafJobThread (shutdownInsts (V.dialogCode type)) priority none))
            (pafJobThread (shutdownInsts (V.dialogCode type)) priority none)
            (Int.tdiv delayUs 4) 0) := by
    by_cases hi : V.InterruptsEnabled (CleanupDialogThreads V true s).world = true
    · simp [UtilityDialogShutdown, spawnAccessThread, pafJobThread, hi]
    · simp [UtilityDialogShutdown, spawnAccessThread, pafJobThread, hi]
  refine ⟨hworld, hDis _, ?_, ?_, ?_⟩
  · rw [hNew, hDis]
  · rw [hStart, hNew, hDis]
  · rw [hworld, ← hclean]
    by_cases hi : V.InterruptsEnabled (CleanupDialogThreads V true s).world = true
    · rw [if_pos hi, hEn, hi]
    · rw [if_neg hi, hStart, hNew, hDis]
      simpa using hi

/-- Witness for C32: the sample whose outside world is the interrupt flag,
with interrupts disabled before the call. -/
theorem C32_shutdown_interrupts_witness :
    InterruptLaws interruptEnv ∧
    interruptEnv.InterruptsEnabled
        (UtilityDialogShutdown interruptEnv UtilityDialogType.MSG 1000 0x20
          (interruptState false)).world
      = interruptEnv.InterruptsEnabled (interruptState false).world :=
  ⟨⟨fun _ => rfl, fun _ => rfl, fun _ _ => rfl, fun _ _ _ _ => rfl, fun _ _ => rfl,
      fun _ _ => rfl, fun _ _ => rfl⟩,
   (C32_shutdown_interrupts interruptEnv UtilityDialogType.MSG 1000 0x20 (interruptState false)
     ⟨fun _ => rfl, fun _ => rfl, fun _ _ => rfl, fun _ _ _ _ => rfl, fun _ _ => rfl,
      fun _ _ => rfl, fun _ _ => rfl⟩).2.2.2.2⟩

/-! ## Theorems on the independence of the loader and the dialog session -/

theorem CleanupDialogThreads_table {α δ : Type} (V : Env α δ) (force : Bool)
    (s : UtilityState α δ) :
    (CleanupDialogThreads V force s).loader.currentlyLoadedModules
      = s.loader.currentlyLoadedModules := by
  rw [(CleanupDialogThreads_frame V force s).2.2.2.1]

theorem callDialog_table {α δ : Type} (V : Env α δ) (t : UtilityDialogType)
    (m : DialogMethod) (s : UtilityState α δ) :
    (callDialog V t m s).2.loader.currentlyLoadedModules = s.loader.currentlyLoadedModules :=
  (callDialog_frame V t m s).2.2.2.2

theorem ActivateDialog_table {α δ : Type} (V : Env α δ) (type : UtilityDialogType)
    (s : UtilityState α δ) :
    (ActivateDialog V type s).loader.currentlyLoadedModules
      = s.loader.currentlyLoadedModules := by
  unfold ActivateDialog
  simp only
  split
  · exact CleanupDialogThreads_table V false s
  · exact CleanupDialogThreads_table V false s

theorem DeactivateDialog_table {α δ : Type} (V : Env α δ) (s : UtilityState α δ) :
    (DeactivateDialog V s).loader.currentlyLoadedModules = s.loader.currentlyLoadedModules := by
  unfold DeactivateDialog
  simp only
  split
  · exact CleanupDialogThreads_table V false s
  · exact CleanupDialogThreads_table V false s

theorem noteStatus_table {α δ : Type} (status : Int) (s : UtilityState α δ) :
    (noteStatus status s).2.loader.currentlyLoadedModules = s.loader.currentlyLoadedModules := by
  unfold noteStatus
  split <;> rfl

theorem hleEatCycles_table {α δ : Type} (n : Nat) (s : UtilityState α δ) :
    (hleEatCycles n s).loader.currentlyLoadedModules = s.loader.currentlyLoadedModules := rfl

theorem dialogSyscall_table {α δ : Type} (V : Env α δ) (U : UtilityErrorCodes)
    (c : DialogSyscall) (s : UtilityState α δ) :
    (DialogSyscall.exec V U c s).2.loader.currentlyLoadedModules
      = s.loader.currentlyLoadedModules := by
  cases c <;>
    simp only [DialogSyscall.exec, sceUtilitySavedataInitStart, sceUtilitySavedataShutdownStart,
      sceUtilitySavedataGetStatus, sceUtilitySavedataUpdate, sceUtilityMsgDialogInitStart,
      sceUtilityMsgDialogShutdownStart, sceUtilityMsgDialogUpdate, sceUtilityMsgDialogGetStatus,
      sceUtilityMsgDialogAbort, sceUtilityOskInitStart, sceUtilityOskShutdownStart,
      sceUtilityOskUpdate, sceUtilityOskGetStatus, sceUtilityNetconfInitStart,
      sceUtilityNetconfShutdownStart, sceUtilityNetconfUpdate, sceUtilityNetconfGetStatus,
      sceUtilityScreenshotInitStart, sceUtilityScreenshotShutdownStart,
      sceUtilityScreenshotUpdate, sceUtilityScreenshotGetStatus, sceUtilityScreenshotContStart,
      sceUtilityGamedataInstallInitStart, sceUtilityGamedataInstallShutdownStart,
      sceUtilityGamedataInstallUpdate, sceUtilityGamedataInstallGetStatus,
      sceUtilityGamedataInstallAbort, sceUtilityNpSigninInitStart,
      sceUtilityNpSigninShutdownStart, sceUtilityNpSigninUpdate, sceUtilityNpSigninGetStatus,
      sceUtilityGameSharingShutdownStart, sceUtilityGameSharingInitStart,
      sceUtilityGameSharingUpdate, sceUtilityGameSharingGetStatus] <;>
    (repeat' split) <;>
    simp only [noteStatus_table, hleEatCycles_table, CleanupDialogThreads_table,
      callDialog_table, ActivateDialog_table, DeactivateDialog_table]

/-- C33: each of the four module syscalls returns the same result and leaves
the same loader state whatever `currentDialogType` and `currentDialogActive`
are, and does not change `currentDialogType`, `currentDialogActive`, the helper
thread or its finished flag; and no dialog syscall (of any kind, for any dialog
type) changes the loaded-module table. -/
theorem C33_loader_session_independent {α δ : Type} (A : BlockAllocator α) (E : ErrorCodes)
    (V : Env α δ) (U : UtilityErrorCodes) (c : ModuleCall) (d : DialogSyscall)
    (type : UtilityDialogType) (active : Bool) (s : UtilityState α δ) :
    (ModuleCall.execUtility A E c
        { s with currentDialogType := type, currentDialogActive := active }).1
      = (ModuleCall.execUtility A E c s).1 ∧
    (ModuleCall.execUtility A E c
        { s with currentDialogType := type, currentDialogActive := active }).2.loader
      = (ModuleCall.execUtility A E c s).2.loader ∧
    (ModuleCall.execUtility A E c s).2.currentDialogType = s.currentDialogType ∧
    (ModuleCall.execUtility A E c s).2.currentDialogActive = s.currentDialogActive ∧
    (ModuleCall.execUtility A E c s).2.accessThread = s.accessThread ∧
    (ModuleCall.execUtility A E c s).2.accessThreadFinished = s.accessThreadFinished ∧
    (DialogSyscall.exec V U d s).2.loader.currentlyLoadedModules
      = s.loader.currentlyLoadedModules :=
  ⟨rfl, rfl, rfl, rfl, rfl, rfl, dialogSyscall_table V U d s⟩

/-- C34: with `currentDialogActive` false, `sceUtilityGamedataInstallShutdownStart`,
`sceUtilityGamedataInstallUpdate` and `sceUtilityGamedataInstallAbort` return
`SCE_ERROR_UTILITY_WRONG_TYPE` and the state as it was (no dialog method is
called), whatever `currentDialogType` is — GAMEDATAINSTALL included;
`sceUtilityGamedataInstallGetStatus` tests `currentDialogType` only: when it is
GAMEDATAINSTALL the dialog's `GetStatus` is called and its value returned,
whether the session is active or not. -/
theorem C34_gamedata_install_needs_active {α δ : Type} (V : Env α δ) (U : UtilityErrorCodes)
    (animSpeed : Int) (s : UtilityState α δ) :
    (s.currentDialogActive = false →
      sceUtilityGamedataInstallShutdownStart V U s
        = (hleReturn U.SCE_ERROR_UTILITY_WRONG_TYPE, s) ∧
      sceUtilityGamedataInstallUpdate V U animSpeed s
        = (hleReturn U.SCE_ERROR_UTILITY_WRONG_TYPE, s) ∧
      sceUtilityGamedataInstallAbort V U s
        = (hleReturn U.SCE_ERROR_UTILITY_WRONG_TYPE, s)) ∧
    (s.currentDialogType = UtilityDialogType.GAMEDATAINSTALL →
      (sceUtilityGamedataInstallGetStatus V U s).1
        = hleReturn (V.dialog UtilityDialogType.GAMEDATAINSTALL DialogMethod.GetStatus
            s.outside).1 ∧
      dialogCalls (sceUtilityGamedataInstallGetStatus V U s).2.log
        = dialogCalls s.log ++ [(UtilityDialogType.GAMEDATAINSTALL, DialogMethod.GetStatus)]) ∧
    (s.currentDialogType ≠ UtilityDialogType.GAMEDATAINSTALL →
      (sceUtilityGamedataInstallGetStatus V U s).1
        = hleReturn U.SCE_ERROR_UTILITY_WRONG_TYPE) := by
  refine ⟨?_, ?_, ?_⟩
  · intro hact
    have hg : ∀ t : UtilityDialogType,
        (!s.currentDialogActive || s.currentDialogType != t) = true := by
      intro t; simp [hact]
    refine ⟨?_, ?_, ?_⟩
    · unfold sceUtilityGamedataInstallShutdownStart; rw [if_pos (hg _)]
    · unfold sceUtilityGamedataInstallUpdate; rw [if_pos (hg _)]
    · unfold sceUtilityGamedataInstallAbort; rw [if_pos (hg _)]
  · intro ht
    have hg : (s.currentDialogType != UtilityDialogType.GAMEDATAINSTALL) = false := by
      simp [ht]
    unfold sceUtilityGamedataInstallGetStatus
    simp only [hg, Bool.false_eq_true, if_false]
    refine ⟨by rw [(callDialog_frame V _ _ s).1], ?_⟩
    rw [(CleanupDialogThreads_frame V false _).2.2.2.2]
    simp [callDialog, dialogCalls_append, dialogCalls]
  · intro ht
    have hg : (s.currentDialogType != UtilityDialogType.GAMEDATAINSTALL) = true := by
      simpa using ht
    unfold sceUtilityGamedataInstallGetStatus
    rw [if_pos hg]

/-- Witness for C34: a session that is inactive with `currentDialogType`
GAMEDATAINSTALL. -/
theorem C34_gamedata_install_needs_active_witness :
    ({ freshState with currentDialogType := UtilityDialogType.GAMEDATAINSTALL
        }.currentDialogActive = false ∧
     { freshState with currentDialogType := UtilityDialogType.GAMEDATAINSTALL
        }.currentDialogType = UtilityDialogType.GAMEDATAINSTALL) ∧
    sceUtilityGamedataInstallShutdownStart sampleEnv sampleUtilityErrorCodes
        { freshState with currentDialogType := UtilityDialogType.GAMEDATAINSTALL }
      = (hleReturn sampleUtilityErrorCodes.SCE_ERROR_UTILITY_WRONG_TYPE,
         { freshState with currentDialogType := UtilityDialogType.GAMEDATAINSTALL }) :=
  ⟨⟨rfl, rfl⟩,
   ((C34_gamedata_install_needs_active sampleEnv sampleUtilityErrorCodes 0
      { freshState with currentDialogType := UtilityDialogType.GAMEDATAINSTALL }).1 rfl).1⟩

/-! ## Theorems on `VideoBufferLock::LockBuffer` -/

/-- C35: `LockBuffer` on a buffer without the 2-D interface returns the
`HRESULT` of `Lock`; when that succeeded the stride reported is
`lDefaultStride`, scan line 0 is `pData` for `lDefaultStride >= 0`, and for
`lDefaultStride < 0` and a height from 1 up scan line 0 is
`pData + |lDefaultStride| * (height - 1)`, the start of the last row in memory,
which lies inside the `|lDefaultStride| * height` bytes from `pData` — the
buffer being one whose length, `|lDefaultStride| * height`, fits the `DWORD` in
which a media buffer reports its length; when `Lock` failed the two
out-parameters are left as they were.  With or without the 2-D interface,
`m_bLocked` afterwards is true if and only if the lock call succeeded. -/
theorem C35_lock_buffer (B : MediaBuffer) (lDefaultStride : Int) (dwHeightInPixels : Nat)
    (scanLine0 : Nat) (stride : Int) :
    (B.has2D = false →
      (LockBuffer B lDefaultStride dwHeightInPixels scanLine0 stride).hr = B.Lock.1 ∧
      ((LockBuffer B lDefaultStride dwHeightInPixels scanLine0 stride).m_bLocked = true ↔
        SUCCEEDED B.Lock.1 = true) ∧
      (SUCCEEDED B.Lock.1 = true →
        (LockBuffer B lDefaultStride dwHeightInPixels scanLine0 stride).stride
          = lDefaultStride ∧
        (0 ≤ lDefaultStride →
          (LockBuffer B lDefaultStride dwHeightInPixels scanLine0 stride).scanLine0
            = B.Lock.2) ∧
        (lDefaultStride < 0 → 1 ≤ dwHeightInPixels →
          lDefaultStride.natAbs * dwHeightInPixels < 2 ^ 32 →
          (LockBuffer B lDefaultStride dwHeightInPixels scanLine0 stride).scanLine0
            = B.Lock.2 + lDefaultStride.natAbs * (dwHeightInPixels - 1) ∧
          B.Lock.2 ≤ (LockBuffer B lDefaultStride dwHeightInPixels scanLine0 stride).scanLine0 ∧
          (LockBuffer B lDefaultStride dwHeightInPixels scanLine0 stride).scanLine0
              + lDefaultStride.natAbs
            ≤ B.Lock.2 + lDefaultStride.natAbs * dwHeightInPixels)) ∧
      (SUCCEEDED B.Lock.1 = false →
        (LockBuffer B lDefaultStride dwHeightInPixels scanLine0 stride).scanLine0 = scanLine0 ∧
        (LockBuffer B lDefaultStride dwHeightInPixels scanLine0 stride).stride = stride)) ∧
    (B.has2D = true →
      (LockBuffer B lDefaultStride dwHeightInPixels scanLine0 stride).hr
        = (B.Lock2D scanLine0 stride).1 ∧
      ((LockBuffer B lDefaultStride dwHeightInPixels scanLine0 stride).m_bLocked = true ↔
        SUCCEEDED (B.Lock2D scanLine0 stride).1 = true)) := by
  constructor
  · intro h2D
    unfold LockBuffer
    simp only [h2D, Bool.false_eq_true, if_false]
    cases hs : SUCCEEDED B.Lock.1
    · simp
    · simp only [if_true]
      refine ⟨?_, ?_, ?_, ?_⟩
      · split <;> rfl
      · split <;> simp [hs]
      · intro _
        refine ⟨by split <;> rfl, ?_, ?_⟩
        · intro hnn
          rw [if_neg (not_lt.mpr hnn)]
        · intro hneg h1 hbuf
          rw [if_pos hneg]
          have hpos : 1 ≤ lDefaultStride.natAbs := by omega
          have hrow : lDefaultStride.natAbs * dwHeightInPixels
              = lDefaultStride.natAbs * (dwHeightInPixels - 1) + lDefaultStride.natAbs := by
            obtain ⟨k, rfl⟩ : ∃ k, dwHeightInPixels = k + 1 := ⟨dwHeightInPixels - 1, by omega⟩
            simp [Nat.mul_succ]
          have hdw : dwHeightInPixels ≤ lDefaultStride.natAbs * dwHeightInPixels :=
            Nat.le_mul_of_pos_left _ hpos
          have hprod : lDefaultStride.natAbs * (dwHeightInPixels - 1) < 2 ^ 32 := by omega
          have ha : absLong lDefaultStride = lDefaultStride.natAbs := by
            unfold absLong
            exact Nat.mod_eq_of_lt (by omega)
          have hh : (dwHeightInPixels % 2 ^ 32 + 2 ^ 32 - 1) % 2 ^ 32 = dwHeightInPixels - 1 := by
            omega
          simp only [ha, hh, Nat.mod_eq_of_lt hprod]
          exact ⟨trivial, by omega, by omega⟩
      · intro hf
        exact absurd hf (by simp)
  · intro h2D
    unfold LockBuffer
    simp [h2D]

/-- Witness for C35: a bottom-up 480-row image with a stride of 640 bytes. -/
theorem C35_lock_buffer_witness :
    (sampleMediaBuffer.has2D = false ∧ SUCCEEDED sampleMediaBuffer.Lock.1 = true ∧
     (-640 : Int) < 0 ∧ 1 ≤ 480 ∧ (-640 : Int).natAbs * 480 < 2 ^ 32) ∧
    (LockBuffer sampleMediaBuffer (-640) 480 0 0).scanLine0
      = sampleMediaBuffer.Lock.2 + (-640 : Int).natAbs * (480 - 1) :=
  ⟨⟨rfl, rfl, by decide, by decide, by decide⟩,
   ((((C35_lock_buffer sampleMediaBuffer (-640) 480 0 0).1 rfl).2.2.1 rfl).2.2
     (by decide) (by decide) (by decide)).1⟩

/-! ## Theorems on the catalogue and the loader -/

theorem load_of_loadable {α : Type} (A : BlockAllocator α) (E : ErrorCodes) (module : Nat)
    (s : LoaderState α) (loaded : List Int)
    (hkeys : ∀ k, (ModuleMap.find s.currentlyLoadedModules k).isSome = true ↔ k ∈ loaded)
    (hok : loadable loaded module = true) :
    (LoadModuleInternal A E module s).1 = 0 ∧
    ∀ k, (ModuleMap.find (LoadModuleInternal A E module s).2.currentlyLoadedModules k).isSome
        = true ↔ k ∈ u32ToInt module :: loaded := by
  unfold loadable at hok
  cases hi : __UtilityModuleInfo (u32ToInt module) with
  | none => simp [hi] at hok
  | some info =>
    simp only [hi, Bool.and_eq_true, Bool.not_eq_true', List.all_eq_true] at hok
    obtain ⟨hnot, hall⟩ := hok
    have hnl : ModuleMap.find s.currentlyLoadedModules (u32ToInt module) = none := by
      cases hf : ModuleMap.find s.currentlyLoadedModules (u32ToInt module) with
      | none => rfl
      | some v =>
        have : u32ToInt module ∈ loaded := (hkeys _).1 (by simp [hf])
        simp [this] at hnot
    have hdeps : depsLoaded s.currentlyLoadedModules info.dependencies = true := by
      rw [depsLoaded_iff]
      intro d hd
      exact (hkeys d).2 (by simpa using hall d hd)
    have hfind : ∀ a k, (ModuleMap.find
        (ModuleMap.assign s.currentlyLoadedModules (u32ToInt module) a) k).isSome = true
          ↔ k ∈ u32ToInt module :: loaded := by
      intro a k
      rw [ModuleMap.find_assign]
      by_cases hk : k = u32ToInt module
      · simp [hk]
      · simp [hk, hkeys]
    rw [load_success A E module s info hi hnl hdeps]
    by_cases hsz : info.size = 0
    · simp only [hsz, ne_eq, not_true_eq_false, if_false]
      exact ⟨trivial, hfind 0⟩
    · simp only [hsz, ne_eq, not_false_eq_true, if_true]
      exact ⟨trivial, hfind _⟩

theorem loadResults_of_canLoadSeq {α : Type} (A : BlockAllocator α) (E : ErrorCodes)
    (modules : List Nat) (s : LoaderState α) (loaded : List Int)
    (hkeys : ∀ k, (ModuleMap.find s.currentlyLoadedModules k).isSome = true ↔ k ∈ loaded)
    (hok : canLoadSeq loaded modules = true) :
    loadResults A E modules s = List.replicate modules.length 0 := by
  induction modules generalizing s loaded with
  | nil => rfl
  | cons m rest ih =>
    simp only [canLoadSeq, Bool.and_eq_true] at hok
    obtain ⟨h1, h2⟩ := load_of_loadable A E m s loaded hkeys hok.1
    simp only [loadResults, List.length_cons, List.replicate_succ, h1]
    rw [ih _ _ h2 hok.2]

/-- C36: `UnloadModuleInternal(d)` returns 0 for every catalogue module `d`
that is loaded, whatever else is loaded — no dependent is looked at — and
removes `d` only, so a loaded module that lists `d` stays loaded.  The guest
calls `sceUtilityLoadModule(0x300)`, `sceUtilityLoadModule(0x302)`,
`sceUtilityUnloadModule(0x300)` from the empty table all return 0 and leave
0x302 loaded while its listed dependency 0x300 is not. -/
theorem C36_unload_ignores_dependents {α : Type} (A : BlockAllocator α) (E : ErrorCodes)
    (module : Nat) (s : LoaderState α) (info : ModuleLoadInfo) (a : Nat)
    (hinfo : __UtilityModuleInfo (u32ToInt module) = some info)
    (hl : ModuleMap.find s.currentlyLoadedModules (u32ToInt module) = some a) :
    (UnloadModuleInternal A E module s).1 = 0 ∧
    ModuleMap.find (UnloadModuleInternal A E module s).2.currentlyLoadedModules
      (u32ToInt module) = none ∧
    (∀ k, k ≠ u32ToInt module →
      ModuleMap.find (UnloadModuleInternal A E module s).2.currentlyLoadedModules k
        = ModuleMap.find s.currentlyLoadedModules k) ∧
    ((sceUtilityLoadModule bumpAllocator sampleErrorCodes 0x300
        (LoaderState.init 0x08800000)).1.value = 0 ∧
     (sceUtilityLoadModule bumpAllocator sampleErrorCodes 0x302
        (runCalls bumpAllocator sampleErrorCodes [ModuleCall.LoadModule 0x300]
          (LoaderState.init 0x08800000))).1.value = 0 ∧
     (sceUtilityUnloadModule bumpAllocator sampleErrorCodes 0x300
        (runCalls bumpAllocator sampleErrorCodes
          [ModuleCall.LoadModule 0x300, ModuleCall.LoadModule 0x302]
          (LoaderState.init 0x08800000))).1.value = 0 ∧
     (runCalls bumpAllocator sampleErrorCodes
        [ModuleCall.LoadModule 0x300, ModuleCall.LoadModule 0x302, ModuleCall.UnloadModule 0x300]
        (LoaderState.init 0x08800000)).currentlyLoadedModules = [(0x302, 0x08800000)] ∧
     (__UtilityModuleInfo 0x302).map depList = some [0x300]) := by
  have hrun : (UnloadModuleInternal A E module s).1 = 0 ∧
      (UnloadModuleInternal A E module s).2.currentlyLoadedModules
        = ModuleMap.erase s.currentlyLoadedModules (u32ToInt module) := by
    rw [unload_success A E module s info a hinfo hl]
    by_cases ha : a = 0
    · simp [ha]
    · simp [ha]
  refine ⟨hrun.1, ?_, ?_, by decide⟩
  · rw [hrun.2, ModuleMap.find_erase]
    simp
  · intro k hk
    rw [hrun.2, ModuleMap.find_erase]
    simp [hk]

/-- Witness for C36: unloading 0x300 while 0x302, which lists it, is loaded. -/
theorem C36_unload_ignores_dependents_witness :
    (__UtilityModuleInfo (u32ToInt 0x300)
        = some (ModuleLoadInfo.ctor 0x300 0x00000000 "av_avcodec"
            (some ModuleLoadCallback.NotifyLoadStatusAvcodec)) ∧
     ModuleMap.find sampleLoadedState.currentlyLoadedModules (u32ToInt 0x300) = some 0 ∧
     ModuleMap.find sampleLoadedState.currentlyLoadedModules 0x302 = some 0x08800000) ∧
    (UnloadModuleInternal bumpAllocator sampleErrorCodes 0x300 sampleLoadedState).1 = 0 :=
  ⟨⟨by decide, by decide, by decide⟩,
   (C36_unload_ignores_dependents bumpAllocator sampleErrorCodes 0x300 sampleLoadedState
     (ModuleLoadInfo.ctor 0x300 0x00000000 "av_avcodec"
       (some ModuleLoadCallback.NotifyLoadStatusAvcodec)) 0 (by decide) (by decide)).1⟩

/-- C37: the ids of `moduleLoadInfo` are pairwise distinct; every id
`0x300 | module` with `module <= 7`, as the AV syscalls form it, is in the
catalogue; every id listed as a dependency is a catalogue id other than the
module that lists it; and for every catalogue module, whatever the allocator
gives, calling `LoadModuleInternal` from the empty table for its listed
dependencies in list order and then for the module returns 0 every time. -/
theorem C37_catalog_loadable {α : Type} (A : BlockAllocator α) (E : ErrorCodes) (mem : α) :
    (moduleLoadInfo.map (fun info => info.mod)).Nodup ∧
    (∀ module : Nat, module ≤ 7 → inCatalog (u32ToInt (0x300 ||| module))) ∧
    (∀ info ∈ moduleLoadInfo, ∀ d ∈ depList info, inCatalog d ∧ d ≠ info.mod) ∧
    (∀ info ∈ moduleLoadInfo,
      loadResults A E (loadOrder info) (LoaderState.init mem)
        = List.replicate (loadOrder info).length 0) := by
  refine ⟨by decide, ?_, by decide, ?_⟩
  · intro module hm
    interval_cases module <;> decide
  · intro info hinfo
    have hall : ∀ i ∈ moduleLoadInfo, canLoadSeq [] (loadOrder i) = true := by decide
    exact loadResults_of_canLoadSeq A E (loadOrder info) (LoaderState.init mem) []
      (fun k => by simp [LoaderState.init, ModuleMap.find]) (hall info hinfo)

/-- Witness for C37: module 0x108 (`usb_pspcm`), which lists five
dependencies, one of them (0x105) with dependencies of its own. -/
theorem C37_catalog_loadable_witness :
    ModuleLoadInfo.ctorDeps 0x108 0x00008000 "usb_pspcm" httpStorageModuleDeps none
      ∈ moduleLoadInfo ∧
    loadResults bumpAllocator sampleErrorCodes
        (loadOrder (ModuleLoadInfo.ctorDeps 0x108 0x00008000 "usb_pspcm"
          httpStorageModuleDeps none))
        (LoaderState.init 0x08800000)
      = List.replicate (loadOrder (ModuleLoadInfo.ctorDeps 0x108 0x00008000 "usb_pspcm"
          httpStorageModuleDeps none)).length 0 :=
  ⟨by decide,
   (C37_catalog_loadable bumpAllocator sampleErrorCodes 0x08800000).2.2.2
     (ModuleLoadInfo.ctorDeps 0x108 0x00008000 "usb_pspcm" httpStorageModuleDeps none)
     (by decide)⟩

/-- C38: for a catalogue module of non-zero size that is not loaded and whose
listed dependencies are loaded, `LoadModuleInternal` returns 0 whatever
`userMemory.Alloc` returns; the table then maps the module to the value `Alloc`
returned (the failure value included), the allocator is the one `Alloc` left,
and the notify callback, when the module has one, is called with state 1, that
value and the size. -/
theorem C38_load_ignores_allocator {α : Type} (A : BlockAllocator α) (E : ErrorCodes)
    (module : Nat) (s : LoaderState α) (info : ModuleLoadInfo)
    (hinfo : __UtilityModuleInfo (u32ToInt module) = some info)
    (hsize : info.size ≠ 0)
    (hnl : ModuleMap.find s.currentlyLoadedModules (u32ToInt module) = none)
    (hdeps : depsLoaded s.currentlyLoadedModules info.dependencies = true) :
    (LoadModuleInternal A E module s).1 = 0 ∧
    ModuleMap.find (LoadModuleInternal A E module s).2.currentlyLoadedModules (u32ToInt module)
      = some (A.Alloc s.userMemory info.size false (allocTag module info.name)).1 ∧
    (LoadModuleInternal A E module s).2.userMemory
      = (A.Alloc s.userMemory info.size false (allocTag module info.name)).2 ∧
    (∀ cb, info.notify = some cb →
      notifyCalls (LoadModuleInternal A E module s).2.trace
        = notifyCalls s.trace ++
          [(cb, 1, (A.Alloc s.userMemory info.size false (allocTag module info.name)).1,
            info.size)]) ∧
    (info.notify = none →
      notifyCalls (LoadModuleInternal A E module s).2.trace = notifyCalls s.trace) := by
  rw [load_success A E module s info hinfo hnl hdeps]
  simp only [hsize, ne_eq, not_false_eq_true, if_true]
  refine ⟨trivial, ?_, trivial, ?_, ?_⟩
  · rw [ModuleMap.find_assign]
    simp
  · intro cb hcb
    rw [notifyCalls_append, notifyCalls_append, notifyCalls_notifyEvents, hcb]
    simp [notifyCalls]
  · intro hnone
    rw [notifyCalls_append, notifyCalls_append, notifyCalls_notifyEvents, hnone]
    simp [notifyCalls]

/-- Witness for C38: module 0x302 loaded on top of 0x300 with an allocator
that fails: the call returns 0 and the table records `(u32)-1`. -/
theorem C38_load_ignores_allocator_witness :
    (__UtilityModuleInfo (u32ToInt 0x302)
        = some (ModuleLoadInfo.ctorDeps 0x302 0x00008000 "av_atrac3plus" atrac3PlusModuleDeps
            (some ModuleLoadCallback.NotifyLoadStatusAtrac)) ∧
     (ModuleLoadInfo.ctorDeps 0x302 0x00008000 "av_atrac3plus" atrac3PlusModuleDeps
        (some ModuleLoadCallback.NotifyLoadStatusAtrac)).size ≠ 0 ∧
     ModuleMap.find sampleState.currentlyLoadedModules (u32ToInt 0x302) = none ∧
     depsLoaded sampleState.currentlyLoadedModules
       (ModuleLoadInfo.ctorDeps 0x302 0x00008000 "av_atrac3plus" atrac3PlusModuleDeps
         (some ModuleLoadCallback.NotifyLoadStatusAtrac)).dependencies = true) ∧
    (LoadModuleInternal failingAllocator sampleErrorCodes 0x302 sampleState).1 = 0 ∧
    ModuleMap.find
        (LoadModuleInternal failingAllocator sampleErrorCodes 0x302
          sampleState).2.currentlyLoadedModules (u32ToInt 0x302)
      = some 0xFFFFFFFF :=
  ⟨⟨by decide, by decide, by decide, by decide⟩,
   (C38_load_ignores_allocator failingAllocator sampleErrorCodes 0x302 sampleState
     (ModuleLoadInfo.ctorDeps 0x302 0x00008000 "av_atrac3plus" atrac3PlusModuleDeps
       (some ModuleLoadCallback.NotifyLoadStatusAtrac))
     (by decide) (by decide) (by decide) (by decide)).1,
   (C38_load_ignores_allocator failingAllocator sampleErrorCodes 0x302 sampleState
     (ModuleLoadInfo.ctorDeps 0x302 0x00008000 "av_atrac3plus" atrac3PlusModuleDeps
       (some ModuleLoadCallback.NotifyLoadStatusAtrac))
     (by decide) (by decide) (by decide) (by decide)).2.1⟩

/-! ## Theorems on the version-1 restore and on `InitStart` results -/

theorem doState_v1_table {α δ : Type} (V : Env α δ) (t : UtilityDialogType)
    (active : Bool) (b1 b2 b3 b4 b5 b6 : List Nat) (S : List Int) (s : UtilityState α δ) :
    (__UtilityDoState V (snapshotV1 t active b1 b2 b3 b4 b5 b6 S) s).2.loader.currentlyLoadedModules
      = assignOldModules s.loader.currentlyLoadedModules S := by
  cases hth : s.accessThread <;>
    simp [__UtilityDoState, snapshotV1, PointerWrap.Section, DoDialogType, DoFlag,
      dialogDoState, DoSet, hth]

/-- C39: reading a version-1 block with id set `S` into a state whose table
is not empty does not clear the table: every id of `S` is mapped to 0 afterwards
(whatever address it had before), and every other id is looked up as before —
an entry present before and not in `S` is still there with its address, and no
other entry appears. -/
theorem C39_restore_v1_keeps_entries {α δ : Type} (V : Env α δ) (t : UtilityDialogType)
    (active : Bool) (b1 b2 b3 b4 b5 b6 : List Nat) (S : List Int) (s : UtilityState α δ)
    (k : Int) :
    (k ∈ S →
      ModuleMap.find
        (__UtilityDoState V (snapshotV1 t active b1 b2 b3 b4 b5 b6 S)
          s).2.loader.currentlyLoadedModules k = some 0) ∧
    (k ∉ S →
      ModuleMap.find
        (__UtilityDoState V (snapshotV1 t active b1 b2 b3 b4 b5 b6 S)
          s).2.loader.currentlyLoadedModules k
        = ModuleMap.find s.loader.currentlyLoadedModules k) := by
  rw [doState_v1_table, find_assignOldModules]
  constructor
  · intro h; simp [h]
  · intro h; simp [h]

/-- Witness for C39: a table holding 0x300 (address 0) and 0x302 (address
0x08800000), restored from a version-1 block that lists 0x302 and 0x100:
0x300 stays, 0x302 is reset to 0. -/
theorem C39_restore_v1_keeps_entries_witness :
    ((0x300 : Int) ∉ [(0x302 : Int), 0x100] ∧ (0x302 : Int) ∈ [(0x302 : Int), 0x100] ∧
     ModuleMap.find loadedUtilityState.loader.currentlyLoadedModules 0x302
       = some 0x08800000) ∧
    ModuleMap.find
        (__UtilityDoState sampleEnv
          (snapshotV1 UtilityDialogType.MSG true [] [] [] [] [] [] [0x302, 0x100])
          loadedUtilityState).2.loader.currentlyLoadedModules 0x300
      = ModuleMap.find loadedUtilityState.loader.currentlyLoadedModules 0x300 ∧
    ModuleMap.find
        (__UtilityDoState sampleEnv
          (snapshotV1 UtilityDialogType.MSG true [] [] [] [] [] [] [0x302, 0x100])
          loadedUtilityState).2.loader.currentlyLoadedModules 0x302
      = some 0 :=
  ⟨⟨by decide, by decide, by decide⟩,
   (C39_restore_v1_keeps_entries sampleEnv UtilityDialogType.MSG true [] [] [] [] [] []
     [0x302, 0x100] loadedUtilityState 0x300).2 (by decide),
   (C39_restore_v1_keeps_entries sampleEnv UtilityDialogType.MSG true [] [] [] [] [] []
     [0x302, 0x100] loadedUtilityState 0x302).1 (by decide)⟩

/-- C40: from an inactive session, the `InitStart` syscall of SAVEDATA, MSG,
OSK, NET, SCREENSHOT or NPSIGNIN returns the result of the dialog's `Init`
whatever its sign and leaves the session active with `currentDialogType` the
syscall's type; `sceUtilityGamedataInstallInitStart` also returns the result of
`Init`, but leaves the session inactive when that result is negative (and
active with type GAMEDATAINSTALL otherwise);
`sceUtilityGameSharingInitStart` calls no `Init`, returns 0 and leaves the
session active. -/
theorem C40_init_result_kept {α δ : Type} (V : Env α δ) (U : UtilityErrorCodes)
    (c : DialogSyscall) (s : UtilityState α δ)
    (hkind : c.kind = SyscallKind.InitStart)
    (hinactive : s.currentDialogActive = false) :
    (c.dialogType ≠ UtilityDialogType.GAMEDATAINSTALL →
     c.dialogType ≠ UtilityDialogType.GAMESHARING →
      (DialogSyscall.exec V U c s).1
        = hleReturn (V.dialog c.dialogType (DialogMethod.Init c.initArg)
            (ActivateDialog V c.dialogType s).outside).1 ∧
      (DialogSyscall.exec V U c s).2.currentDialogActive = true ∧
      (DialogSyscall.exec V U c s).2.currentDialogType = c.dialogType) ∧
    (c.dialogType = UtilityDialogType.GAMEDATAINSTALL →
      (DialogSyscall.exec V U c s).1
        = hleReturn (V.dialog c.dialogType (DialogMethod.Init c.initArg)
            (ActivateDialog V c.dialogType s).outside).1 ∧
      ((DialogSyscall.exec V U c s).1.value < 0 →
        (DialogSyscall.exec V U c s).2.currentDialogActive = false) ∧
      (0 ≤ (DialogSyscall.exec V U c s).1.value →
        (DialogSyscall.exec V U c s).2.currentDialogActive = true ∧
        (DialogSyscall.exec V U c s).2.currentDialogType = c.dialogType)) ∧
    (c.dialogType = UtilityDialogType.GAMESHARING →
      (DialogSyscall.exec V U c s).1 = hleReturn 0 ∧
      (DialogSyscall.exec V U c s).2.currentDialogActive = true ∧
      (DialogSyscall.exec V U c s).2.currentDialogType = c.dialogType) := by
  have hacc : ∀ type : UtilityDialogType,
      ¬ (s.currentDialogActive = true ∧ s.currentDialogType ≠ type) := by
    intro type h
    rw [hinactive] at h
    exact Bool.false_ne_true h.1
  have hg := fun type => initGuard_false s type (hacc type)
  have htail := fun type m => initTail_session V type m s (hacc type)
  have hres := fun type m => (callDialog_frame V type m (ActivateDialog V type s)).1
  cases c <;> simp [DialogSyscall.kind] at hkind <;>
    simp only [DialogSyscall.dialogType, DialogSyscall.initArg, ne_eq, not_true_eq_false,
      reduceCtorEq, not_false_eq_true, false_implies, true_implies, implies_true, true_and,
      and_true]
  · simp only [DialogSyscall.exec, sceUtilitySavedataInitStart, hg]
    exact ⟨by rw [← hres]; rfl, htail _ _⟩
  · simp only [DialogSyscall.exec, sceUtilityMsgDialogInitStart, hg]
    exact ⟨by rw [← hres]; rfl, htail _ _⟩
  · simp only [DialogSyscall.exec, sceUtilityOskInitStart, hg]
    exact ⟨by rw [← hres]; rfl, htail _ _⟩
  · simp only [DialogSyscall.exec, sceUtilityNetconfInitStart, hg]
    exact ⟨by rw [← hres]; rfl, htail _ _⟩
  · simp only [DialogSyscall.exec, sceUtilityScreenshotInitStart, hg]
    exact ⟨by rw [← hres]; rfl, htail _ _⟩
  · rename_i p
    simp only [DialogSyscall.exec, sceUtilityGamedataInstallInitStart, hg,
      Bool.false_eq_true, if_false, hleReturn]
    refine ⟨by rw [← hres], ?_, ?_⟩
    · intro hneg
      simp only [hneg, if_true]
      exact (DeactivateDialog_frame V _).1
    · intro hnn
      have hn : ¬ (callDialog V UtilityDialogType.GAMEDATAINSTALL (DialogMethod.Init p)
          (ActivateDialog V UtilityDialogType.GAMEDATAINSTALL s)).1 < 0 := not_lt.mpr hnn
      simp only [hn, if_false]
      exact htail _ _
  · simp only [DialogSyscall.exec, sceUtilityNpSigninInitStart, hg]
    exact ⟨by rw [← hres]; rfl, htail _ _⟩
  · simp only [DialogSyscall.exec, sceUtilityGameSharingInitStart, hg]
    exact ⟨rfl, (ActivateDialog_inactive V _ s hinactive).2.1,
      (ActivateDialog_inactive V _ s hinactive).1⟩

/-- Witness for C40: on the fresh sample state the message dialog's `Init`
fails (-1) for a null parameter block; the syscall returns -1 and the session
is active with type MSG. -/
theorem C40_init_result_kept_witness :
    ((DialogSyscall.MsgDialogInitStart 0).kind = SyscallKind.InitStart ∧
     freshState.currentDialogActive = false ∧
     (DialogSyscall.MsgDialogInitStart 0).dialogType ≠ UtilityDialogType.GAMEDATAINSTALL ∧
     (DialogSyscall.MsgDialogInitStart 0).dialogType ≠ UtilityDialogType.GAMESHARING ∧
     (sampleEnv.dialog UtilityDialogType.MSG (DialogMethod.Init 0)
        (ActivateDialog sampleEnv UtilityDialogType.MSG freshState).outside).1 = -1) ∧
    (DialogSyscall.exec sampleEnv sampleUtilityErrorCodes (DialogSyscall.MsgDialogInitStart 0)
        freshState).1
      = hleReturn (sampleEnv.dialog (DialogSyscall.MsgDialogInitStart 0).dialogType
          (DialogMethod.Init (DialogSyscall.MsgDialogInitStart 0).initArg)
          (ActivateDialog sampleEnv (DialogSyscall.MsgDialogInitStart 0).dialogType
            freshState).outside).1 ∧
    (DialogSyscall.exec sampleEnv sampleUtilityErrorCodes (DialogSyscall.MsgDialogInitStart 0)
        freshState).2.currentDialogActive = true :=
  ⟨⟨rfl, rfl, by decide, by decide, rfl⟩,
   ((C40_init_result_kept sampleEnv sampleUtilityErrorCodes (DialogSyscall.MsgDialogInitStart 0)
      freshState rfl rfl).1 (by decide) (by decide)).1,
   ((C40_init_result_kept sampleEnv sampleUtilityErrorCodes (DialogSyscall.MsgDialogInitStart 0)
      freshState rfl rfl).1 (by decide) (by decide)).2.1⟩

end SceUtility
